import Mathlib

/-!
# connman `tools/supplicant.c`: the wpa_supplicant tracking core

A shallow embedding of the BSS builder (`bss_property`), the IE parser
(`extract_rsn`), the network indexer (`create_name`, `create_group`,
`add_bss_to_network`), the per-interface BSS handlers (`interface_bss_added`,
`interface_bss_removed`), the interface tracker (`interface_property`,
`interface_added`, `interface_removed`), the handlers of the root object
(`service_property`, `signal_name_owner_changed`), the signal router
(`supplicant_filter` and the `signal_*` functions), the interface creation
(`interface_get_result`, `interface_create_result`) and the getters of
`tools/supplicant.c`, followed by theorems about them.

Conventions of the embedding

* `unsigned char` is `Byte = Fin 256`; `dbus_uint16_t` is a `Nat` reduced
  modulo `65536` where it is read; `int` is `Int`; `dbus_bool_t` is `Bool`.
* A `GHashTable` is a list of its values, each value carrying its own key
  (the C code always uses a field of the value as the key: `network->group`,
  `bss->path`); lookups, replacements and removals go through the
  `g_hash_table_*` functions below and never look at the order.
* A `struct supplicant_network *` held in `bss_mapping` is represented by the
  group key under which that network is stored in `network_table`;
  dereferencing it is a lookup in `network_table`.
* The callbacks handed to the upper layer are collected in a trace of
  `callback_event`s, oldest first.
* A `struct supplicant_interface *` is represented by the path under which the
  interface is stored in `interface_table`.
* What a handler does towards the peer and the upper layer is collected in a
  list of `bus_action`s, oldest first.
* Allocation (`g_try_new0`, `g_try_malloc0`, `g_string_sized_new`) succeeds.
-/

namespace Supplicant

/-! ## Data model -/

/-- An `unsigned char`. -/
abbrev Byte := Fin 256

/-- Modelled from the spec: `enum supplicant_mode` of `supplicant.h` (the header is
not part of the sources at hand); `UNKNOWN` is the value of zeroed memory. -/
inductive supplicant_mode where
  | UNKNOWN
  | INFRA
  | IBSS
deriving DecidableEq, Repr

/-- Modelled from the spec: `enum supplicant_security` of `supplicant.h`; `UNKNOWN`
is the value of zeroed memory. -/
inductive supplicant_security where
  | UNKNOWN
  | NONE
  | WEP
  | PSK
  | IEEE8021X
deriving DecidableEq, Repr

/-- The `struct supplicant_bss`. The `interface` pointer is the path of the owning
interface (`none` is `NULL`). -/
structure supplicant_bss where
  interface : Option String
  path : String
  bssid : List Byte
  ssid : List Byte
  ssid_len : Nat
  frequency : Nat
  mode : supplicant_mode
  security : supplicant_security
  privacy : Bool
  psk : Bool
  ieee8021x : Bool
deriving DecidableEq, Repr

/-- The `struct supplicant_network`; `bss_table` is keyed by `bss->path`. The
`interface` pointer is never assigned by the code and stays `NULL`. -/
structure supplicant_network where
  interface : Option String
  group : String
  name : String
  mode : supplicant_mode
  bss_table : List supplicant_bss
deriving DecidableEq, Repr

/-- Modelled from the spec: `enum supplicant_state` of `supplicant.h`. -/
inductive supplicant_state where
  | UNKNOWN
  | DISCONNECTED
  | INACTIVE
  | SCANNING
  | AUTHENTICATING
  | ASSOCIATING
  | ASSOCIATED
  | GROUP_HANDSHAKE
  | FOUR_WAY_HANDSHAKE
  | COMPLETED
deriving DecidableEq, Repr

/-- The `struct supplicant_interface`. `network_table` is keyed by
`network->group`; `bss_mapping` maps a BSS path to the network that owns it,
the network pointer being represented by its group key. -/
structure supplicant_interface where
  path : String
  keymgmt_capa : Nat
  authalg_capa : Nat
  proto_capa : Nat
  group_capa : Nat
  pairwise_capa : Nat
  scan_capa : Nat
  mode_capa : Nat
  state : supplicant_state
  scanning : Bool
  apscan : Int
  ifname : Option String
  driver : Option String
  bridge : Option String
  network_table : List supplicant_network
  bss_mapping : List (String × String)
deriving DecidableEq, Repr

/-- Modelled from the spec: `struct supplicant_callbacks` of `supplicant.h`, a table of
optional function pointers; a field is `true` when the pointer is not `NULL`. -/
structure supplicant_callbacks where
  system_ready : Bool
  system_killed : Bool
  interface_added : Bool
  interface_removed : Bool
  scan_started : Bool
  scan_finished : Bool
  network_added : Bool
  network_removed : Bool
deriving DecidableEq, Repr

/-- One call into the upper layer, with the object it was handed as it was at the
time of the call. -/
inductive callback_event where
  | system_ready
  | system_killed
  | interface_added (interface : supplicant_interface)
  | interface_removed (interface : supplicant_interface)
  | scan_started (interface : supplicant_interface)
  | scan_finished (interface : supplicant_interface)
  | network_added (network : supplicant_network)
  | network_removed (network : supplicant_network)
deriving DecidableEq, Repr

/-! ## GLib hash tables -/

/-- GLib `g_hash_table_lookup`: the value stored under `k`, if any. -/
def g_hash_table_lookup {V : Type} (key : V → String) (table : List V) (k : String) :
    Option V :=
  table.find? (fun v => key v == k)

/-- GLib `g_hash_table_remove`: the table without the entry for `k`. -/
def g_hash_table_remove {V : Type} (key : V → String) (table : List V) (k : String) :
    List V :=
  table.filter (fun v => key v != k)

/-- GLib `g_hash_table_replace`: `v` takes the place of the entry with its key, or is
added when there is none. -/
def g_hash_table_replace {V : Type} (key : V → String) (table : List V) (v : V) :
    List V :=
  if table.any (fun w => key w == key v) then
    table.map (fun w => if key w == key v then v else w)
  else
    table ++ [v]

/-- GLib `g_hash_table_size`. -/
def g_hash_table_size {V : Type} (table : List V) : Nat :=
  table.length

/-! ## String conversions -/

/-- The function `string2mode`. -/
def string2mode (mode : Option String) : supplicant_mode :=
  match mode with
  | none => supplicant_mode.UNKNOWN
  | some m =>
    if m == "infrastructure" then supplicant_mode.INFRA
    else if m == "ad-hoc" then supplicant_mode.IBSS
    else supplicant_mode.UNKNOWN

/-- The function `mode2string`; `none` is the `NULL` result. -/
def mode2string (mode : supplicant_mode) : Option String :=
  match mode with
  | supplicant_mode.UNKNOWN => none
  | supplicant_mode.INFRA => some "infra"
  | supplicant_mode.IBSS => some "adhoc"

/-- The function `security2string`; `none` is the `NULL` result. -/
def security2string (security : supplicant_security) : Option String :=
  match security with
  | supplicant_security.UNKNOWN => none
  | supplicant_security.NONE => some "none"
  | supplicant_security.WEP => some "wep"
  | supplicant_security.PSK => some "psk"
  | supplicant_security.IEEE8021X => some "ieee8021x"

/-! ## Callbacks -/

/-- The function `callback_network_added`: forwards to the registered function, if
there is one. -/
def callback_network_added (callbacks_pointer : Option supplicant_callbacks)
    (network : supplicant_network) : List callback_event :=
  match callbacks_pointer with
  | none => []
  | some callbacks =>
    if callbacks.network_added then [callback_event.network_added network] else []

/-- The function `callback_network_removed`: forwards to the registered function, if
there is one. -/
def callback_network_removed (callbacks_pointer : Option supplicant_callbacks)
    (network : supplicant_network) : List callback_event :=
  match callbacks_pointer with
  | none => []
  | some callbacks =>
    if callbacks.network_removed then [callback_event.network_removed network] else []

/-- The function `remove_network`, the value destructor of `network_table`: the callback, then the
memory is released. -/
def remove_network (callbacks_pointer : Option supplicant_callbacks)
    (network : supplicant_network) : List callback_event :=
  callback_network_removed callbacks_pointer network

/-! ## Network indexer -/

/-- GLib `g_ascii_isprint`: the printable ASCII characters, space to tilde. -/
def g_ascii_isprint (c : Byte) : Bool :=
  decide (0x20 ≤ c.val) && decide (c.val ≤ 0x7e)

/-- The function `create_name`: the display name of an SSID. The `i`-th byte of the
zeroed buffer of `ssid_len + 1` bytes is written for every `i < ssid_len`; none of the
written bytes is zero, so the C string is exactly those bytes. -/
def create_name (ssid : List Byte) (ssid_len : Int) : String :=
  if ssid_len < 1 ∨ ssid.getD 0 0 = 0 then
    ""
  else
    String.mk ((List.range ssid_len.toNat).map (fun i =>
      if g_ascii_isprint (ssid.getD i 0) then Char.ofNat (ssid.getD i 0).val else ' '))

/-- One lowercase hexadecimal digit, as `printf` writes it. -/
def hex_digit (n : Nat) : Char :=
  "0123456789abcdef".data.getD n '0'

/-- The output of `"%02x"` for an `unsigned char`. -/
def printf_02x (b : Byte) : String :=
  String.mk [hex_digit (b.val / 16), hex_digit (b.val % 16)]

/-- The function `create_group`: the group key of a BSS. -/
def create_group (bss : supplicant_bss) : String :=
  let str := ""
  let str :=
    if bss.ssid_len > 0 ∧ bss.ssid.getD 0 0 ≠ 0 then
      (List.range bss.ssid_len).foldl (fun s i => s ++ printf_02x (bss.ssid.getD i 0)) str
    else
      str ++ "hidden"
  let str :=
    match mode2string bss.mode with
    | some mode => str ++ "_" ++ mode
    | none => str
  match security2string bss.security with
  | some security => str ++ "_" ++ security
  | none => str

/-- The function `add_bss_to_network`: find or create the network of the BSS group and
index the BSS in it. Returns the interface afterwards and the callbacks made. -/
def add_bss_to_network (callbacks_pointer : Option supplicant_callbacks)
    (interface : supplicant_interface) (bss : supplicant_bss) :
    supplicant_interface × List callback_event :=
  let group := create_group bss
  let (interface, emitted) :=
    match g_hash_table_lookup supplicant_network.group interface.network_table group with
    | some _ => (interface, [])
    | none =>
      let network : supplicant_network :=
        { interface := none
          group := group
          name := create_name bss.ssid bss.ssid_len
          mode := bss.mode
          bss_table := [] }
      ({ interface with
          network_table :=
            g_hash_table_replace supplicant_network.group interface.network_table network },
        callback_network_added callbacks_pointer network)
  -- done:
  ({ interface with
      bss_mapping := g_hash_table_replace Prod.fst interface.bss_mapping (bss.path, group)
      network_table := interface.network_table.map (fun network =>
        if network.group == group then
          { network with
            bss_table := g_hash_table_replace supplicant_bss.path network.bss_table bss }
        else network) },
    emitted)

/-! ## IE parser -/

/-- The Wi-Fi Alliance OUI. -/
def wifi_oui : List Byte := [0x00, 0x50, 0xf2]

/-- The IEEE 802.11 OUI. -/
def ieee80211_oui : List Byte := [0x00, 0x0f, 0xac]

/-- The test `memcmp(ptr, oui, 3) == 0`. -/
def memcmp3_eq (ptr oui : List Byte) : Bool :=
  (List.range 3).all (fun j => ptr.getD j 0 == oui.getD j 0)

/-- The body of the loop of `extract_rsn` over the AKM suites, `ptr` pointing at the
suite. -/
def extract_rsn_suite (bss : supplicant_bss) (ptr : List Byte) : supplicant_bss :=
  if memcmp3_eq ptr wifi_oui then
    if ptr.getD 3 0 = 1 then { bss with ieee8021x := true }
    else if ptr.getD 3 0 = 2 then { bss with psk := true }
    else bss
  else if memcmp3_eq ptr ieee80211_oui then
    if ptr.getD 3 0 = 1 then { bss with ieee8021x := true }
    else if ptr.getD 3 0 = 2 then { bss with psk := true }
    else bss
  else bss

/-- The 16-bit count `buf[0] | (buf[1] << 8)` stored in a `uint16_t`. -/
def rsn_count (buf : List Byte) : Nat :=
  ((buf.getD 0 0).val ||| ((buf.getD 1 0).val <<< 8)) % 65536

/-- The function `extract_rsn`: scan the body of an RSN or WPA information element. -/
def extract_rsn (bss : supplicant_bss) (buf : List Byte) (len : Int) : supplicant_bss :=
  -- Version
  if len < 2 then bss else
  let buf := buf.drop 2
  let len := len - 2
  -- Group cipher
  if len < 4 then bss else
  let buf := buf.drop 4
  let len := len - 4
  -- Pairwise cipher
  if len < 2 then bss else
  let count := rsn_count buf
  if 2 + ((count : Int) * 4) > len then bss else
  let buf := buf.drop (2 + (count * 4))
  let len := len - (2 + ((count : Int) * 4))
  -- Authentication
  if len < 2 then bss else
  let count := rsn_count buf
  if 2 + ((count : Int) * 4) > len then bss else
  (List.range count).foldl
    (fun bss i => extract_rsn_suite bss (buf.drop (2 + (i * 4)))) bss

/-! ## BSS builder -/

/-- Modelled from the spec: the typed value a property carries on the bus, as the
iterator of the bus library (libdbus, and `supplicant-dbus.c` which is not part of
the sources at hand) presents it. -/
inductive DBusValue where
  | byte_array (bytes : List Byte)
  | uint16 (value : Nat)
  | int16 (value : Int)
  | int32 (value : Int)
  | boolean (value : Bool)
  | string (value : String)
  | object_path (path : String)
  | object_paths (paths : List String)
  | strings (values : List String)
  | string_array_dict (entries : List (String × List String))
  | debug_params (level : Int) (timestamp : Bool) (showkeys : Bool)
  | other
deriving DecidableEq, Repr

/-- The calls `dbus_message_iter_recurse` followed by `dbus_message_iter_get_fixed_array` on a
byte array. A value of another type reads as the empty array. -/
def get_fixed_array (iter : DBusValue) : List Byte :=
  match iter with
  | DBusValue.byte_array bytes => bytes
  | _ => []

/-- The call `dbus_message_iter_get_basic` into a `dbus_uint16_t` initialised with `init`. -/
def get_basic_uint16 (iter : DBusValue) (init : Nat) : Nat :=
  match iter with
  | DBusValue.uint16 value => value % 65536
  | _ => init

/-- The call `dbus_message_iter_get_basic` into a `dbus_bool_t` initialised with `init`. -/
def get_basic_boolean (iter : DBusValue) (init : Bool) : Bool :=
  match iter with
  | DBusValue.boolean value => value
  | _ => init

/-- The call `dbus_message_iter_get_basic` into a `const char *` initialised with `NULL`. -/
def get_basic_string (iter : DBusValue) : Option String :=
  match iter with
  | DBusValue.string value => some value
  | _ => none

/-- The constant `IEEE80211_CAP_ESS`. -/
def IEEE80211_CAP_ESS : Nat := 0x0001

/-- The constant `IEEE80211_CAP_IBSS`. -/
def IEEE80211_CAP_IBSS : Nat := 0x0002

/-- The constant `IEEE80211_CAP_PRIVACY`. -/
def IEEE80211_CAP_PRIVACY : Nat := 0x0010

/-- What `bss_property` works on: the BSS under construction (`user_data`), the
interface `bss->interface` points to, and the callbacks made so far. -/
structure bss_context where
  interface : supplicant_interface
  bss : supplicant_bss
  emitted : List callback_event
deriving DecidableEq, Repr

/-- The function `bss_property`: one key of the property bag of a BSS, or the end of the bag
(`key = none`, the `NULL` key). -/
def bss_property (callbacks_pointer : Option supplicant_callbacks) (key : Option String)
    (iter : DBusValue) (ctx : bss_context) : bss_context :=
  let bss := ctx.bss
  if bss.interface = none then ctx else
  match key with
  | none =>
    let bss :=
      { bss with
        security :=
          if bss.ieee8021x = true then supplicant_security.IEEE8021X
          else if bss.psk = true then supplicant_security.PSK
          else if bss.privacy = true then supplicant_security.WEP
          else supplicant_security.NONE }
    let (interface, emitted) := add_bss_to_network callbacks_pointer ctx.interface bss
    { interface := interface, bss := bss, emitted := ctx.emitted ++ emitted }
  | some key =>
    if key == "BSSID" then
      let addr := get_fixed_array iter
      if addr.length = 6 then { ctx with bss := { bss with bssid := addr } } else ctx
    else if key == "SSID" then
      let ssid := get_fixed_array iter
      let ssid_len := ssid.length
      if ssid_len > 0 ∧ ssid_len < 33 then
        { ctx with bss := { bss with
            ssid := ssid ++ bss.ssid.drop ssid_len
            ssid_len := ssid_len } }
      else
        { ctx with bss := { bss with
            ssid := List.replicate bss.ssid.length 0
            ssid_len := 0 } }
    else if key == "Capabilities" then
      let capabilities := get_basic_uint16 iter 0x0000
      { ctx with bss := { bss with
          mode :=
            if capabilities &&& IEEE80211_CAP_ESS ≠ 0 then supplicant_mode.INFRA
            else if capabilities &&& IEEE80211_CAP_IBSS ≠ 0 then supplicant_mode.IBSS
            else bss.mode
          privacy :=
            if capabilities &&& IEEE80211_CAP_PRIVACY ≠ 0 then true
            else bss.privacy } }
    else if key == "Mode" then
      { ctx with bss := { bss with mode := string2mode (get_basic_string iter) } }
    else if key == "Frequency" then
      { ctx with bss := { bss with frequency := get_basic_uint16 iter 0 } }
    else if key == "Signal" then ctx
    else if key == "Level" then ctx
    else if key == "MaxRate" then ctx
    else if key == "Privacy" then
      { ctx with bss := { bss with privacy := get_basic_boolean iter false } }
    else if key == "RSNIE" then
      let ie := get_fixed_array iter
      let ie_len : Int := ie.length
      if ie_len > 2 then
        { ctx with bss := extract_rsn bss (ie.drop 2) (ie_len - 2) }
      else ctx
    else if key == "WPAIE" then
      let ie := get_fixed_array iter
      let ie_len : Int := ie.length
      if ie_len > 6 then
        { ctx with bss := extract_rsn bss (ie.drop 6) (ie_len - 6) }
      else ctx
    else if key == "WPSIE" then ctx
    else ctx

/-- Modelled from the spec: `supplicant_dbus_property_foreach` of `supplicant-dbus.c`
(not part of the sources at hand) hands every (key, typed value) pair of a property
bag to the handler, in the order of the bag. -/
def supplicant_dbus_property_foreach {σ : Type}
    (function : Option String → DBusValue → σ → σ)
    (properties : List (String × DBusValue)) (ctx : σ) : σ :=
  properties.foldl (fun ctx entry => function (some entry.1) entry.2 ctx) ctx

/-- The `struct supplicant_bss` that `interface_bss_added` allocates: zeroed memory
with the interface pointer and the path filled in. -/
def bss_alloc (interface : supplicant_interface) (path : String) : supplicant_bss :=
  { interface := some interface.path
    path := path
    bssid := List.replicate 6 0
    ssid := List.replicate 32 0
    ssid_len := 0
    frequency := 0
    mode := supplicant_mode.UNKNOWN
    security := supplicant_security.UNKNOWN
    privacy := false
    psk := false
    ieee8021x := false }

/-- The test at the head of `interface_bss_added`: the path has a network in
`bss_mapping` and that network has the path in its `bss_table`. -/
def bss_indexed (interface : supplicant_interface) (path : String) : Bool :=
  match g_hash_table_lookup Prod.fst interface.bss_mapping path with
  | none => false
  | some entry =>
    match g_hash_table_lookup supplicant_network.group interface.network_table entry.2 with
    | none => false
    | some network => (g_hash_table_lookup supplicant_bss.path network.bss_table path).isSome

/-- The function `interface_bss_added`: the handler of `BSSAdded` (and of the elements of `BSSs`
and `CurrentBSS`). `path = none` is a `NULL` path; `properties = none` is a signal
without inline properties, for which only a `GetAll` request is issued. Returns the
interface afterwards and the callbacks made. `properties = some bag` stands for
anything behind the path (the argument type there is not `DBUS_TYPE_INVALID`), `bag`
being the keys that `supplicant_dbus_property_foreach` hands over from it. -/
def interface_bss_added (callbacks_pointer : Option supplicant_callbacks)
    (path : Option String) (properties : Option (List (String × DBusValue)))
    (interface : supplicant_interface) : supplicant_interface × List callback_event :=
  match path with
  | none => (interface, [])
  | some path =>
    if path == "/" then (interface, []) else
    if bss_indexed interface path then (interface, []) else
    let bss := bss_alloc interface path
    match properties with
    | some properties =>
      let ctx : bss_context := { interface := interface, bss := bss, emitted := [] }
      let ctx :=
        supplicant_dbus_property_foreach (bss_property callbacks_pointer) properties ctx
      let ctx := bss_property callbacks_pointer none DBusValue.other ctx
      (ctx.interface, ctx.emitted)
    | none => (interface, [])

/-- The function `interface_bss_removed`: the handler of `BSSRemoved`. Returns the interface
afterwards and the callbacks made. -/
def interface_bss_removed (callbacks_pointer : Option supplicant_callbacks)
    (path : Option String) (interface : supplicant_interface) :
    supplicant_interface × List callback_event :=
  match path with
  | none => (interface, [])
  | some path =>
    match g_hash_table_lookup Prod.fst interface.bss_mapping path with
    | none => (interface, [])
    | some entry =>
      let interface :=
        { interface with
          bss_mapping := g_hash_table_remove Prod.fst interface.bss_mapping path }
      match g_hash_table_lookup supplicant_network.group interface.network_table entry.2 with
      | none => (interface, [])
      | some network =>
        let network :=
          { network with
            bss_table := g_hash_table_remove supplicant_bss.path network.bss_table path }
        let interface :=
          { interface with
            network_table := interface.network_table.map (fun n =>
              if n.group == entry.2 then network else n) }
        if g_hash_table_size network.bss_table = 0 then
          ({ interface with
              network_table :=
                g_hash_table_remove supplicant_network.group interface.network_table
                  network.group },
            remove_network callbacks_pointer network)
        else
          (interface, [])

/-- The interface record `interface_alloc` creates for `path`: zeroed memory with the
path and two empty tables. -/
def interface_alloc (path : String) : supplicant_interface :=
  { path := path
    keymgmt_capa := 0
    authalg_capa := 0
    proto_capa := 0
    group_capa := 0
    pairwise_capa := 0
    scan_capa := 0
    mode_capa := 0
    state := supplicant_state.UNKNOWN
    scanning := false
    apscan := 0
    ifname := none
    driver := none
    bridge := none
    network_table := []
    bss_mapping := [] }

/-! ## Interface tracker -/

/-- The function `string2state`. -/
def string2state (state : Option String) : supplicant_state :=
  match state with
  | none => supplicant_state.UNKNOWN
  | some s =>
    if s == "unknown" then supplicant_state.UNKNOWN
    else if s == "disconnected" then supplicant_state.DISCONNECTED
    else if s == "inactive" then supplicant_state.INACTIVE
    else if s == "scanning" then supplicant_state.SCANNING
    else if s == "authenticating" then supplicant_state.AUTHENTICATING
    else if s == "associating" then supplicant_state.ASSOCIATING
    else if s == "associated" then supplicant_state.ASSOCIATED
    else if s == "group_handshake" then supplicant_state.GROUP_HANDSHAKE
    else if s == "4way_handshake" then supplicant_state.FOUR_WAY_HANDSHAKE
    else if s == "completed" then supplicant_state.COMPLETED
    else supplicant_state.UNKNOWN

/-- Modelled from the spec: the tables of `struct strvalmap`, each string with the bit of
its capability class. The bit values are the macros `SUPPLICANT_CAPABILITY_*` and
`SUPPLICANT_EAP_METHOD_*` of `supplicant.h`, which is not part of the sources at hand;
they are taken as the bit positions in table order. -/
def strvalmap_bits (strings : List String) : List (String × Nat) :=
  strings.enum.map (fun entry => (entry.2, 1 <<< entry.1))

/-- The table `eap_method_map`. -/
def eap_method_map : List (String × Nat) :=
  strvalmap_bits ["MD5", "TLS", "MSCHAPV2", "PEAP", "TTLS", "GTC", "OTP", "LEAP", "WSC"]

/-- The table `keymgmt_capa_map`. -/
def keymgmt_capa_map : List (String × Nat) :=
  strvalmap_bits ["none", "ieee8021x", "wpa-none", "wpa-psk", "wpa-eap", "wps"]

/-- The table `authalg_capa_map`. -/
def authalg_capa_map : List (String × Nat) :=
  strvalmap_bits ["open", "shared", "leap"]

/-- The table `proto_capa_map`. -/
def proto_capa_map : List (String × Nat) :=
  strvalmap_bits ["wpa", "rsn"]

/-- The table `group_capa_map`. -/
def group_capa_map : List (String × Nat) :=
  strvalmap_bits ["wep40", "wep104", "tkip", "ccmp"]

/-- The table `pairwise_capa_map`. -/
def pairwise_capa_map : List (String × Nat) :=
  strvalmap_bits ["none", "tkip", "ccmp"]

/-- The table `scan_capa_map`. -/
def scan_capa_map : List (String × Nat) :=
  strvalmap_bits ["active", "passive", "ssid"]

/-- The table `mode_capa_map`. -/
def mode_capa_map : List (String × Nat) :=
  strvalmap_bits ["infrastructure", "ad-hoc", "ap"]

/-- The loop shared by the `interface_capability_*` functions and `eap_method`: the
bitset `val` with the bit of the first table entry equal to `str` set; unchanged for a
`NULL` or unknown string. -/
def strvalmap_set (map : List (String × Nat)) (str : Option String) (val : Nat) : Nat :=
  match str with
  | none => val
  | some str =>
    match map.find? (fun entry => entry.1 == str) with
    | some entry => val ||| entry.2
    | none => val

/-- The function `interface_capability_keymgmt`. -/
def interface_capability_keymgmt (str : Option String) (interface : supplicant_interface) :
    supplicant_interface :=
  { interface with keymgmt_capa := strvalmap_set keymgmt_capa_map str interface.keymgmt_capa }

/-- The function `interface_capability_authalg`. -/
def interface_capability_authalg (str : Option String) (interface : supplicant_interface) :
    supplicant_interface :=
  { interface with authalg_capa := strvalmap_set authalg_capa_map str interface.authalg_capa }

/-- The function `interface_capability_proto`. -/
def interface_capability_proto (str : Option String) (interface : supplicant_interface) :
    supplicant_interface :=
  { interface with proto_capa := strvalmap_set proto_capa_map str interface.proto_capa }

/-- The function `interface_capability_pairwise`. -/
def interface_capability_pairwise (str : Option String) (interface : supplicant_interface) :
    supplicant_interface :=
  { interface with
    pairwise_capa := strvalmap_set pairwise_capa_map str interface.pairwise_capa }

/-- The function `interface_capability_group`. -/
def interface_capability_group (str : Option String) (interface : supplicant_interface) :
    supplicant_interface :=
  { interface with group_capa := strvalmap_set group_capa_map str interface.group_capa }

/-- The function `interface_capability_scan`. -/
def interface_capability_scan (str : Option String) (interface : supplicant_interface) :
    supplicant_interface :=
  { interface with scan_capa := strvalmap_set scan_capa_map str interface.scan_capa }

/-- The function `interface_capability_mode`. -/
def interface_capability_mode (str : Option String) (interface : supplicant_interface) :
    supplicant_interface :=
  { interface with mode_capa := strvalmap_set mode_capa_map str interface.mode_capa }

/-- Modelled from the spec: `supplicant_dbus_array_foreach` of `supplicant-dbus.c` (not
part of the sources at hand) hands every element of an array to the function, in the
order of the array. -/
def supplicant_dbus_array_foreach {α σ : Type} (function : α → σ → σ)
    (elements : List α) (ctx : σ) : σ :=
  elements.foldl (fun ctx element => function element ctx) ctx

/-- Modelled from the spec: the elements of an array as the function handed to
`supplicant_dbus_array_foreach` (of `supplicant-dbus.c`, not part of the sources at
hand) meets them. Every element is handed over through an iterator positioned on it;
the flag tells whether another element follows, which is what the function finds when
it advances that iterator with `dbus_message_iter_next`. -/
def array_positions {α : Type} (elements : List α) : List (α × Bool) :=
  match elements with
  | [] => []
  | element :: rest => (element, !rest.isEmpty) :: array_positions rest

/-- Modelled from the spec: what `interface_bss_added`, `interface_network_added` and
`interface_added` find behind an object path that is an element of an array, when they
advance the iterator and test the argument type against `DBUS_TYPE_INVALID`. After the
last element there is nothing (`none`: a `GetAll` request is sent). After any other
element there is the next element, so the branch for inline properties is taken; the
next element is an object path and no dictionary, from which
`supplicant_dbus_property_foreach` (of `supplicant-dbus.c`, not part of the sources at
hand) hands over no key: an empty inline bag. -/
def element_properties (follows : Bool) : Option (List (String × DBusValue)) :=
  if follows then some [] else none

/-- The strings of an array of strings; a value of another type has no element. -/
def get_strings (iter : DBusValue) : List (Option String) :=
  match iter with
  | DBusValue.strings values => values.map some
  | _ => []

/-- The object paths of an array of object paths; a value of another type has no
element. -/
def get_object_paths (iter : DBusValue) : List (Option String) :=
  match iter with
  | DBusValue.object_paths paths => paths.map some
  | _ => []

/-- The call `dbus_message_iter_get_basic` into a `const char *` initialised with
`NULL`, for an object path (or a string). -/
def get_basic_path (iter : DBusValue) : Option String :=
  match iter with
  | DBusValue.object_path path => some path
  | DBusValue.string value => some value
  | _ => none

/-- The call `dbus_message_iter_get_basic` into an `int` initialised with `init`. -/
def get_basic_int32 (iter : DBusValue) (init : Int) : Int :=
  match iter with
  | DBusValue.int32 value => value
  | _ => init

/-- The function `interface_capability`: one key of the nested `Capabilities` bag. -/
def interface_capability (key : Option String) (iter : DBusValue)
    (interface : supplicant_interface) : supplicant_interface :=
  match key with
  | none => interface
  | some key =>
    if key == "KeyMgmt" then
      supplicant_dbus_array_foreach interface_capability_keymgmt (get_strings iter) interface
    else if key == "AuthAlg" then
      supplicant_dbus_array_foreach interface_capability_authalg (get_strings iter) interface
    else if key == "Protocol" then
      supplicant_dbus_array_foreach interface_capability_proto (get_strings iter) interface
    else if key == "Pairwise" then
      supplicant_dbus_array_foreach interface_capability_pairwise (get_strings iter) interface
    else if key == "Group" then
      supplicant_dbus_array_foreach interface_capability_group (get_strings iter) interface
    else if key == "Scan" then
      supplicant_dbus_array_foreach interface_capability_scan (get_strings iter) interface
    else if key == "Modes" then
      supplicant_dbus_array_foreach interface_capability_mode (get_strings iter) interface
    else interface

/-- The entries of the nested `Capabilities` bag; a value of another type has none. -/
def get_capabilities (iter : DBusValue) : List (String × DBusValue) :=
  match iter with
  | DBusValue.string_array_dict entries =>
    entries.map (fun entry => (entry.1, DBusValue.strings entry.2))
  | _ => []

/-- The `struct interface_create_data`: the state of one `supplicant_interface_create`
operation. The `interface` pointer is the path of the interface (`none` is `NULL`);
`callback` tells whether the completion function is not `NULL`. -/
structure interface_create_data where
  ifname : Option String
  driver : Option String
  interface : Option String
  callback : Bool
deriving DecidableEq, Repr

/-- The handler and `user_data` given to `supplicant_dbus_property_get_all`, to be run
over the reply. The interface pointer of `interface_property` is the path of the
interface. -/
inductive get_all_function where
  | service_property
  | interface_property (interface : String)
  | interface_create_property (data : interface_create_data)
  | bss_property (bss : supplicant_bss)
  | network_property
deriving DecidableEq, Repr

/-- What a handler does towards the outside, oldest first: a call of one of the
registered callbacks, a call of the completion function of an interface creation
(`data->callback(result, interface, user_data)`, the interface as it is at the call,
`none` for `NULL`), a `GetAll` request sent for an object with the handler of its reply,
or a method call sent to the peer root object. -/
inductive bus_action where
  | callback (event : callback_event)
  | create_callback (result : Int) (interface : Option supplicant_interface)
  | property_get_all (path : String) (function : get_all_function)
  | method_call (method : String) (data : interface_create_data)
deriving DecidableEq, Repr

/-- The function `callback_interface_added`. -/
def callback_interface_added (callbacks_pointer : Option supplicant_callbacks)
    (interface : supplicant_interface) : List callback_event :=
  match callbacks_pointer with
  | none => []
  | some callbacks =>
    if callbacks.interface_added then [callback_event.interface_added interface] else []

/-- The function `callback_interface_removed`. -/
def callback_interface_removed (callbacks_pointer : Option supplicant_callbacks)
    (interface : supplicant_interface) : List callback_event :=
  match callbacks_pointer with
  | none => []
  | some callbacks =>
    if callbacks.interface_removed then [callback_event.interface_removed interface] else []

/-- The function `callback_scan_started`. -/
def callback_scan_started (callbacks_pointer : Option supplicant_callbacks)
    (interface : supplicant_interface) : List callback_event :=
  match callbacks_pointer with
  | none => []
  | some callbacks =>
    if callbacks.scan_started then [callback_event.scan_started interface] else []

/-- The function `callback_scan_finished`. -/
def callback_scan_finished (callbacks_pointer : Option supplicant_callbacks)
    (interface : supplicant_interface) : List callback_event :=
  match callbacks_pointer with
  | none => []
  | some callbacks =>
    if callbacks.scan_finished then [callback_event.scan_finished interface] else []

/-- The function `interface_network_added`: nothing for a `NULL` path, the path `/` or
inline properties (`network_property` keeps nothing); otherwise a `GetAll` request. -/
def interface_network_added (path : Option String)
    (properties : Option (List (String × DBusValue))) : List bus_action :=
  match path with
  | none => []
  | some path =>
    if path == "/" then [] else
    match properties with
    | some _ => []
    | none => [bus_action.property_get_all path get_all_function.network_property]

/-- The handler `interface_bss_added` together with the `GetAll` request it sends when
the signal has no inline properties: the interface afterwards and what was done. -/
def interface_bss_added_actions (callbacks_pointer : Option supplicant_callbacks)
    (path : Option String) (properties : Option (List (String × DBusValue)))
    (interface : supplicant_interface) : supplicant_interface × List bus_action :=
  ((interface_bss_added callbacks_pointer path properties interface).1,
    (interface_bss_added callbacks_pointer path properties interface).2.map
        bus_action.callback
      ++ (match path, properties with
          | some path, none =>
            if path == "/" then [] else
            if bss_indexed interface path then [] else
            [bus_action.property_get_all path
              (get_all_function.bss_property (bss_alloc interface path))]
          | _, _ => []))

/-- What `interface_property` works on: the interface `user_data` points to (`none` is
`NULL`) and what was done so far. -/
structure interface_context where
  interface : Option supplicant_interface
  emitted : List bus_action
deriving DecidableEq, Repr

/-- The function `interface_property`: one key of the property bag of an interface, or
the end of the bag (`key = none`, the `NULL` key). The value of `CurrentBSS` and of
`CurrentNetwork` is a single object path with nothing behind it. An element of `BSSs`
or `Networks` has the next element of the array behind it, unless it is the last
(`element_properties`). -/
def interface_property (callbacks_pointer : Option supplicant_callbacks)
    (key : Option String) (iter : DBusValue) (ctx : interface_context) :
    interface_context :=
  match ctx.interface with
  | none => ctx
  | some interface =>
    match key with
    | none =>
      { ctx with
        emitted := ctx.emitted
          ++ (callback_interface_added callbacks_pointer interface).map bus_action.callback }
    | some key =>
      if key == "Capabilities" then
        { ctx with
          interface := some
            (supplicant_dbus_property_foreach interface_capability (get_capabilities iter)
              interface) }
      else if key == "State" then
        match get_basic_string iter with
        | some str =>
          { ctx with interface := some { interface with state := string2state (some str) } }
        | none => ctx
      else if key == "Scanning" then
        let scanning := get_basic_boolean iter false
        let interface := { interface with scanning := scanning }
        { interface := some interface
          emitted := ctx.emitted
            ++ (if interface.scanning = true then
                  (callback_scan_started callbacks_pointer interface).map bus_action.callback
                else []) }
      else if key == "ApScan" then
        { ctx with interface := some { interface with apscan := get_basic_int32 iter 1 } }
      else if key == "Ifname" then
        match get_basic_string iter with
        | some str => { ctx with interface := some { interface with ifname := some str } }
        | none => ctx
      else if key == "Driver" then
        match get_basic_string iter with
        | some str => { ctx with interface := some { interface with driver := some str } }
        | none => ctx
      else if key == "BridgeIfname" then
        match get_basic_string iter with
        | some str => { ctx with interface := some { interface with bridge := some str } }
        | none => ctx
      else if key == "CurrentBSS" then
        { interface := some
            (interface_bss_added_actions callbacks_pointer (get_basic_path iter) none
              interface).1
          emitted := ctx.emitted
            ++ (interface_bss_added_actions callbacks_pointer (get_basic_path iter) none
                  interface).2 }
      else if key == "CurrentNetwork" then
        { ctx with
          emitted := ctx.emitted ++ interface_network_added (get_basic_path iter) none }
      else if key == "BSSs" then
        let result := supplicant_dbus_array_foreach
          (fun (element : Option String × Bool)
              (ctx : supplicant_interface × List bus_action) =>
            ((interface_bss_added_actions callbacks_pointer element.1
                (element_properties element.2) ctx.1).1,
              ctx.2 ++ (interface_bss_added_actions callbacks_pointer element.1
                (element_properties element.2) ctx.1).2))
          (array_positions (get_object_paths iter)) (interface, ctx.emitted)
        { interface := some result.1, emitted := result.2 }
      else if key == "Blobs" then ctx
      else if key == "Networks" then
        { ctx with
          emitted := supplicant_dbus_array_foreach
            (fun (element : Option String × Bool) (emitted : List bus_action) =>
              emitted ++ interface_network_added element.1 (element_properties element.2))
            (array_positions (get_object_paths iter)) ctx.emitted }
      else ctx


/-! ## Peer replica and signal router -/

/-- The static variables of `supplicant.c`: the callback table, the availability and
readiness flags, the debug parameters, the EAP methods and `interface_table`, keyed by
`interface->path`. A `struct supplicant_interface *` is represented by the path under
which the interface is stored in `interface_table`. -/
structure supplicant_system where
  callbacks_pointer : Option supplicant_callbacks
  system_available : Bool
  system_ready : Bool
  debug_level : Int
  debug_timestamp : Bool
  debug_showkeys : Bool
  eap_methods : Nat
  interface_table : List supplicant_interface
deriving DecidableEq, Repr

/-- The value of `EIO` in `errno.h`. -/
def EIO : Int := 5

/-- The value of `EINVAL` in `errno.h`. -/
def EINVAL : Int := 22

/-- The value of `EFAULT` in `errno.h`. -/
def EFAULT : Int := 14

/-- The value of `ENOMEM` in `errno.h`. -/
def ENOMEM : Int := 12

/-- The value of `ENOENT` in `errno.h`. -/
def ENOENT : Int := 2

/-- The function `callback_system_ready`. -/
def callback_system_ready (system : supplicant_system) :
    supplicant_system × List callback_event :=
  if system.system_ready = true then (system, []) else
  let system := { system with system_ready := true }
  match system.callbacks_pointer with
  | none => (system, [])
  | some callbacks =>
    if callbacks.system_ready then (system, [callback_event.system_ready])
    else (system, [])

/-- The function `callback_system_killed`. -/
def callback_system_killed (system : supplicant_system) :
    supplicant_system × List callback_event :=
  let system := { system with system_ready := false }
  match system.callbacks_pointer with
  | none => (system, [])
  | some callbacks =>
    if callbacks.system_killed then (system, [callback_event.system_killed])
    else (system, [])

/-- The function `remove_interface`, the value destructor of `interface_table`:
`bss_mapping` is destroyed, `network_table` is destroyed, which runs `remove_network`
on each of its networks, then the callback is made, with the interface whose two tables
are gone, then the memory is released. -/
def remove_interface (callbacks_pointer : Option supplicant_callbacks)
    (interface : supplicant_interface) : List callback_event :=
  interface.network_table.flatMap (remove_network callbacks_pointer)
    ++ callback_interface_removed callbacks_pointer
        { interface with network_table := [], bss_mapping := [] }

/-- The interface of `interface_table` is replaced by its new content: a write through
a `struct supplicant_interface *`. -/
def interface_store (system : supplicant_system) (interface : Option supplicant_interface) :
    supplicant_system :=
  match interface with
  | none => system
  | some interface =>
    { system with
      interface_table := system.interface_table.map (fun w =>
        if w.path == interface.path then interface else w) }

/-- The function `interface_added`: the handler of `InterfaceAdded` and
`InterfaceCreated` and of the elements of `Interfaces`. `path = none` is a `NULL` path;
`properties = none` is a signal without inline properties. -/
def interface_added (path : Option String)
    (properties : Option (List (String × DBusValue))) (system : supplicant_system) :
    supplicant_system × List bus_action :=
  match path with
  | none => (system, [])
  | some path =>
    if path == "/" then (system, []) else
    match g_hash_table_lookup supplicant_interface.path system.interface_table path with
    | some _ => (system, [])
    | none =>
      let interface := interface_alloc path
      let system :=
        { system with
          interface_table :=
            g_hash_table_replace supplicant_interface.path system.interface_table interface }
      match properties with
      | some properties =>
        let ctx : interface_context := { interface := some interface, emitted := [] }
        let ctx :=
          supplicant_dbus_property_foreach (interface_property system.callbacks_pointer)
            properties ctx
        let ctx := interface_property system.callbacks_pointer none DBusValue.other ctx
        (interface_store system ctx.interface, ctx.emitted)
      | none =>
        (system,
          [bus_action.property_get_all path (get_all_function.interface_property path)])

/-- The function `interface_removed`: the handler of `InterfaceRemoved`. -/
def interface_removed (path : Option String) (system : supplicant_system) :
    supplicant_system × List bus_action :=
  match path with
  | none => (system, [])
  | some path =>
    match g_hash_table_lookup supplicant_interface.path system.interface_table path with
    | none => (system, [])
    | some interface =>
      ({ system with
          interface_table :=
            g_hash_table_remove supplicant_interface.path system.interface_table path },
        (remove_interface system.callbacks_pointer interface).map bus_action.callback)

/-- The function `eap_method`. -/
def eap_method (str : Option String) (system : supplicant_system) : supplicant_system :=
  { system with eap_methods := strvalmap_set eap_method_map str system.eap_methods }

/-- The function `service_property`: one key of the property bag of the peer root
object, or the end of the bag. An element of `Interfaces` has the next element of the
array behind it, unless it is the last (`element_properties`). -/
def service_property (key : Option String) (iter : DBusValue)
    (ctx : supplicant_system × List bus_action) : supplicant_system × List bus_action :=
  match key with
  | none =>
    ((callback_system_ready ctx.1).1,
      ctx.2 ++ (callback_system_ready ctx.1).2.map bus_action.callback)
  | some key =>
    if key == "DebugParams" then
      match iter with
      | DBusValue.debug_params level timestamp showkeys =>
        ({ ctx.1 with
            debug_level := level, debug_timestamp := timestamp, debug_showkeys := showkeys },
          ctx.2)
      | _ => ctx
    else if key == "DebugLevel" then
      ({ ctx.1 with debug_level := get_basic_int32 iter ctx.1.debug_level }, ctx.2)
    else if key == "DebugTimeStamp" then
      ({ ctx.1 with debug_timestamp := get_basic_boolean iter ctx.1.debug_timestamp }, ctx.2)
    else if key == "DebugShowKeys" then
      ({ ctx.1 with debug_showkeys := get_basic_boolean iter ctx.1.debug_showkeys }, ctx.2)
    else if key == "Interfaces" then
      supplicant_dbus_array_foreach
        (fun (element : Option String × Bool) (ctx : supplicant_system × List bus_action) =>
          ((interface_added element.1 (element_properties element.2) ctx.1).1,
            ctx.2 ++ (interface_added element.1 (element_properties element.2) ctx.1).2))
        (array_positions (get_object_paths iter)) ctx
    else if key == "EapMethods" then
      (supplicant_dbus_array_foreach eap_method (get_strings iter) ctx.1, ctx.2)
    else ctx

/-- The function `interface_property` run through the interface pointer `interface`:
the interface is read from `interface_table` and written back. Nothing is done for a
`NULL` pointer, nor for a pointer to an interface that is no longer in the table. -/
def interface_property_at (key : Option String) (iter : DBusValue)
    (interface : Option String) (ctx : supplicant_system × List bus_action) :
    supplicant_system × List bus_action :=
  match interface with
  | none => ctx
  | some path =>
    match g_hash_table_lookup supplicant_interface.path ctx.1.interface_table path with
    | none => ctx
    | some interface =>
      let result := interface_property ctx.1.callbacks_pointer key iter
        { interface := some interface, emitted := ctx.2 }
      (interface_store ctx.1 result.interface, result.emitted)

/-- The function `interface_create_property`: at the end of the bag the completion
function is called with 0 and the interface, then, as for every key, `interface_property`
is run on the interface. -/
def interface_create_property (key : Option String) (iter : DBusValue)
    (data : interface_create_data) (ctx : supplicant_system × List bus_action) :
    supplicant_system × List bus_action :=
  let interface := data.interface
  let ctx :=
    if key = none then
      if data.callback then
        (ctx.1, ctx.2 ++ [bus_action.create_callback 0
          (data.interface.bind
            (g_hash_table_lookup supplicant_interface.path ctx.1.interface_table))])
      else ctx
    else ctx
  interface_property_at key iter interface ctx

/-- Modelled from the spec: the reply of a `GetAll` request that succeeded, as
`supplicant_dbus_property_get_all` of `supplicant-dbus.c` (not part of the sources at
hand) handles it: every property of the bag is handed to the handler of the request,
then the sentinel. -/
def property_get_all_reply (function : get_all_function)
    (properties : List (String × DBusValue)) (system : supplicant_system) :
    supplicant_system × List bus_action :=
  match function with
  | get_all_function.service_property =>
    service_property none DBusValue.other
      (supplicant_dbus_property_foreach service_property properties (system, []))
  | get_all_function.interface_property interface =>
    interface_property_at none DBusValue.other (some interface)
      (supplicant_dbus_property_foreach
        (fun key iter ctx => interface_property_at key iter (some interface) ctx)
        properties (system, []))
  | get_all_function.interface_create_property data =>
    interface_create_property none DBusValue.other data
      (supplicant_dbus_property_foreach
        (fun key iter ctx => interface_create_property key iter data ctx)
        properties (system, []))
  | get_all_function.bss_property bss =>
    match bss.interface.bind
        (g_hash_table_lookup supplicant_interface.path system.interface_table) with
    | none => (system, [])
    | some interface =>
      let ctx : bss_context := { interface := interface, bss := bss, emitted := [] }
      let ctx :=
        supplicant_dbus_property_foreach (bss_property system.callbacks_pointer)
          properties ctx
      let ctx := bss_property system.callbacks_pointer none DBusValue.other ctx
      (interface_store system (some ctx.interface), ctx.emitted.map bus_action.callback)
  | get_all_function.network_property => (system, [])

/-- The function `supplicant_bootstrap`: a `GetAll` request for the peer root object,
whose path `SUPPLICANT_PATH` is a macro of `supplicant-dbus.h`. -/
def supplicant_bootstrap (SUPPLICANT_PATH : String) : List bus_action :=
  [bus_action.property_get_all SUPPLICANT_PATH get_all_function.service_property]

/-- The function `signal_name_owner_changed`: the handler of `NameOwnerChanged`, with
the object path of the signal and its three string arguments. `DBUS_PATH_DBUS` is a
macro of the bus library, `SUPPLICANT_SERVICE` and `SUPPLICANT_PATH` are macros of
`supplicant-dbus.h`. -/
def signal_name_owner_changed (DBUS_PATH_DBUS SUPPLICANT_SERVICE SUPPLICANT_PATH : String)
    (path : String) (name old new : Option String) (system : supplicant_system) :
    supplicant_system × List bus_action :=
  if path != DBUS_PATH_DBUS then (system, []) else
  match name with
  | none => (system, [])
  | some name =>
    if name != SUPPLICANT_SERVICE then (system, []) else
    match old, new with
    | some old, some new =>
      let ctx : supplicant_system × List bus_action :=
        if old.length > 0 ∧ new.length = 0 then
          let system := { system with system_available := false }
          -- g_hash_table_remove_all(interface_table)
          let removed := system.interface_table.flatMap
            (remove_interface system.callbacks_pointer)
          let system := { system with interface_table := [] }
          ((callback_system_killed system).1,
            (removed ++ (callback_system_killed system).2).map bus_action.callback)
        else (system, [])
      if new.length > 0 ∧ old.length = 0 then
        ({ ctx.1 with system_available := true },
          ctx.2 ++ supplicant_bootstrap SUPPLICANT_PATH)
      else ctx
    | _, _ => (system, [])

/-- The function `interface_create_result`: the handler of the reply to
`CreateInterface`. `error` is the error name of an error reply, `path` the object path
of the reply, `get_all_result` what `supplicant_dbus_property_get_all` returns (0 when
the request was sent). -/
def interface_create_result (error : Option String) (path : Option String)
    (get_all_result : Int) (data : interface_create_data) (system : supplicant_system) :
    supplicant_system × List bus_action :=
  let done (system : supplicant_system) (err : Int) : supplicant_system × List bus_action :=
    (system, if data.callback then [bus_action.create_callback err none] else [])
  if error ≠ none then done system (- EIO) else
  match path with
  | none => done system (-EINVAL)
  | some path =>
    if system.system_available = false then done system (-EFAULT) else
    let system :=
      match g_hash_table_lookup supplicant_interface.path system.interface_table path with
      | some _ => system
      | none =>
        { system with
          interface_table :=
            g_hash_table_replace supplicant_interface.path system.interface_table
              (interface_alloc path) }
    let data := { data with interface := some path }
    let err := get_all_result
    if err = 0 then
      (system,
        [bus_action.property_get_all path (get_all_function.interface_create_property data)])
    else
      (system, if data.callback then [bus_action.create_callback err none] else [])

/-- The function `interface_get_result`: the handler of the reply to `GetInterface`.
`error` is the error name of an error reply, `path` the object path of the reply,
`method_call_result` what `supplicant_dbus_method_call` returns for `CreateInterface`
(0 when the call was sent). -/
def interface_get_result (error : Option String) (path : Option String)
    (method_call_result : Int) (data : interface_create_data) (system : supplicant_system) :
    supplicant_system × List bus_action :=
  let done (err : Int) : supplicant_system × List bus_action :=
    (system, if data.callback then [bus_action.create_callback err none] else [])
  if error ≠ none then
    -- create:
    if system.system_available = false then done (-EFAULT) else
    let err := method_call_result
    if err = 0 then (system, [bus_action.method_call "CreateInterface" data])
    else done err
  else
  match path with
  | none => done (-EINVAL)
  | some path =>
    match g_hash_table_lookup supplicant_interface.path system.interface_table path with
    | none => done (-ENOENT)
    | some interface =>
      (system, if data.callback then [bus_action.create_callback 0 (some interface)] else [])

/-! ## Getters -/

/-- The function `supplicant_interface_get_ifname`; `none` is `NULL`, as an argument
and as a result. -/
def supplicant_interface_get_ifname (interface : Option supplicant_interface) :
    Option String :=
  match interface with
  | none => none
  | some interface => interface.ifname

/-- The function `supplicant_interface_get_driver`; `none` is `NULL`, as an argument
and as a result. -/
def supplicant_interface_get_driver (interface : Option supplicant_interface) :
    Option String :=
  match interface with
  | none => none
  | some interface => interface.driver

/-- The fields of a `struct supplicant_network` that the getters read, with `none` for
a `NULL` string. -/
structure network_fields where
  interface : Option String
  group : Option String
  name : Option String
  mode : supplicant_mode
deriving DecidableEq, Repr

/-- The fields of a network of the replica: its strings are never `NULL`. -/
def supplicant_network.fields (network : supplicant_network) : network_fields :=
  { interface := network.interface
    group := some network.group
    name := some network.name
    mode := network.mode }

/-- The function `supplicant_network_get_interface`. -/
def supplicant_network_get_interface (network : Option network_fields) : Option String :=
  match network with
  | none => none
  | some network => network.interface

/-- The function `supplicant_network_get_name`. -/
def supplicant_network_get_name (network : Option network_fields) : String :=
  match network with
  | none => ""
  | some network =>
    match network.name with
    | none => ""
    | some name => name

/-- The function `supplicant_network_get_identifier`. -/
def supplicant_network_get_identifier (network : Option network_fields) : String :=
  match network with
  | none => ""
  | some network =>
    match network.group with
    | none => ""
    | some group => group

/-- The function `supplicant_network_get_mode`. -/
def supplicant_network_get_mode (network : Option network_fields) : supplicant_mode :=
  match network with
  | none => supplicant_mode.UNKNOWN
  | some network => network.mode

/-! ## Accesses of the IE parser -/

/-- What a run of `extract_rsn` does besides setting flags: `reads` are the offsets,
counted in bytes from the `buf` the caller passed, of the bytes it reads, in order;
`ints` are the values of the `int` expressions it computes from the counts
(`buf[1] << 8`, `count * 4`, `2 + (count * 4)`, `i * 4`, `2 + (i * 4)`); `lens` are the
values `len` takes by the assignments `len -= ...`; `iterations` counts the passes
through the body of the loop. -/
structure rsn_access where
  reads : List Int
  ints : List Int
  lens : List Int
  iterations : Nat
deriving DecidableEq, Repr

/-- The body of the loop of `extract_rsn`, with the offsets it reads: `ptr` points
`offset` bytes into the buffer. Each `memcmp` reads the three bytes at `ptr`; `ptr[3]` is
read when the `memcmp` before it found the OUI. -/
def extract_rsn_suite_reads (ptr : List Byte) (offset : Int) : List Int :=
  [offset, offset + 1, offset + 2]
    ++ (if memcmp3_eq ptr wifi_oui then [offset + 3]
        else
          [offset, offset + 1, offset + 2]
            ++ (if memcmp3_eq ptr ieee80211_oui then [offset + 3] else []))

/-- The function `extract_rsn` once more, statement by statement, with the accesses
it makes recorded next to the BSS. -/
def extract_rsn_run (bss : supplicant_bss) (buf : List Byte) (len : Int) :
    supplicant_bss × rsn_access :=
  -- Version
  if len < 2 then (bss, { reads := [], ints := [], lens := [], iterations := 0 }) else
  let buf1 := buf.drop 2
  let offset1 : Int := 2
  let len1 := len - 2
  -- Group cipher
  if len1 < 4 then (bss, { reads := [], ints := [], lens := [len1], iterations := 0 }) else
  let buf2 := buf1.drop 4
  let offset2 : Int := offset1 + 4
  let len2 := len1 - 4
  -- Pairwise cipher
  if len2 < 2 then
    (bss, { reads := [], ints := [], lens := [len1, len2], iterations := 0 })
  else
  let count1 := rsn_count buf2
  let reads1 : List Int := [offset2, offset2 + 1]
  let ints1 : List Int :=
    [(((buf2.getD 1 0).val <<< 8 : Nat) : Int), (count1 : Int) * 4, 2 + ((count1 : Int) * 4)]
  if 2 + ((count1 : Int) * 4) > len2 then
    (bss, { reads := reads1, ints := ints1, lens := [len1, len2], iterations := 0 })
  else
  let buf3 := buf2.drop (2 + (count1 * 4))
  let offset3 : Int := offset2 + (2 + ((count1 : Int) * 4))
  let len3 := len2 - (2 + ((count1 : Int) * 4))
  let ints2 : List Int := ints1 ++ [2 + ((count1 : Int) * 4), 2 + ((count1 : Int) * 4)]
  -- Authentication
  if len3 < 2 then
    (bss, { reads := reads1, ints := ints2, lens := [len1, len2, len3], iterations := 0 })
  else
  let count := rsn_count buf3
  let reads2 : List Int := reads1 ++ [offset3, offset3 + 1]
  let ints3 : List Int :=
    ints2 ++ [(((buf3.getD 1 0).val <<< 8 : Nat) : Int), (count : Int) * 4,
      2 + ((count : Int) * 4)]
  if 2 + ((count : Int) * 4) > len3 then
    (bss, { reads := reads2, ints := ints3, lens := [len1, len2, len3], iterations := 0 })
  else
  let loop := (List.range count).foldl
    (fun (state : supplicant_bss × rsn_access) i =>
      (extract_rsn_suite state.1 (buf3.drop (2 + (i * 4))),
        { reads := state.2.reads
            ++ extract_rsn_suite_reads (buf3.drop (2 + (i * 4)))
                (offset3 + (2 + ((i : Int) * 4)))
          ints := state.2.ints ++ [(i : Int) * 4, 2 + ((i : Int) * 4)]
          lens := state.2.lens
          iterations := state.2.iterations + 1 }))
    (bss, { reads := reads2, ints := ints3, lens := [len1, len2, len3], iterations := 0 })
  let len4 := len3 - (2 + ((count : Int) * 4))
  (loop.1,
    { loop.2 with
      ints := loop.2.ints ++ [(count : Int) * 4, 2 + ((count : Int) * 4),
        (count : Int) * 4, 2 + ((count : Int) * 4)]
      lens := loop.2.lens ++ [len4] })

/-! ## Signal handlers -/

/-- The function `signal_properties_changed`: the properties go through
`service_property`, without a sentinel. -/
def signal_properties_changed (SUPPLICANT_PATH : String) (path : String)
    (properties : List (String × DBusValue)) (system : supplicant_system) :
    supplicant_system × List bus_action :=
  if path != SUPPLICANT_PATH then (system, []) else
  supplicant_dbus_property_foreach service_property properties (system, [])

/-- The function `signal_interface_added`, for `InterfaceAdded` and
`InterfaceCreated`. -/
def signal_interface_added (SUPPLICANT_PATH : String) (path : String)
    (object : Option String) (properties : Option (List (String × DBusValue)))
    (system : supplicant_system) : supplicant_system × List bus_action :=
  if path == SUPPLICANT_PATH then interface_added object properties system
  else (system, [])

/-- The function `signal_interface_removed`. -/
def signal_interface_removed (SUPPLICANT_PATH : String) (path : String)
    (object : Option String) (system : supplicant_system) :
    supplicant_system × List bus_action :=
  if path == SUPPLICANT_PATH then interface_removed object system
  else (system, [])

/-- The function `signal_scan_done`. -/
def signal_scan_done (path : String) (system : supplicant_system) :
    supplicant_system × List bus_action :=
  match g_hash_table_lookup supplicant_interface.path system.interface_table path with
  | none => (system, [])
  | some interface =>
    (system,
      (callback_scan_finished system.callbacks_pointer interface).map bus_action.callback)

/-- The function `signal_bss_added`: `interface_bss_added` on the interface of the
object path of the signal. -/
def signal_bss_added (path : String) (object : Option String)
    (properties : Option (List (String × DBusValue))) (system : supplicant_system) :
    supplicant_system × List bus_action :=
  match g_hash_table_lookup supplicant_interface.path system.interface_table path with
  | none => (system, [])
  | some interface =>
    (interface_store system
        (some (interface_bss_added_actions system.callbacks_pointer object properties
          interface).1),
      (interface_bss_added_actions system.callbacks_pointer object properties interface).2)

/-- The function `signal_bss_removed`: `interface_bss_removed` on the interface of the
object path of the signal. -/
def signal_bss_removed (path : String) (object : Option String)
    (system : supplicant_system) : supplicant_system × List bus_action :=
  match g_hash_table_lookup supplicant_interface.path system.interface_table path with
  | none => (system, [])
  | some interface =>
    (interface_store system
        (some (interface_bss_removed system.callbacks_pointer object interface).1),
      (interface_bss_removed system.callbacks_pointer object interface).2.map
        bus_action.callback)

/-- The function `signal_network_added`. -/
def signal_network_added (path : String) (object : Option String)
    (properties : Option (List (String × DBusValue))) (system : supplicant_system) :
    supplicant_system × List bus_action :=
  match g_hash_table_lookup supplicant_interface.path system.interface_table path with
  | none => (system, [])
  | some _ => (system, interface_network_added object properties)

/-- The function `signal_network_removed`, with `interface_network_removed`, which
only reads the path. -/
def signal_network_removed (path : String) (object : Option String)
    (system : supplicant_system) : supplicant_system × List bus_action :=
  match g_hash_table_lookup supplicant_interface.path system.interface_table path with
  | none => (system, [])
  | some _ =>
    match object with
    | none => (system, [])
    | some _ => (system, [])

/-- A signal as `supplicant_filter` tells it apart with `signal_map`, with its
arguments: the object path argument (`none` is `NULL`) and the inline property bag
(`none` when the signal carries none). `other` is a message no row matches. -/
inductive supplicant_signal where
  | NameOwnerChanged (name old new : Option String)
  | PropertiesChanged (properties : List (String × DBusValue))
  | InterfaceAdded (object : Option String)
      (properties : Option (List (String × DBusValue)))
  | InterfaceCreated (object : Option String)
      (properties : Option (List (String × DBusValue)))
  | InterfaceRemoved (object : Option String)
  | ScanDone
  | BSSAdded (object : Option String) (properties : Option (List (String × DBusValue)))
  | BSSRemoved (object : Option String)
  | NetworkAdded (object : Option String)
      (properties : Option (List (String × DBusValue)))
  | NetworkRemoved (object : Option String)
  | other
deriving DecidableEq, Repr

/-- The function `supplicant_filter`: the handler of the row of `signal_map` that
matches the message is called with the path of the message (`none` when the message has
no path) and its arguments. -/
def supplicant_filter (DBUS_PATH_DBUS SUPPLICANT_SERVICE SUPPLICANT_PATH : String)
    (path : Option String) (signal : supplicant_signal) (system : supplicant_system) :
    supplicant_system × List bus_action :=
  match path with
  | none => (system, [])
  | some path =>
    match signal with
    | supplicant_signal.NameOwnerChanged name old new =>
      signal_name_owner_changed DBUS_PATH_DBUS SUPPLICANT_SERVICE SUPPLICANT_PATH path
        name old new system
    | supplicant_signal.PropertiesChanged properties =>
      signal_properties_changed SUPPLICANT_PATH path properties system
    | supplicant_signal.InterfaceAdded object properties =>
      signal_interface_added SUPPLICANT_PATH path object properties system
    | supplicant_signal.InterfaceCreated object properties =>
      signal_interface_added SUPPLICANT_PATH path object properties system
    | supplicant_signal.InterfaceRemoved object =>
      signal_interface_removed SUPPLICANT_PATH path object system
    | supplicant_signal.ScanDone => signal_scan_done path system
    | supplicant_signal.BSSAdded object properties =>
      signal_bss_added path object properties system
    | supplicant_signal.BSSRemoved object => signal_bss_removed path object system
    | supplicant_signal.NetworkAdded object properties =>
      signal_network_added path object properties system
    | supplicant_signal.NetworkRemoved object => signal_network_removed path object system
    | supplicant_signal.other => (system, [])

/-- The function `supplicant_register` where it succeeds: the static variables
afterwards and the request sent. `has_owner` is what `dbus_bus_name_has_owner` answers
for the supplicant service. -/
def supplicant_register (SUPPLICANT_PATH : String)
    (callbacks : Option supplicant_callbacks) (has_owner : Bool) :
    supplicant_system × List bus_action :=
  ({ callbacks_pointer := callbacks
     system_available := has_owner
     system_ready := false
     debug_level := 0
     debug_timestamp := false
     debug_showkeys := false
     eap_methods := 0
     interface_table := [] },
    if has_owner then supplicant_bootstrap SUPPLICANT_PATH else [])

/-! ## Definitions used to state the theorems -/

/-- A callback table with every function registered. -/
def all_callbacks : supplicant_callbacks :=
  { system_ready := true
    system_killed := true
    interface_added := true
    interface_removed := true
    scan_started := true
    scan_finished := true
    network_added := true
    network_removed := true }

/-- The bytes `ssid[0]`, ..., `ssid[ssid_len - 1]` that `create_group` and
`create_name` read from the SSID array of a BSS. -/
def ssid_bytes (bss : supplicant_bss) : List Byte :=
  (List.range bss.ssid_len).map (fun i => bss.ssid.getD i 0)

/-- The lowercase two-digit hexadecimal form of a byte, stated from the digits of
its value in base 16, with a leading zero when there is only one. -/
def two_hex_digits (b : Byte) : String :=
  let digits := Nat.toDigits 16 b.val
  String.mk (if digits.length < 2 then '0' :: digits else digits)

/-- The lowercase hexadecimal dump of a byte sequence, two digits per byte. -/
def hex_dump (bytes : List Byte) : String :=
  String.join (bytes.map two_hex_digits)

/-- The suffix of a group key that stands for the mode. -/
def mode_suffix (mode : supplicant_mode) : String :=
  match mode with
  | supplicant_mode.UNKNOWN => ""
  | supplicant_mode.INFRA => "_infra"
  | supplicant_mode.IBSS => "_adhoc"

/-- The suffix of a group key that stands for the security. -/
def security_suffix (security : supplicant_security) : String :=
  match security with
  | supplicant_security.UNKNOWN => ""
  | supplicant_security.NONE => "_none"
  | supplicant_security.WEP => "_wep"
  | supplicant_security.PSK => "_psk"
  | supplicant_security.IEEE8021X => "_ieee8021x"

/-- The part of the SSID that enters the group key: the bytes read when the SSID is
visible (`ssid_len > 0` and `ssid[0] != 0`), nothing when it is hidden. -/
def group_ssid (bss : supplicant_bss) : Option (List Byte) :=
  if bss.ssid_len > 0 ∧ bss.ssid.getD 0 0 ≠ 0 then some (ssid_bytes bss) else none

/-- A BSS without SSID (`ssid_len = 0`), mode infra, security none. -/
def hidden_bss_a : supplicant_bss :=
  { bss_alloc (interface_alloc "/wlan0") "/bss/0" with
    mode := supplicant_mode.INFRA
    security := supplicant_security.NONE }

/-- A BSS announcing an SSID of four zero bytes, mode infra, security none. -/
def hidden_bss_b : supplicant_bss :=
  { bss_alloc (interface_alloc "/wlan0") "/bss/1" with
    ssid_len := 4
    mode := supplicant_mode.INFRA
    security := supplicant_security.NONE }

/-- A four-byte suite selector of an information element. -/
structure rsn_suite where
  b0 : Byte
  b1 : Byte
  b2 : Byte
  b3 : Byte
deriving DecidableEq, Repr

/-- The four bytes of a suite selector as they lie in the element. -/
def rsn_suite.bytes (s : rsn_suite) : List Byte :=
  [s.b0, s.b1, s.b2, s.b3]

/-- The two bytes of a 16-bit count, least significant byte first. -/
def le16 (n : Nat) : List Byte :=
  [⟨n % 256, Nat.mod_lt _ (by decide)⟩, ⟨n / 256 % 256, Nat.mod_lt _ (by decide)⟩]

/-- A buffer laid out as the body of an RSN or WPA element: version, group cipher,
count and list of pairwise suites, count and list of AKM suites, and whatever
follows. -/
def rsn_body (version group : List Byte) (pairwise akm : List rsn_suite)
    (rest : List Byte) : List Byte :=
  version ++ (group ++ (le16 pairwise.length ++ ((pairwise.map rsn_suite.bytes).flatten
    ++ (le16 akm.length ++ ((akm.map rsn_suite.bytes).flatten ++ rest)))))

/-- The suite has the Wi-Fi Alliance OUI `00:50:f2` or the IEEE 802.11 OUI
`00:0f:ac` in its first three bytes and `kind` as its fourth byte. -/
def akm_selects (kind : Byte) (s : rsn_suite) : Bool :=
  (([s.b0, s.b1, s.b2] : List Byte) == [0x00, 0x50, 0xf2]
    || ([s.b0, s.b1, s.b2] : List Byte) == [0x00, 0x0f, 0xac]) && s.b3 == kind

/-- The twenty RSNIE bytes of the WPA-PSK scenario: an RSN body (version, group
cipher, one pairwise suite, the AKM suite `00:0f:ac:02`, capabilities) without the
element id and length in front. -/
def guest_rsnie : List Byte :=
  [0x01, 0x00, 0xac, 0x0f, 0x00, 0x04, 0x01, 0x00, 0x00, 0x0f, 0xac, 0x04,
   0x01, 0x00, 0x00, 0x0f, 0xac, 0x02, 0x00, 0x00]

/-- The property bag of the WPA-PSK scenario, with `rsnie` as its RSNIE. -/
def guest_bag (rsnie : List Byte) : List (String × DBusValue) :=
  [("SSID", DBusValue.byte_array [0x47, 0x75, 0x65, 0x73, 0x74]),
   ("Capabilities", DBusValue.uint16 0x0011),
   ("Frequency", DBusValue.uint16 2412),
   ("RSNIE", DBusValue.byte_array rsnie)]

/-- The BSS record the WPA-PSK scenario builds, up to its security and `psk` flag. -/
def guest_bss (security : supplicant_security) (psk : Bool) : supplicant_bss :=
  { interface := some "/wlan0"
    path := "/bss/0"
    bssid := [0, 0, 0, 0, 0, 0]
    ssid := [0x47, 0x75, 0x65, 0x73, 0x74] ++ List.replicate 27 0
    ssid_len := 5
    frequency := 2412
    mode := supplicant_mode.INFRA
    security := security
    privacy := true
    psk := psk
    ieee8021x := false }

/-- The `struct supplicant_network` that `add_bss_to_network` allocates for a BSS
whose group has no network yet, as it is when `network_added` is called. -/
def network_alloc (bss : supplicant_bss) : supplicant_network :=
  { interface := none
    group := create_group bss
    name := create_name bss.ssid bss.ssid_len
    mode := bss.mode
    bss_table := [] }

/-- A network after `path` has left its `bss_table`. -/
def network_without (network : supplicant_network) (path : String) : supplicant_network :=
  { network with
    bss_table := g_hash_table_remove supplicant_bss.path network.bss_table path }

/-- A fresh interface after two BSSs without SSID, on the paths `/bss/0` and `/bss/1`,
were added. -/
def two_bss_interface : supplicant_interface :=
  (add_bss_to_network (some all_callbacks)
    (add_bss_to_network (some all_callbacks) (interface_alloc "/wlan0") hidden_bss_a).1
    { hidden_bss_a with path := "/bss/1" }).1

/-- The BSS record that `interface_bss_added` has built from an inline property bag
when it reaches `add_bss_to_network`: the allocated record after every key of the bag
and the derivation of the security at the sentinel. -/
def built_bss (callbacks_pointer : Option supplicant_callbacks)
    (interface : supplicant_interface) (path : String)
    (properties : List (String × DBusValue)) : supplicant_bss :=
  (bss_property callbacks_pointer none DBusValue.other
    (supplicant_dbus_property_foreach (bss_property callbacks_pointer) properties
      { interface := interface, bss := bss_alloc interface path, emitted := [] })).bss

/-- The shape of `network_table` that the handlers keep: one network per group key
(it is a hash table keyed by `network->group`), and no network without a BSS. -/
def interface_wf (interface : supplicant_interface) : Prop :=
  (interface.network_table.map supplicant_network.group).Nodup
    ∧ ∀ n ∈ interface.network_table, n.bss_table ≠ []

/-- The pairwise suite count of an RSN body: the 16-bit field behind the version and the
group cipher. -/
def rsn_pairwise_count (buf : List Byte) : Nat :=
  rsn_count (buf.drop 6)

/-- The AKM suite count of an RSN body: the 16-bit field behind the pairwise list. -/
def rsn_akm_count (buf : List Byte) : Nat :=
  rsn_count (buf.drop (6 + (2 + rsn_pairwise_count buf * 4)))

/-- Some length check of an RSN body of `len` bytes fails: fewer than 2 bytes for the
version, fewer than 4 for the group cipher, no 2-byte pairwise count, a pairwise list of
`2 + 4 N` bytes that overruns what is left, no 2-byte AKM count, or an AKM list of
`2 + 4 M` bytes that overruns what is left. -/
def rsn_malformed (buf : List Byte) (len : Int) : Prop :=
  len < 2
    ∨ len - 2 < 4
    ∨ len - 6 < 2
    ∨ 2 + 4 * (rsn_pairwise_count buf : Int) > len - 6
    ∨ len - 8 - 4 * (rsn_pairwise_count buf : Int) < 2
    ∨ 2 + 4 * (rsn_akm_count buf : Int) > len - 8 - 4 * (rsn_pairwise_count buf : Int)

/-- The body of the RSN or WPA element a property of a BSS carries, as `bss_property`
hands it to `extract_rsn`: an RSNIE of more than 2 bytes from offset 2, a WPAIE of more
than 6 bytes from offset 6; nothing for another key or a shorter element. -/
def ie_body (entry : String × DBusValue) : Option (List Byte) :=
  if entry.1 == "RSNIE" then
    if (get_fixed_array entry.2).length > 2 then some ((get_fixed_array entry.2).drop 2)
    else none
  else if entry.1 == "WPAIE" then
    if (get_fixed_array entry.2).length > 6 then some ((get_fixed_array entry.2).drop 6)
    else none
  else none

/-- The buffer is a well-formed RSN body with the AKM suites `akm`. -/
def rsn_wellformed (body : List Byte) (akm : List rsn_suite) : Prop :=
  ∃ (version group : List Byte) (pairwise : List rsn_suite) (rest : List Byte),
    body = rsn_body version group pairwise akm rest
      ∧ version.length = 2 ∧ group.length = 4
      ∧ pairwise.length < 65536 ∧ akm.length < 65536

/-- The property is an RSNIE or WPAIE with a well-formed body, one of whose AKM suites
has a known OUI and the type `kind` (1 for 802.1X, 2 for PSK). -/
def ie_carries (kind : Byte) (entry : String × DBusValue) : Prop :=
  ∃ body akm, ie_body entry = some body ∧ rsn_wellformed body akm
    ∧ akm.any (akm_selects kind) = true

/-- The property carries no AKM suite of type `kind`: it is no RSNIE or WPAIE, or too
short, or its body is malformed, or well-formed without such a suite. -/
def ie_carries_no (kind : Byte) (entry : String × DBusValue) : Prop :=
  ∀ body, ie_body entry = some body →
    rsn_malformed body body.length
      ∨ ∃ akm, rsn_wellformed body akm ∧ akm.any (akm_selects kind) = false

/-- The WPA element of a PSK network: element id, length, the Microsoft OUI and type,
then version, group cipher, one pairwise suite and the AKM suite `00:50:f2:02`. -/
def wpa_psk_ie : List Byte :=
  [0xdd, 0x16, 0x00, 0x50, 0xf2, 0x01]
    ++ rsn_body [0x01, 0x00] [0x00, 0x50, 0xf2, 0x02] [⟨0x00, 0x50, 0xf2, 0x02⟩]
        [⟨0x00, 0x50, 0xf2, 0x02⟩] []

/-- The bag of the security upgrade scenario: `Privacy = true`, then a WPAIE with the
PSK suite, then a later `Privacy = false`. -/
def upgrade_bag : List (String × DBusValue) :=
  [("Privacy", DBusValue.boolean true),
   ("WPAIE", DBusValue.byte_array wpa_psk_ie),
   ("Privacy", DBusValue.boolean false)]

/-- The static variables after `supplicant_register` with `callbacks` and before any
message of the peer: nothing is known, `interface_table` is empty. -/
def system_registered (callbacks : supplicant_callbacks) : supplicant_system :=
  { callbacks_pointer := some callbacks
    system_available := false
    system_ready := false
    debug_level := 0
    debug_timestamp := false
    debug_showkeys := false
    eap_methods := 0
    interface_table := [] }

/-- A running peer with two interfaces in the replica: `/wlan0`, which holds the BSSs
`/bss/0` and `/bss/1`, and `/wlan1`, which holds nothing. -/
def two_interface_system : supplicant_system :=
  { system_registered all_callbacks with
    system_available := true
    system_ready := true
    interface_table := [two_bss_interface, interface_alloc "/wlan1"] }

/-- The number of `interface_added` callbacks for the interface on `path` among what
was done. -/
def interface_added_count (path : String) (actions : List bus_action) : Nat :=
  (actions.filter (fun action =>
    match action with
    | bus_action.callback (callback_event.interface_added interface) =>
      interface.path == path
    | _ => false)).length

/-- The static variables while the peer is running, before any interface is known. -/
def system_running : supplicant_system :=
  { system_registered all_callbacks with system_available := true, system_ready := true }

/-- The state of a `supplicant_interface_create` operation for `wlan0` with a
completion function, before any reply. -/
def wlan0_create_data : interface_create_data :=
  { ifname := some "wlan0", driver := some "nl80211", interface := none, callback := true }

/-- The property bag of the interface `/wlan0` in the scenarios. -/
def wlan0_bag : List (String × DBusValue) :=
  [("Ifname", DBusValue.string "wlan0"), ("Driver", DBusValue.string "nl80211")]

/-- The interface `/wlan0` after `wlan0_bag` was applied to it. -/
def wlan0_interface : supplicant_interface :=
  { interface_alloc "/wlan0" with ifname := some "wlan0", driver := some "nl80211" }

/-- What handling the keys of the property bag of the interface on `path` may do
before the end of the bag: call `scan_started` for that interface, call `network_added`
for a network that an element of `BSSs` created, or send a request to the peer. -/
def bag_action (path : String) (action : bus_action) : Prop :=
  (∃ interface : supplicant_interface,
      action = bus_action.callback (callback_event.scan_started interface)
        ∧ interface.path = path)
    ∨ (∃ network : supplicant_network,
        action = bus_action.callback (callback_event.network_added network))
    ∨ ∃ (p : String) (function : get_all_function),
        action = bus_action.property_get_all p function

/-- The reply to the `GetAll` request that `interface_bss_added` sent for the record
`bss`, handled on the interface the record points to: every property of the reply goes
through `bss_property`, then the sentinel. Returns the interface afterwards and the
callbacks made. -/
def bss_get_all_reply (callbacks_pointer : Option supplicant_callbacks)
    (bss : supplicant_bss) (properties : List (String × DBusValue))
    (interface : supplicant_interface) : supplicant_interface × List callback_event :=
  let ctx : bss_context := { interface := interface, bss := bss, emitted := [] }
  let ctx := supplicant_dbus_property_foreach (bss_property callbacks_pointer) properties ctx
  let ctx := bss_property callbacks_pointer none DBusValue.other ctx
  (ctx.interface, ctx.emitted)

/-- What reaches the BSS index of one interface: a `BSSAdded` signal, with inline
properties or without, a `BSSRemoved` signal, and the reply to the `GetAll` request
sent for a record that a `BSSAdded` without inline properties allocated. -/
inductive bss_message where
  | BSSAdded (path : Option String) (properties : Option (List (String × DBusValue)))
  | BSSRemoved (path : Option String)
  | GetAll_reply (bss : supplicant_bss) (properties : List (String × DBusValue))
deriving DecidableEq, Repr

/-- The handling of one message on an interface. -/
def bss_message_handle (callbacks_pointer : Option supplicant_callbacks)
    (message : bss_message) (interface : supplicant_interface) :
    supplicant_interface × List callback_event :=
  match message with
  | bss_message.BSSAdded path properties =>
    interface_bss_added callbacks_pointer path properties interface
  | bss_message.BSSRemoved path => interface_bss_removed callbacks_pointer path interface
  | bss_message.GetAll_reply bss properties =>
    bss_get_all_reply callbacks_pointer bss properties interface

/-- The handling of a sequence of messages, oldest first: the interface afterwards and
all the callbacks made. -/
def bss_messages_run (callbacks_pointer : Option supplicant_callbacks)
    (messages : List bss_message) (interface : supplicant_interface) :
    supplicant_interface × List callback_event :=
  messages.foldl
    (fun state message =>
      ((bss_message_handle callbacks_pointer message state.1).1,
        state.2 ++ (bss_message_handle callbacks_pointer message state.1).2))
    (interface, [])

/-- The index consistency the replica is meant to keep, in the words of the
specification: every BSS stored in the `bss_table` of a network has an entry in
`bss_mapping` under its path, that entry points to a network of `network_table`, and
that network holds this very BSS under the path; and every entry of `bss_mapping`
points to a network of `network_table` whose `bss_table` holds the path. -/
def index_consistent (interface : supplicant_interface) : Prop :=
  (∀ n ∈ interface.network_table, ∀ b ∈ n.bss_table,
      (((g_hash_table_lookup Prod.fst interface.bss_mapping b.path).bind
          (fun entry =>
            g_hash_table_lookup supplicant_network.group interface.network_table entry.2)).bind
          (fun m => g_hash_table_lookup supplicant_bss.path m.bss_table b.path)) = some b)
    ∧ ∀ entry ∈ interface.bss_mapping,
        (((g_hash_table_lookup supplicant_network.group interface.network_table entry.2).bind
          (fun m => g_hash_table_lookup supplicant_bss.path m.bss_table entry.1)).isSome
          = true)

/-- The index consistency of an interface can be computed. -/
instance index_consistent_decidable (interface : supplicant_interface) :
    Decidable (index_consistent interface) := by
  unfold index_consistent
  exact inferInstance

/-- The messages of the stale index scenario on `/wlan0`: a `BSSAdded` for `/bss/0`
without inline properties, which allocates a record and asks for its properties; a
`BSSAdded` for `/bss/0` with the bag of the WPA-PSK scenario inline; then the reply to
the pending request, for the first record, with a bag whose RSNIE is the whole
element. -/
def stale_index_messages : List bss_message :=
  [bss_message.BSSAdded (some "/bss/0") none,
   bss_message.BSSAdded (some "/bss/0") (some (guest_bag guest_rsnie)),
   bss_message.GetAll_reply (bss_alloc (interface_alloc "/wlan0") "/bss/0")
     (guest_bag ([0x30, 0x14] ++ guest_rsnie))]

/-- Every BSS of every network of the interface has the group key of its network. -/
def bss_groups_match (interface : supplicant_interface) : Prop :=
  ∀ n ∈ interface.network_table, ∀ b ∈ n.bss_table, create_group b = n.group

/-- The interface `/wlan0` after the stale index scenario and a `BSSRemoved` for
`/bss/0`: the network `4775657374_infra_wep` still holds a record for `/bss/0`, and
`bss_mapping` has no entry for the path. -/
def stale_interface : supplicant_interface :=
  (bss_messages_run (some all_callbacks)
    (stale_index_messages ++ [bss_message.BSSRemoved (some "/bss/0")])
    (interface_alloc "/wlan0")).1

/-- What the signal handlers, and the handlers of the replies to their `GetAll`
requests, do towards the outside: they call registered callbacks and send `GetAll`
requests for the root object, for an interface, for a network, or for a BSS record
whose path is not `/`; they never touch an interface creation. -/
def signal_action (action : bus_action) : Prop :=
  match action with
  | bus_action.callback _ => True
  | bus_action.property_get_all _ (get_all_function.bss_property bss) => bss.path ≠ "/"
  | bus_action.property_get_all _ (get_all_function.interface_create_property _) => False
  | bus_action.property_get_all _ _ => True
  | _ => False

/-- The path `/` is neither the path of the interface nor a key of its
`bss_mapping`. -/
def null_path_free (interface : supplicant_interface) : Prop :=
  interface.path ≠ "/" ∧ ∀ entry ∈ interface.bss_mapping, entry.1 ≠ "/"

/-- The table `interface_table` holds one interface per path, none of them touched by
the path `/`. -/
def table_inv (system : supplicant_system) : Prop :=
  (system.interface_table.map supplicant_interface.path).Nodup
    ∧ ∀ interface ∈ system.interface_table, null_path_free interface

/-- The states of the static variables that `supplicant_register` and the signal
handlers reach, each with the requests and callbacks made on the way: after
registration, after `supplicant_filter` handled one more signal, and after the reply to
a `GetAll` request that was sent on the way was handled. -/
inductive replica_reachable (DBUS_PATH_DBUS SUPPLICANT_SERVICE SUPPLICANT_PATH : String) :
    supplicant_system → List bus_action → Prop where
  | register (callbacks : Option supplicant_callbacks) (has_owner : Bool) :
    replica_reachable DBUS_PATH_DBUS SUPPLICANT_SERVICE SUPPLICANT_PATH
      (supplicant_register SUPPLICANT_PATH callbacks has_owner).1
      (supplicant_register SUPPLICANT_PATH callbacks has_owner).2
  | signal (system : supplicant_system) (sent : List bus_action) (path : Option String)
      (signal : supplicant_signal) :
    replica_reachable DBUS_PATH_DBUS SUPPLICANT_SERVICE SUPPLICANT_PATH system sent →
    replica_reachable DBUS_PATH_DBUS SUPPLICANT_SERVICE SUPPLICANT_PATH
      (supplicant_filter DBUS_PATH_DBUS SUPPLICANT_SERVICE SUPPLICANT_PATH path signal
        system).1
      (sent ++ (supplicant_filter DBUS_PATH_DBUS SUPPLICANT_SERVICE SUPPLICANT_PATH path
        signal system).2)
  | reply (system : supplicant_system) (sent : List bus_action) (path : String)
      (function : get_all_function) (properties : List (String × DBusValue)) :
    replica_reachable DBUS_PATH_DBUS SUPPLICANT_SERVICE SUPPLICANT_PATH system sent →
    bus_action.property_get_all path function ∈ sent →
    replica_reachable DBUS_PATH_DBUS SUPPLICANT_SERVICE SUPPLICANT_PATH
      (property_get_all_reply function properties system).1
      (sent ++ (property_get_all_reply function properties system).2)

/-- The result of a handler keeps `table_inv` and what it did is a `signal_action`. -/
def handler_ok (result : supplicant_system × List bus_action) : Prop :=
  table_inv result.1 ∧ ∀ a ∈ result.2, signal_action a

/-- The static variables after registration with a running peer and the signal
`InterfaceAdded` for `/wlan0` with inline properties. -/
def wlan0_replica : supplicant_system :=
  (supplicant_filter "/org/freedesktop/DBus" "fi.w1.wpa_supplicant1"
    "/fi/w1/wpa_supplicant1" (some "/fi/w1/wpa_supplicant1")
    (supplicant_signal.InterfaceAdded (some "/wlan0") (some wlan0_bag))
    (supplicant_register "/fi/w1/wpa_supplicant1" (some all_callbacks) true).1).1

/-- What was sent and called on the way to `wlan0_replica`. -/
def wlan0_replica_sent : List bus_action :=
  (supplicant_register "/fi/w1/wpa_supplicant1" (some all_callbacks) true).2
    ++ (supplicant_filter "/org/freedesktop/DBus" "fi.w1.wpa_supplicant1"
      "/fi/w1/wpa_supplicant1" (some "/fi/w1/wpa_supplicant1")
      (supplicant_signal.InterfaceAdded (some "/wlan0") (some wlan0_bag))
      (supplicant_register "/fi/w1/wpa_supplicant1" (some all_callbacks) true).1).2

/-! ## Lemmas -/

/-! ### Strings -/

theorem foldl_append_data (f : Nat → String) (n : Nat) (init : String) :
    ((List.range n).foldl (fun s i => s ++ f i) init).data
      = init.data ++ ((List.range n).map (fun i => (f i).data)).flatten := by
  induction n with
  | zero => simp
  | succ k ih =>
    rw [List.range_succ, List.foldl_append, List.map_append, List.flatten_append]
    simp [ih]

theorem join_data_aux (l : List String) (init : String) :
    (l.foldl (fun r s => r ++ s) init).data = init.data ++ (l.map String.data).flatten := by
  induction l generalizing init with
  | nil => simp
  | cons a t ih => simp [List.foldl_cons, ih]

theorem join_data (l : List String) :
    (String.join l).data = (l.map String.data).flatten := by
  unfold String.join
  rw [join_data_aux]
  rfl

set_option maxRecDepth 100000 in
theorem printf_02x_eq_two_hex_digits (b : Byte) : printf_02x b = two_hex_digits b := by
  revert b
  decide

theorem ssid_bytes_eq_take (bss : supplicant_bss) (h : bss.ssid_len ≤ bss.ssid.length) :
    ssid_bytes bss = bss.ssid.take bss.ssid_len := by
  apply List.ext_getElem?
  intro i
  unfold ssid_bytes
  by_cases hi : i < bss.ssid_len
  · have hl : i < bss.ssid.length := by omega
    simp [List.getElem?_range hi, List.getElem?_take, hi, List.getD_eq_getElem?_getD, hl]
  · have h1 : bss.ssid_len ≤ i := by omega
    simp [List.getElem?_take, hi, h1]

theorem create_group_eq (bss : supplicant_bss) :
    create_group bss
      = (if bss.ssid_len > 0 ∧ bss.ssid.getD 0 0 ≠ 0 then hex_dump (ssid_bytes bss)
          else "hidden")
        ++ mode_suffix bss.mode ++ security_suffix bss.security := by
  have hhex : ((List.range bss.ssid_len).foldl
      (fun s i => s ++ printf_02x (bss.ssid.getD i 0)) "") = hex_dump (ssid_bytes bss) := by
    apply String.ext
    rw [foldl_append_data (fun i => printf_02x (bss.ssid.getD i 0))]
    unfold hex_dump ssid_bytes
    rw [join_data]
    simp [List.map_map, Function.comp_def, printf_02x_eq_two_hex_digits]
  unfold create_group
  simp only [hhex]
  cases bss.mode <;> cases bss.security <;>
    simp only [mode2string, security2string, mode_suffix, security_suffix] <;>
    split <;> apply String.ext <;> simp [String.data_append]

/-! ### Hash tables -/

theorem lookup_eq_none_iff {V : Type} (key : V → String) (t : List V) (k : String) :
    g_hash_table_lookup key t k = none ↔ ∀ v ∈ t, key v ≠ k := by
  unfold g_hash_table_lookup
  rw [List.find?_eq_none]
  simp

theorem lookup_key {V : Type} (key : V → String) (t : List V) (k : String) (v : V)
    (h : g_hash_table_lookup key t k = some v) : key v = k ∧ v ∈ t := by
  unfold g_hash_table_lookup at h
  have h1 := List.find?_some h
  have h2 := List.mem_of_find?_eq_some h
  exact ⟨by simpa using h1, h2⟩

theorem lookup_map {V : Type} (key : V → String) (t : List V) (upd : V → V)
    (hkey : ∀ v, key (upd v) = key v) (k : String) :
    g_hash_table_lookup key (t.map upd) k = (g_hash_table_lookup key t k).map upd := by
  unfold g_hash_table_lookup
  rw [List.find?_map]
  congr 2
  funext v
  simp [hkey]

theorem lookup_append_of_none {V : Type} (key : V → String) (t : List V) (v : V)
    (k : String) (h : g_hash_table_lookup key t k = none) :
    g_hash_table_lookup key (t ++ [v]) k = if key v == k then some v else none := by
  unfold g_hash_table_lookup at *
  rw [List.find?_append, h]
  simp [List.find?_cons]
  split <;> simp_all

theorem lookup_append_of_ne {V : Type} (key : V → String) (t : List V) (v : V)
    (k : String) (h : key v ≠ k) :
    g_hash_table_lookup key (t ++ [v]) k = g_hash_table_lookup key t k := by
  unfold g_hash_table_lookup
  rw [List.find?_append]
  simp [List.find?_cons, h]

theorem replace_of_none {V : Type} (key : V → String) (t : List V) (v : V)
    (h : g_hash_table_lookup key t (key v) = none) :
    g_hash_table_replace key t v = t ++ [v] := by
  unfold g_hash_table_replace
  rw [lookup_eq_none_iff] at h
  have : t.any (fun w => key w == key v) = false := by
    rw [List.any_eq_false]
    intro w hw
    simpa using h w hw
  rw [this]
  simp

theorem find_map_replace_self {V : Type} (key : V → String) (t : List V) (v : V) :
    (t.map (fun w => if key w == key v then v else w)).find? (fun w => key w == key v)
      = (t.find? (fun w => key w == key v)).map (fun _ => v) := by
  induction t with
  | nil => rfl
  | cons a s ih =>
    rw [List.map_cons, List.find?_cons, List.find?_cons]
    by_cases ha : (key a == key v) = true
    · rw [if_pos ha, beq_self_eq_true, ha]
      rfl
    · rw [if_neg ha]
      simp only [Bool.not_eq_true] at ha
      rw [ha]
      exact ih

theorem find_map_replace_of_ne {V : Type} (key : V → String) (t : List V) (v : V)
    (k : String) (h : key v ≠ k) :
    (t.map (fun w => if key w == key v then v else w)).find? (fun w => key w == k)
      = t.find? (fun w => key w == k) := by
  induction t with
  | nil => rfl
  | cons a s ih =>
    rw [List.map_cons, List.find?_cons, List.find?_cons]
    by_cases ha : (key a == key v) = true
    · rw [if_pos ha]
      have hav : key a = key v := by simpa using ha
      have h1 : (key v == k) = false := by simpa using h
      have h2 : (key a == k) = false := by rw [hav]; exact h1
      rw [h1, h2]
      exact ih
    · rw [if_neg ha]
      cases hk : (key a == k)
      · exact ih
      · rfl

theorem lookup_replace_self {V : Type} (key : V → String) (t : List V) (v : V) :
    g_hash_table_lookup key (g_hash_table_replace key t v) (key v) = some v := by
  unfold g_hash_table_replace
  by_cases h : t.any (fun w => key w == key v) = true
  · rw [if_pos h]
    unfold g_hash_table_lookup
    rw [find_map_replace_self]
    rw [List.any_eq_true] at h
    obtain ⟨w, hw, hk⟩ := h
    cases hf : t.find? (fun w => key w == key v) with
    | none =>
      rw [List.find?_eq_none] at hf
      exact absurd hk (hf w hw)
    | some x => rfl
  · rw [if_neg h]
    have hn : g_hash_table_lookup key t (key v) = none := by
      rw [lookup_eq_none_iff]
      intro w hw hc
      apply h
      rw [List.any_eq_true]
      exact ⟨w, hw, by simpa using hc⟩
    rw [lookup_append_of_none key t v (key v) hn]
    simp

theorem lookup_replace_of_ne {V : Type} (key : V → String) (t : List V) (v : V)
    (k : String) (h : key v ≠ k) :
    g_hash_table_lookup key (g_hash_table_replace key t v) k
      = g_hash_table_lookup key t k := by
  unfold g_hash_table_replace
  split
  · exact find_map_replace_of_ne key t v k h
  · exact lookup_append_of_ne key t v k h

theorem lookup_remove_self {V : Type} (key : V → String) (t : List V) (k : String) :
    g_hash_table_lookup key (g_hash_table_remove key t k) k = none := by
  rw [lookup_eq_none_iff]
  intro v hv
  unfold g_hash_table_remove at hv
  simpa using (List.mem_filter.mp hv).2

theorem lookup_remove_of_ne {V : Type} (key : V → String) (t : List V) (k q : String)
    (h : q ≠ k) :
    g_hash_table_lookup key (g_hash_table_remove key t k) q
      = g_hash_table_lookup key t q := by
  unfold g_hash_table_lookup g_hash_table_remove
  rw [List.find?_filter]
  congr 1
  funext v
  by_cases hv : key v = q
  · simp [hv, h]
  · simp [hv]

theorem remove_of_none {V : Type} (key : V → String) (t : List V) (k : String)
    (h : g_hash_table_lookup key t k = none) : g_hash_table_remove key t k = t := by
  unfold g_hash_table_remove
  rw [List.filter_eq_self]
  rw [lookup_eq_none_iff] at h
  intro v hv
  simpa using h v hv

theorem remove_append_self {V : Type} (key : V → String) (t : List V) (v : V)
    (h : g_hash_table_lookup key t (key v) = none) :
    g_hash_table_remove key (t ++ [v]) (key v) = t := by
  have := remove_of_none key t (key v) h
  unfold g_hash_table_remove at *
  rw [List.filter_append, this]
  simp

/-! ### The group key as a function of (SSID, mode, security) -/

theorem hex_digit_ne (n : Nat) (h : n < 16) : hex_digit n ≠ '_' ∧ hex_digit n ≠ 'h' := by
  revert n
  decide

theorem hex_digit_inj_fin :
    ∀ a b : Fin 16, hex_digit a.val = hex_digit b.val → a = b := by
  decide

theorem hex_digit_inj (a b : Nat) (ha : a < 16) (hb : b < 16)
    (h : hex_digit a = hex_digit b) : a = b :=
  congrArg Fin.val (hex_digit_inj_fin ⟨a, ha⟩ ⟨b, hb⟩ h)

theorem two_hex_digits_data (b : Byte) :
    (two_hex_digits b).data = [hex_digit (b.val / 16), hex_digit (b.val % 16)] := by
  rw [← printf_02x_eq_two_hex_digits]
  rfl

theorem hex_dump_data_cons (b : Byte) (l : List Byte) :
    (hex_dump (b :: l)).data
      = hex_digit (b.val / 16) :: hex_digit (b.val % 16) :: (hex_dump l).data := by
  unfold hex_dump
  rw [join_data, join_data]
  simp [two_hex_digits_data]

theorem hex_dump_data_nil : (hex_dump []).data = [] := by
  unfold hex_dump
  rw [join_data]
  rfl

theorem hex_dump_no_underscore (l : List Byte) : ∀ c ∈ (hex_dump l).data, c ≠ '_' := by
  induction l with
  | nil => simp [hex_dump_data_nil]
  | cons b t ih =>
    intro c hc
    rw [hex_dump_data_cons] at hc
    have h1 := hex_digit_ne (b.val / 16) (by omega)
    have h2 := hex_digit_ne (b.val % 16) (by omega)
    simp only [List.mem_cons] at hc
    rcases hc with hc | hc | hc
    · rw [hc]; exact h1.1
    · rw [hc]; exact h2.1
    · exact ih c hc

theorem hex_dump_inj (l1 l2 : List Byte) (h : (hex_dump l1).data = (hex_dump l2).data) :
    l1 = l2 := by
  induction l1 generalizing l2 with
  | nil =>
    cases l2 with
    | nil => rfl
    | cons b t => simp [hex_dump_data_nil, hex_dump_data_cons] at h
  | cons a s ih =>
    cases l2 with
    | nil => simp [hex_dump_data_nil, hex_dump_data_cons] at h
    | cons b t =>
      rw [hex_dump_data_cons, hex_dump_data_cons] at h
      simp only [List.cons.injEq] at h
      obtain ⟨hq, hr, ht⟩ := h
      have e1 := hex_digit_inj _ _ (by omega) (by omega) hq
      have e2 := hex_digit_inj _ _ (by omega) (by omega) hr
      have hab : a = b := by
        apply Fin.ext
        omega
      rw [hab, ih t ht]

theorem hex_dump_ne_hidden (l : List Byte) (h : l ≠ []) :
    (hex_dump l).data ≠ "hidden".data := by
  cases l with
  | nil => exact absurd rfl h
  | cons b t =>
    rw [hex_dump_data_cons]
    intro hc
    have h1 := (hex_digit_ne (b.val / 16) (by omega)).2
    have : "hidden".data = ['h', 'i', 'd', 'd', 'e', 'n'] := rfl
    rw [this] at hc
    simp only [List.cons.injEq] at hc
    exact h1 hc.1

/-- The characters of a string up to the first underscore, and the rest. -/
theorem split_at_underscore (p s : List Char) (hp : ∀ c ∈ p, c ≠ '_')
    (hs : s = [] ∨ s.head? = some '_') :
    (p ++ s).takeWhile (fun c => c != '_') = p
      ∧ (p ++ s).dropWhile (fun c => c != '_') = s := by
  induction p with
  | nil =>
    rcases hs with hs | hs
    · subst hs; simp
    · cases s with
      | nil => simp
      | cons c t =>
        simp only [List.head?_cons, Option.some.injEq] at hs
        subst hs
        simp
  | cons a t ih =>
    have ha : a ≠ '_' := hp a (List.mem_cons_self a t)
    have ht := ih (fun c hc => hp c (List.mem_cons_of_mem a hc))
    simp [List.takeWhile_cons, List.dropWhile_cons, ha, ht.1, ht.2]

theorem suffix_head (m : supplicant_mode) (sec : supplicant_security) :
    (mode_suffix m ++ security_suffix sec).data = []
      ∨ (mode_suffix m ++ security_suffix sec).data.head? = some '_' := by
  cases m <;> cases sec <;> decide

theorem suffix_inj (m1 m2 : supplicant_mode) (s1 s2 : supplicant_security)
    (h : (mode_suffix m1 ++ security_suffix s1).data
          = (mode_suffix m2 ++ security_suffix s2).data) :
    m1 = m2 ∧ s1 = s2 := by
  revert h
  cases m1 <;> cases m2 <;> cases s1 <;> cases s2 <;> decide

theorem ssid_part_no_underscore (bss : supplicant_bss) :
    ∀ c ∈ (if bss.ssid_len > 0 ∧ bss.ssid.getD 0 0 ≠ 0 then hex_dump (ssid_bytes bss)
            else "hidden").data, c ≠ '_' := by
  split
  · exact hex_dump_no_underscore _
  · decide

theorem ssid_bytes_ne_nil (bss : supplicant_bss) (h : bss.ssid_len > 0) :
    ssid_bytes bss ≠ [] := by
  intro hc
  have := congrArg List.length hc
  simp [ssid_bytes] at this
  omega

theorem group_ssid_of_ssid_bytes (b1 b2 : supplicant_bss)
    (h : ssid_bytes b1 = ssid_bytes b2) : group_ssid b1 = group_ssid b2 := by
  have hlen : b1.ssid_len = b2.ssid_len := by
    have := congrArg List.length h
    simpa [ssid_bytes] using this
  have h0 : b1.ssid_len > 0 → b1.ssid.getD 0 0 = b2.ssid.getD 0 0 := by
    intro hpos
    have := congrArg (fun l => l[0]?) h
    have hpos2 : 0 < b2.ssid_len := by omega
    simpa [ssid_bytes, List.getElem?_range hpos, List.getElem?_range hpos2] using this
  unfold group_ssid
  by_cases hpos : b1.ssid_len > 0
  · rw [← hlen, ← h0 hpos, h]
  · have hpos2 : ¬ b2.ssid_len > 0 := by omega
    simp [hpos, hpos2]

theorem create_group_inj (b1 b2 : supplicant_bss) :
    create_group b1 = create_group b2
      ↔ group_ssid b1 = group_ssid b2 ∧ b1.mode = b2.mode ∧ b1.security = b2.security := by
  constructor
  · intro h
    rw [create_group_eq, create_group_eq] at h
    have hd := congrArg String.data h
    simp only [String.data_append, List.append_assoc] at hd
    have k1 := split_at_underscore _ _ (ssid_part_no_underscore b1)
      (suffix_head b1.mode b1.security)
    have k2 := split_at_underscore _ _ (ssid_part_no_underscore b2)
      (suffix_head b2.mode b2.security)
    simp only [String.data_append] at k1 k2
    rw [hd] at k1
    have hp := k1.1.symm.trans k2.1
    have hs := k1.2.symm.trans k2.2
    refine ⟨?_, suffix_inj _ _ _ _ (by simpa only [String.data_append] using hs)⟩
    unfold group_ssid
    by_cases v1 : b1.ssid_len > 0 ∧ b1.ssid.getD 0 0 ≠ 0
    · by_cases v2 : b2.ssid_len > 0 ∧ b2.ssid.getD 0 0 ≠ 0
      · rw [if_pos v1, if_pos v2] at hp
        rw [if_pos v1, if_pos v2, hex_dump_inj _ _ hp]
      · rw [if_pos v1, if_neg v2] at hp
        exact absurd hp (hex_dump_ne_hidden _ (ssid_bytes_ne_nil b1 v1.1))
    · by_cases v2 : b2.ssid_len > 0 ∧ b2.ssid.getD 0 0 ≠ 0
      · rw [if_neg v1, if_pos v2] at hp
        exact absurd hp.symm (hex_dump_ne_hidden _ (ssid_bytes_ne_nil b2 v2.1))
      · rw [if_neg v1, if_neg v2]
  · rintro ⟨hg, hm, hs⟩
    rw [create_group_eq, create_group_eq, hm, hs]
    unfold group_ssid at hg
    by_cases v1 : b1.ssid_len > 0 ∧ b1.ssid.getD 0 0 ≠ 0
    · by_cases v2 : b2.ssid_len > 0 ∧ b2.ssid.getD 0 0 ≠ 0
      · rw [if_pos v1, if_pos v2] at hg
        rw [if_pos v1, if_pos v2, Option.some.inj hg]
      · rw [if_pos v1, if_neg v2] at hg
        exact absurd hg (by simp)
    · by_cases v2 : b2.ssid_len > 0 ∧ b2.ssid.getD 0 0 ≠ 0
      · rw [if_neg v1, if_pos v2] at hg
        exact absurd hg (by simp)
      · rw [if_neg v1, if_neg v2]

/-! ### The AKM suites of an information element -/

theorem rsn_count_le16 (n : Nat) (h : n < 65536) (tail : List Byte) :
    rsn_count (le16 n ++ tail) = n := by
  unfold rsn_count le16
  simp only [List.cons_append, List.getD_cons_zero, List.getD_cons_succ]
  have h1 : n % 256 < 2 ^ 8 := Nat.mod_lt _ (by decide)
  have h2 := Nat.mul_add_lt_is_or h1 (n / 256 % 256)
  rw [Nat.lor_comm, Nat.shiftLeft_eq, Nat.mul_comm, ← h2]
  omega

theorem suites_length (l : List rsn_suite) :
    (l.map rsn_suite.bytes).flatten.length = l.length * 4 := by
  induction l with
  | nil => rfl
  | cons a t ih => simp [rsn_suite.bytes, ih]; omega

theorem extract_rsn_suite_bytes (bss : supplicant_bss) (s : rsn_suite) (tail : List Byte) :
    extract_rsn_suite bss (s.bytes ++ tail)
      = { bss with
          ieee8021x := bss.ieee8021x || akm_selects 1 s
          psk := bss.psk || akm_selects 2 s } := by
  obtain ⟨b0, b1, b2, b3⟩ := s
  have hw : memcmp3_eq ([b0, b1, b2, b3] ++ tail) wifi_oui
      = (([b0, b1, b2] : List Byte) == [0x00, 0x50, 0xf2]) := by
    simp [memcmp3_eq, wifi_oui, List.range_succ, Bool.and_assoc]
  have hi : memcmp3_eq ([b0, b1, b2, b3] ++ tail) ieee80211_oui
      = (([b0, b1, b2] : List Byte) == [0x00, 0x0f, 0xac]) := by
    simp [memcmp3_eq, ieee80211_oui, List.range_succ, Bool.and_assoc]
  have h3 : ([b0, b1, b2, b3] ++ tail).getD 3 0 = b3 := by simp
  unfold extract_rsn_suite
  simp only [rsn_suite.bytes, hw, hi, h3, akm_selects]
  by_cases c1 : (([b0, b1, b2] : List Byte) == [0x00, 0x50, 0xf2]) = true <;>
  by_cases c2 : (([b0, b1, b2] : List Byte) == [0x00, 0x0f, 0xac]) = true <;>
  by_cases d1 : b3 = 1 <;> by_cases d2 : b3 = 2 <;>
  simp [c1, c2, d1, d2, beq_eq_false_iff_ne.mpr]

theorem extract_rsn_loop (pre : List Byte) (akm : List rsn_suite) (rest : List Byte)
    (bss : supplicant_bss) :
    (List.range akm.length).foldl
        (fun bss i => extract_rsn_suite bss
          ((pre ++ ((akm.map rsn_suite.bytes).flatten ++ rest)).drop (pre.length + i * 4)))
        bss
      = { bss with
          ieee8021x := bss.ieee8021x || akm.any (akm_selects 1)
          psk := bss.psk || akm.any (akm_selects 2) } := by
  induction akm generalizing pre bss with
  | nil => simp
  | cons s t ih =>
    rw [List.length_cons, List.range_succ_eq_map, List.foldl_cons, List.foldl_map]
    have h0 : (pre ++ (((s :: t).map rsn_suite.bytes).flatten ++ rest)).drop
        (pre.length + 0 * 4) = s.bytes ++ ((t.map rsn_suite.bytes).flatten ++ rest) := by
      simp
    have hstep : ∀ i : Nat,
        (pre ++ (((s :: t).map rsn_suite.bytes).flatten ++ rest)).drop
            (pre.length + i.succ * 4)
          = ((pre ++ s.bytes) ++ ((t.map rsn_suite.bytes).flatten ++ rest)).drop
              ((pre ++ s.bytes).length + i * 4) := by
      intro i
      have e : pre ++ (((s :: t).map rsn_suite.bytes).flatten ++ rest)
          = (pre ++ s.bytes) ++ ((t.map rsn_suite.bytes).flatten ++ rest) := by simp
      have l : pre.length + i.succ * 4 = (pre ++ s.bytes).length + i * 4 := by
        simp [rsn_suite.bytes]; omega
      rw [e, l]
    simp only [hstep, h0, extract_rsn_suite_bytes]
    rw [ih (pre ++ s.bytes)]
    simp [Bool.or_assoc]

/-! ### Insertion -/

theorem add_bss_to_network_found (callbacks_pointer : Option supplicant_callbacks)
    (interface : supplicant_interface) (bss : supplicant_bss) (n0 : supplicant_network)
    (h : g_hash_table_lookup supplicant_network.group interface.network_table
          (create_group bss) = some n0) :
    add_bss_to_network callbacks_pointer interface bss
      = ({ interface with
            bss_mapping :=
              g_hash_table_replace Prod.fst interface.bss_mapping
                (bss.path, create_group bss)
            network_table := interface.network_table.map (fun network =>
              if network.group == create_group bss then
                { network with
                  bss_table :=
                    g_hash_table_replace supplicant_bss.path network.bss_table bss }
              else network) }, []) := by
  unfold add_bss_to_network
  simp only [h]

theorem add_bss_to_network_new (callbacks_pointer : Option supplicant_callbacks)
    (interface : supplicant_interface) (bss : supplicant_bss)
    (h : g_hash_table_lookup supplicant_network.group interface.network_table
          (create_group bss) = none) :
    add_bss_to_network callbacks_pointer interface bss
      = ({ interface with
            bss_mapping :=
              g_hash_table_replace Prod.fst interface.bss_mapping
                (bss.path, create_group bss)
            network_table :=
              interface.network_table ++ [{ network_alloc bss with bss_table := [bss] }] },
          callback_network_added callbacks_pointer (network_alloc bss)) := by
  unfold add_bss_to_network
  simp only [h]
  have hr : g_hash_table_replace supplicant_network.group interface.network_table
      (network_alloc bss) = interface.network_table ++ [network_alloc bss] :=
    replace_of_none _ _ _ h
  have hid : interface.network_table.map (fun network =>
      if network.group == create_group bss then
        { network with
          bss_table := g_hash_table_replace supplicant_bss.path network.bss_table bss }
      else network) = interface.network_table := by
    rw [lookup_eq_none_iff] at h
    conv => rhs; rw [← List.map_id interface.network_table]
    apply List.map_congr_left
    intro n hn
    have := h n hn
    simp [this]
  change (_, _) = _
  unfold network_alloc at hr ⊢
  rw [hr, List.map_append, hid]
  simp [g_hash_table_replace]

theorem add_bss_to_network_lookup_group (callbacks_pointer : Option supplicant_callbacks)
    (interface : supplicant_interface) (bss : supplicant_bss) :
    g_hash_table_lookup supplicant_network.group
        (add_bss_to_network callbacks_pointer interface bss).1.network_table
        (create_group bss)
      = some (match g_hash_table_lookup supplicant_network.group interface.network_table
                (create_group bss) with
              | some n0 =>
                { n0 with
                  bss_table := g_hash_table_replace supplicant_bss.path n0.bss_table bss }
              | none => { network_alloc bss with bss_table := [bss] }) := by
  cases h : g_hash_table_lookup supplicant_network.group interface.network_table
      (create_group bss) with
  | none =>
    rw [add_bss_to_network_new _ _ _ h]
    simp only
    rw [lookup_append_of_none _ _ _ _ h]
    simp [network_alloc]
  | some n0 =>
    rw [add_bss_to_network_found _ _ _ n0 h]
    simp only
    rw [lookup_map supplicant_network.group _ _ (by intro v; split <;> rfl), h]
    have hk := (lookup_key _ _ _ _ h).1
    simp [hk]

theorem add_bss_to_network_lookup_other (callbacks_pointer : Option supplicant_callbacks)
    (interface : supplicant_interface) (bss : supplicant_bss) (k : String)
    (hk : k ≠ create_group bss) :
    g_hash_table_lookup supplicant_network.group
        (add_bss_to_network callbacks_pointer interface bss).1.network_table k
      = g_hash_table_lookup supplicant_network.group interface.network_table k := by
  cases h : g_hash_table_lookup supplicant_network.group interface.network_table
      (create_group bss) with
  | none =>
    rw [add_bss_to_network_new _ _ _ h]
    simp only
    exact lookup_append_of_ne _ _ _ _ (fun hc => hk hc.symm)
  | some n0 =>
    rw [add_bss_to_network_found _ _ _ n0 h]
    simp only
    rw [lookup_map supplicant_network.group _ _ (by intro v; split <;> rfl)]
    cases hq : g_hash_table_lookup supplicant_network.group interface.network_table k with
    | none => rfl
    | some n =>
      have hn := (lookup_key _ _ _ _ hq).1
      have : n.group ≠ create_group bss := by rw [hn]; exact hk
      simp [this]

theorem add_bss_to_network_mapping (callbacks_pointer : Option supplicant_callbacks)
    (interface : supplicant_interface) (bss : supplicant_bss) :
    (add_bss_to_network callbacks_pointer interface bss).1.bss_mapping
      = g_hash_table_replace Prod.fst interface.bss_mapping (bss.path, create_group bss) := by
  cases h : g_hash_table_lookup supplicant_network.group interface.network_table
      (create_group bss) with
  | none => rw [add_bss_to_network_new _ _ _ h]
  | some n0 => rw [add_bss_to_network_found _ _ _ n0 h]

theorem add_bss_to_network_emitted (callbacks_pointer : Option supplicant_callbacks)
    (interface : supplicant_interface) (bss : supplicant_bss) :
    (add_bss_to_network callbacks_pointer interface bss).2
      = (match g_hash_table_lookup supplicant_network.group interface.network_table
                (create_group bss) with
         | some _ => []
         | none => callback_network_added callbacks_pointer (network_alloc bss)) := by
  cases h : g_hash_table_lookup supplicant_network.group interface.network_table
      (create_group bss) with
  | none => rw [add_bss_to_network_new _ _ _ h]
  | some n0 => rw [add_bss_to_network_found _ _ _ n0 h]

/-! ### Removal -/

theorem lookup_map_set {V : Type} (key : V → String) (t : List V) (v : V) (k : String) :
    g_hash_table_lookup key (t.map (fun w => if key w == key v then v else w)) k
      = if k = key v then (g_hash_table_lookup key t k).map (fun _ => v)
        else g_hash_table_lookup key t k := by
  unfold g_hash_table_lookup
  split
  · rename_i h
    rw [h]
    exact find_map_replace_self key t v
  · rename_i h
    exact find_map_replace_of_ne key t v k (fun hc => h hc.symm)

theorem interface_bss_removed_absent (callbacks_pointer : Option supplicant_callbacks)
    (interface : supplicant_interface) (path : String)
    (h : g_hash_table_lookup Prod.fst interface.bss_mapping path = none) :
    interface_bss_removed callbacks_pointer (some path) interface = (interface, []) := by
  unfold interface_bss_removed
  simp only [h]

theorem interface_bss_removed_eq (callbacks_pointer : Option supplicant_callbacks)
    (interface : supplicant_interface) (path : String) (entry : String × String)
    (network : supplicant_network)
    (h1 : g_hash_table_lookup Prod.fst interface.bss_mapping path = some entry)
    (h2 : g_hash_table_lookup supplicant_network.group interface.network_table entry.2
            = some network) :
    interface_bss_removed callbacks_pointer (some path) interface
      = if g_hash_table_remove supplicant_bss.path network.bss_table path = [] then
          ({ interface with
              bss_mapping := g_hash_table_remove Prod.fst interface.bss_mapping path
              network_table :=
                g_hash_table_remove supplicant_network.group
                  (interface.network_table.map (fun n =>
                    if n.group == network.group then
                      { network with
                        bss_table :=
                          g_hash_table_remove supplicant_bss.path network.bss_table path }
                    else n))
                  network.group },
            callback_network_removed callbacks_pointer
              { network with
                bss_table :=
                  g_hash_table_remove supplicant_bss.path network.bss_table path })
        else
          ({ interface with
              bss_mapping := g_hash_table_remove Prod.fst interface.bss_mapping path
              network_table :=
                interface.network_table.map (fun n =>
                  if n.group == network.group then
                    { network with
                      bss_table :=
                        g_hash_table_remove supplicant_bss.path network.bss_table path }
                  else n) }, []) := by
  have hk := (lookup_key _ _ _ _ h2).1
  unfold interface_bss_removed
  simp only [h1, h2, g_hash_table_size, List.length_eq_zero, remove_network, hk]

/-! ### The BSS builder outside the sentinel -/

theorem extract_rsn_suite_flags (bss : supplicant_bss) (ptr : List Byte) :
    extract_rsn_suite bss ptr
      = { bss with
          ieee8021x := (extract_rsn_suite bss ptr).ieee8021x
          psk := (extract_rsn_suite bss ptr).psk } := by
  unfold extract_rsn_suite
  split_ifs <;> rfl

theorem extract_rsn_loop_flags (f : Nat → List Byte) (l : List Nat) (bss : supplicant_bss) :
    l.foldl (fun bss i => extract_rsn_suite bss (f i)) bss
      = { bss with
          ieee8021x := (l.foldl (fun bss i => extract_rsn_suite bss (f i)) bss).ieee8021x
          psk := (l.foldl (fun bss i => extract_rsn_suite bss (f i)) bss).psk } := by
  induction l generalizing bss with
  | nil => rfl
  | cons a t ih =>
    rw [List.foldl_cons]
    have h1 := ih (extract_rsn_suite bss (f a))
    have h2 := extract_rsn_suite_flags bss (f a)
    rw [h2] at h1
    rw [h2]
    exact h1

theorem extract_rsn_cases (bss : supplicant_bss) (buf : List Byte) (len : Int) :
    extract_rsn bss buf len = bss
      ∨ ∃ (f : Nat → List Byte) (l : List Nat),
          extract_rsn bss buf len = l.foldl (fun bss i => extract_rsn_suite bss (f i)) bss := by
  unfold extract_rsn
  by_cases h1 : len < 2
  · left; rw [if_pos h1]
  rw [if_neg h1]
  by_cases h2 : len - 2 < 4
  · left; simp only [h2, if_true]
  simp only [h2, if_false]
  by_cases h3 : len - 2 - 4 < 2
  · left; simp only [h3, if_true]
  simp only [h3, if_false]
  split
  · left; rfl
  split
  · left; rfl
  split
  · left; rfl
  right
  exact ⟨_, _, rfl⟩

/-- The function `extract_rsn` writes no field of the BSS other than `ieee8021x` and `psk`. -/
theorem extract_rsn_flags (bss : supplicant_bss) (buf : List Byte) (len : Int) :
    ∃ ieee8021x psk,
      extract_rsn bss buf len = { bss with ieee8021x := ieee8021x, psk := psk } := by
  rcases extract_rsn_cases bss buf len with h | ⟨f, l, h⟩
  · exact ⟨bss.ieee8021x, bss.psk, h⟩
  · rw [h, extract_rsn_loop_flags]
    exact ⟨_, _, rfl⟩

theorem extract_rsn_path (bss : supplicant_bss) (buf : List Byte) (len : Int) :
    (extract_rsn bss buf len).path = bss.path
      ∧ (extract_rsn bss buf len).interface = bss.interface := by
  obtain ⟨i, p, h⟩ := extract_rsn_flags bss buf len
  rw [h]
  exact ⟨rfl, rfl⟩

/-- A key other than the sentinel touches neither the interface nor the trace, nor the
path and interface pointer of the BSS. -/
theorem bss_property_key_frame (callbacks_pointer : Option supplicant_callbacks)
    (key : String) (iter : DBusValue) (ctx : bss_context) :
    (bss_property callbacks_pointer (some key) iter ctx).interface = ctx.interface
      ∧ (bss_property callbacks_pointer (some key) iter ctx).emitted = ctx.emitted
      ∧ (bss_property callbacks_pointer (some key) iter ctx).bss.path = ctx.bss.path
      ∧ (bss_property callbacks_pointer (some key) iter ctx).bss.interface
          = ctx.bss.interface := by
  have hr := fun buf len => extract_rsn_path ctx.bss buf len
  generalize hx : bss_property callbacks_pointer (some key) iter ctx = r
  unfold bss_property at hx
  by_cases hn : ctx.bss.interface = none
  · simp only [hn, if_true] at hx
    subst hx
    exact ⟨rfl, rfl, rfl, hn.symm ▸ rfl⟩
  · simp only [hn, if_false] at hx
    by_cases k1 : (key == "BSSID") = true
    · rw [if_pos k1] at hx
      split at hx <;> subst hx <;> exact ⟨rfl, rfl, rfl, rfl⟩
    rw [if_neg k1] at hx
    by_cases k2 : (key == "SSID") = true
    · rw [if_pos k2] at hx
      split at hx <;> subst hx <;> exact ⟨rfl, rfl, rfl, rfl⟩
    rw [if_neg k2] at hx
    by_cases k3 : (key == "Capabilities") = true
    · rw [if_pos k3] at hx
      subst hx
      exact ⟨rfl, rfl, rfl, rfl⟩
    rw [if_neg k3] at hx
    by_cases k4 : (key == "Mode") = true
    · rw [if_pos k4] at hx
      subst hx
      exact ⟨rfl, rfl, rfl, rfl⟩
    rw [if_neg k4] at hx
    by_cases k5 : (key == "Frequency") = true
    · rw [if_pos k5] at hx
      subst hx
      exact ⟨rfl, rfl, rfl, rfl⟩
    rw [if_neg k5] at hx
    by_cases k6 : (key == "Signal") = true
    · rw [if_pos k6] at hx
      subst hx
      exact ⟨rfl, rfl, rfl, rfl⟩
    rw [if_neg k6] at hx
    by_cases k7 : (key == "Level") = true
    · rw [if_pos k7] at hx
      subst hx
      exact ⟨rfl, rfl, rfl, rfl⟩
    rw [if_neg k7] at hx
    by_cases k8 : (key == "MaxRate") = true
    · rw [if_pos k8] at hx
      subst hx
      exact ⟨rfl, rfl, rfl, rfl⟩
    rw [if_neg k8] at hx
    by_cases k9 : (key == "Privacy") = true
    · rw [if_pos k9] at hx
      subst hx
      exact ⟨rfl, rfl, rfl, rfl⟩
    rw [if_neg k9] at hx
    by_cases k10 : (key == "RSNIE") = true
    · rw [if_pos k10] at hx
      split at hx <;> subst hx
      · exact ⟨rfl, rfl, (hr _ _).1, (hr _ _).2⟩
      · exact ⟨rfl, rfl, rfl, rfl⟩
    rw [if_neg k10] at hx
    by_cases k11 : (key == "WPAIE") = true
    · rw [if_pos k11] at hx
      split at hx <;> subst hx
      · exact ⟨rfl, rfl, (hr _ _).1, (hr _ _).2⟩
      · exact ⟨rfl, rfl, rfl, rfl⟩
    rw [if_neg k11] at hx
    split at hx <;> subst hx <;> exact ⟨rfl, rfl, rfl, rfl⟩

theorem bss_property_sentinel (callbacks_pointer : Option supplicant_callbacks)
    (iter : DBusValue) (ctx : bss_context) (h : ctx.bss.interface ≠ none) :
    bss_property callbacks_pointer none iter ctx
      = { interface :=
            (add_bss_to_network callbacks_pointer ctx.interface
              (bss_property callbacks_pointer none iter ctx).bss).1
          bss := (bss_property callbacks_pointer none iter ctx).bss
          emitted := ctx.emitted ++
            (add_bss_to_network callbacks_pointer ctx.interface
              (bss_property callbacks_pointer none iter ctx).bss).2 }
      ∧ (bss_property callbacks_pointer none iter ctx).bss.path = ctx.bss.path := by
  unfold bss_property
  simp only [h, if_false, and_self]

theorem property_foreach_frame (callbacks_pointer : Option supplicant_callbacks)
    (properties : List (String × DBusValue)) (ctx : bss_context) :
    (supplicant_dbus_property_foreach (bss_property callbacks_pointer) properties
        ctx).interface = ctx.interface
      ∧ (supplicant_dbus_property_foreach (bss_property callbacks_pointer) properties
          ctx).emitted = ctx.emitted
      ∧ (supplicant_dbus_property_foreach (bss_property callbacks_pointer) properties
          ctx).bss.path = ctx.bss.path
      ∧ (supplicant_dbus_property_foreach (bss_property callbacks_pointer) properties
          ctx).bss.interface = ctx.bss.interface := by
  unfold supplicant_dbus_property_foreach
  induction properties generalizing ctx with
  | nil => exact ⟨rfl, rfl, rfl, rfl⟩
  | cons a t ih =>
    rw [List.foldl_cons]
    have h1 := ih (bss_property callbacks_pointer (some a.1) a.2 ctx)
    have h2 := bss_property_key_frame callbacks_pointer a.1 a.2 ctx
    exact ⟨h1.1.trans h2.1, h1.2.1.trans h2.2.1, h1.2.2.1.trans h2.2.2.1,
      h1.2.2.2.trans h2.2.2.2⟩

theorem property_foreach_alloc (callbacks_pointer : Option supplicant_callbacks)
    (interface : supplicant_interface) (path : String)
    (properties : List (String × DBusValue)) :
    (supplicant_dbus_property_foreach (bss_property callbacks_pointer) properties
        { interface := interface, bss := bss_alloc interface path, emitted := [] }).interface
        = interface
      ∧ (supplicant_dbus_property_foreach (bss_property callbacks_pointer) properties
        { interface := interface, bss := bss_alloc interface path, emitted := [] }).emitted
        = []
      ∧ (supplicant_dbus_property_foreach (bss_property callbacks_pointer) properties
        { interface := interface, bss := bss_alloc interface path, emitted := [] }).bss.path
        = path
      ∧ (supplicant_dbus_property_foreach (bss_property callbacks_pointer) properties
        { interface := interface, bss := bss_alloc interface path, emitted := []
          }).bss.interface ≠ none := by
  have h := property_foreach_frame callbacks_pointer properties
    { interface := interface, bss := bss_alloc interface path, emitted := [] }
  refine ⟨h.1, h.2.1, h.2.2.1, ?_⟩
  rw [h.2.2.2]
  simp [bss_alloc]

theorem built_bss_path (callbacks_pointer : Option supplicant_callbacks)
    (interface : supplicant_interface) (path : String)
    (properties : List (String × DBusValue)) :
    (built_bss callbacks_pointer interface path properties).path = path := by
  have h := property_foreach_alloc callbacks_pointer interface path properties
  unfold built_bss
  rw [(bss_property_sentinel callbacks_pointer DBusValue.other _ h.2.2.2).2]
  exact h.2.2.1

/-- The function `interface_bss_added` with inline properties, for a path other than `/` that is not
indexed yet, is `add_bss_to_network` of the BSS built from the bag. -/
theorem interface_bss_added_inline (callbacks_pointer : Option supplicant_callbacks)
    (interface : supplicant_interface) (path : String)
    (properties : List (String × DBusValue))
    (hroot : (path == "/") = false) (hidx : bss_indexed interface path = false) :
    interface_bss_added callbacks_pointer (some path) (some properties) interface
      = add_bss_to_network callbacks_pointer interface
          (built_bss callbacks_pointer interface path properties) := by
  have h := property_foreach_alloc callbacks_pointer interface path properties
  have hs := (bss_property_sentinel callbacks_pointer DBusValue.other _ h.2.2.2).1
  unfold interface_bss_added built_bss
  simp only [hroot, hidx, Bool.false_eq_true, if_false]
  rw [hs]
  simp only [h.1, h.2.1, List.nil_append]

theorem bss_indexed_add_bss_to_network (callbacks_pointer : Option supplicant_callbacks)
    (interface : supplicant_interface) (bss : supplicant_bss) :
    bss_indexed (add_bss_to_network callbacks_pointer interface bss).1 bss.path = true := by
  have h1 := add_bss_to_network_lookup_group callbacks_pointer interface bss
  have h2 : g_hash_table_lookup Prod.fst
      (add_bss_to_network callbacks_pointer interface bss).1.bss_mapping bss.path
      = some (bss.path, create_group bss) := by
    rw [add_bss_to_network_mapping]
    exact lookup_replace_self Prod.fst interface.bss_mapping (bss.path, create_group bss)
  unfold bss_indexed
  simp only [h2, h1]
  cases h : g_hash_table_lookup supplicant_network.group interface.network_table
      (create_group bss) with
  | none => simp [g_hash_table_lookup]
  | some n0 =>
    simp only [lookup_replace_self supplicant_bss.path n0.bss_table bss, Option.isSome_some]

/-! ### `BSSAdded` for an indexed path -/

theorem interface_bss_added_indexed (callbacks_pointer : Option supplicant_callbacks)
    (interface : supplicant_interface) (path : String)
    (properties : Option (List (String × DBusValue)))
    (h : bss_indexed interface path = true) :
    interface_bss_added callbacks_pointer (some path) properties interface
      = (interface, []) := by
  unfold interface_bss_added
  simp only [h, if_true]
  split <;> rfl

/-! ### The shape of `network_table` is kept by every handler -/

theorem map_set_keys {V : Type} (key : V → String) (t : List V) (v : V) :
    (t.map (fun w => if key w == key v then v else w)).map key = t.map key := by
  rw [List.map_map]
  apply List.map_congr_left
  intro w _
  by_cases h : (key w == key v) = true
  · have hk : key w = key v := by simpa using h
    simp [hk]
  · have hk : ¬ key w = key v := by simpa using h
    simp [hk]

theorem remove_sublist {V : Type} (key : V → String) (t : List V) (k : String) :
    (g_hash_table_remove key t k).Sublist t :=
  List.filter_sublist t

theorem mem_remove {V : Type} (key : V → String) (t : List V) (k : String) (v : V)
    (h : v ∈ g_hash_table_remove key t k) : v ∈ t ∧ key v ≠ k := by
  unfold g_hash_table_remove at h
  have hf := List.mem_filter.mp h
  exact ⟨hf.1, by simpa using hf.2⟩

theorem replace_ne_nil {V : Type} (key : V → String) (t : List V) (v : V) :
    g_hash_table_replace key t v ≠ [] := by
  unfold g_hash_table_replace
  split
  · rename_i h
    cases t with
    | nil => simp at h
    | cons a s => simp
  · simp

theorem interface_alloc_wf (path : String) : interface_wf (interface_alloc path) := by
  unfold interface_wf interface_alloc
  simp

theorem add_bss_to_network_wf (callbacks_pointer : Option supplicant_callbacks)
    (interface : supplicant_interface) (bss : supplicant_bss) (h : interface_wf interface) :
    interface_wf (add_bss_to_network callbacks_pointer interface bss).1 := by
  obtain ⟨hk, hn⟩ := h
  cases hfound : g_hash_table_lookup supplicant_network.group interface.network_table
      (create_group bss) with
  | none =>
    rw [add_bss_to_network_new _ _ _ hfound]
    unfold interface_wf
    simp only
    constructor
    · rw [List.map_append, List.nodup_append]
      refine ⟨hk, by simp, ?_⟩
      rw [lookup_eq_none_iff] at hfound
      intro a ha hb
      simp only [List.map_cons, List.map_nil, List.mem_singleton] at hb
      obtain ⟨n, hn1, hn2⟩ := List.mem_map.mp ha
      exact hfound n hn1 (hn2.trans hb)
    · intro n hmem
      rw [List.mem_append] at hmem
      rcases hmem with hmem | hmem
      · exact hn n hmem
      · simp only [List.mem_singleton] at hmem
        rw [hmem]
        simp
  | some n0 =>
    rw [add_bss_to_network_found _ _ _ n0 hfound]
    unfold interface_wf
    simp only
    constructor
    · have : (interface.network_table.map (fun network =>
          if network.group == create_group bss then
            { network with
              bss_table := g_hash_table_replace supplicant_bss.path network.bss_table bss }
          else network)).map supplicant_network.group
          = interface.network_table.map supplicant_network.group := by
        rw [List.map_map]
        apply List.map_congr_left
        intro w _
        simp only [Function.comp]
        split <;> rfl
      rw [this]
      exact hk
    · intro n hmem
      obtain ⟨m, hm1, hm2⟩ := List.mem_map.mp hmem
      rw [← hm2]
      split
      · exact replace_ne_nil supplicant_bss.path m.bss_table bss
      · exact hn m hm1

theorem interface_bss_removed_wf (callbacks_pointer : Option supplicant_callbacks)
    (interface : supplicant_interface) (path : Option String) (h : interface_wf interface) :
    interface_wf (interface_bss_removed callbacks_pointer path interface).1 := by
  obtain ⟨hk, hn⟩ := h
  cases path with
  | none => exact ⟨hk, hn⟩
  | some p =>
    cases h1 : g_hash_table_lookup Prod.fst interface.bss_mapping p with
    | none =>
      rw [interface_bss_removed_absent _ _ _ h1]
      exact ⟨hk, hn⟩
    | some entry =>
      cases h2 : g_hash_table_lookup supplicant_network.group interface.network_table
          entry.2 with
      | none =>
        unfold interface_bss_removed
        simp only [h1, h2]
        exact ⟨hk, hn⟩
      | some network =>
        rw [interface_bss_removed_eq _ _ _ entry network h1 h2]
        have hkeys := map_set_keys supplicant_network.group interface.network_table
          (network_without network p)
        have hmem : ∀ n ∈ interface.network_table.map (fun w =>
            if w.group == (network_without network p).group then network_without network p
            else w), n = network_without network p ∨ n ∈ interface.network_table := by
          intro n hmem
          obtain ⟨m, hm1, hm2⟩ := List.mem_map.mp hmem
          rw [← hm2]
          split
          · exact Or.inl rfl
          · exact Or.inr hm1
        unfold network_without at hkeys hmem
        simp only at hkeys hmem
        split
        · rename_i hempty
          unfold interface_wf
          simp only
          constructor
          · refine List.Nodup.sublist (List.Sublist.map _ (remove_sublist _ _ _)) ?_
            rw [hkeys]
            exact hk
          · intro n hin
            have hf := mem_remove _ _ _ _ hin
            rcases hmem n hf.1 with hc | hc
            · have := hf.2
              rw [hc] at this
              exact absurd rfl this
            · exact hn n hc
        · rename_i hempty
          unfold interface_wf
          simp only
          constructor
          · rw [hkeys]
            exact hk
          · intro n hin
            rcases hmem n hin with hc | hc
            · rw [hc]
              exact hempty
            · exact hn n hc

theorem interface_bss_added_wf (callbacks_pointer : Option supplicant_callbacks)
    (interface : supplicant_interface) (path : Option String)
    (properties : Option (List (String × DBusValue))) (h : interface_wf interface) :
    interface_wf (interface_bss_added callbacks_pointer path properties interface).1 := by
  cases path with
  | none => exact h
  | some p =>
    by_cases hroot : (p == "/") = true
    · unfold interface_bss_added
      simp only [hroot, if_true]
      exact h
    · by_cases hidx : bss_indexed interface p = true
      · rw [interface_bss_added_indexed _ _ _ _ hidx]
        exact h
      · simp only [Bool.not_eq_true] at hroot hidx
        cases properties with
        | none =>
          unfold interface_bss_added
          simp only [hroot, hidx, Bool.false_eq_true, if_false]
          exact h
        | some properties =>
          rw [interface_bss_added_inline _ _ _ _ hroot hidx]
          exact add_bss_to_network_wf _ _ _ h

/-! ### `BSSAdded` then `BSSRemoved` -/

theorem remove_map_set {V : Type} (key : V → String) (t : List V) (v : V) :
    g_hash_table_remove key (t.map (fun w => if key w == key v then v else w)) (key v)
      = g_hash_table_remove key t (key v) := by
  unfold g_hash_table_remove
  induction t with
  | nil => rfl
  | cons a s ih =>
    rw [List.map_cons, List.filter_cons, List.filter_cons, ih]
    by_cases ha : (key a == key v) = true
    · have hav : key a = key v := by simpa using ha
      simp [ha, hav]
    · simp [ha]

theorem eq_of_nodup_keys {V : Type} (key : V → String) (t : List V)
    (h : (t.map key).Nodup) (a b : V) (ha : a ∈ t) (hb : b ∈ t) (hk : key a = key b) :
    a = b :=
  List.inj_on_of_nodup_map h ha hb hk

theorem add_remove_new (callbacks_pointer : Option supplicant_callbacks)
    (interface : supplicant_interface) (bss : supplicant_bss)
    (hmap : g_hash_table_lookup Prod.fst interface.bss_mapping bss.path = none)
    (hnew : g_hash_table_lookup supplicant_network.group interface.network_table
              (create_group bss) = none) :
    (interface_bss_removed callbacks_pointer (some bss.path)
        (add_bss_to_network callbacks_pointer interface bss).1).1 = interface := by
  rw [add_bss_to_network_new _ _ _ hnew]
  have hrep : g_hash_table_replace Prod.fst interface.bss_mapping
      (bss.path, create_group bss) = interface.bss_mapping ++ [(bss.path, create_group bss)] :=
    replace_of_none Prod.fst _ _ hmap
  simp only [hrep]
  have h1 : g_hash_table_lookup Prod.fst
      (interface.bss_mapping ++ [(bss.path, create_group bss)]) bss.path
      = some (bss.path, create_group bss) := by
    rw [lookup_append_of_none _ _ _ _ hmap]
    simp
  have h2 : g_hash_table_lookup supplicant_network.group
      (interface.network_table ++ [{ network_alloc bss with bss_table := [bss] }])
      (create_group bss) = some { network_alloc bss with bss_table := [bss] } := by
    rw [lookup_append_of_none _ _ _ _ hnew]
    simp [network_alloc]
  rw [interface_bss_removed_eq callbacks_pointer _ bss.path (bss.path, create_group bss)
    { network_alloc bss with bss_table := [bss] } h1 h2]
  have hempty : g_hash_table_remove supplicant_bss.path [bss] bss.path = [] := by
    simp [g_hash_table_remove]
  simp only [hempty, if_true]
  have hm : g_hash_table_remove Prod.fst
      (interface.bss_mapping ++ [(bss.path, create_group bss)]) bss.path
      = interface.bss_mapping :=
    remove_append_self Prod.fst interface.bss_mapping (bss.path, create_group bss) hmap
  have hset := remove_map_set supplicant_network.group
    (interface.network_table ++ [{ network_alloc bss with bss_table := [bss] }])
    { network_alloc bss with bss_table := [] }
  have hn : g_hash_table_remove supplicant_network.group
      (interface.network_table ++ [{ network_alloc bss with bss_table := [bss] }])
      (create_group bss) = interface.network_table :=
    remove_append_self supplicant_network.group interface.network_table
      { network_alloc bss with bss_table := [bss] } hnew
  have hg : (network_alloc bss).group = create_group bss := rfl
  simp only [hg] at hset hn ⊢
  rw [hm, hset, hn]

theorem add_remove_found (callbacks_pointer : Option supplicant_callbacks)
    (interface : supplicant_interface) (bss : supplicant_bss) (n0 : supplicant_network)
    (hkeys : (interface.network_table.map supplicant_network.group).Nodup)
    (hmap : g_hash_table_lookup Prod.fst interface.bss_mapping bss.path = none)
    (hfound : g_hash_table_lookup supplicant_network.group interface.network_table
              (create_group bss) = some n0)
    (hne : n0.bss_table ≠ [])
    (htab : g_hash_table_lookup supplicant_bss.path n0.bss_table bss.path = none) :
    (interface_bss_removed callbacks_pointer (some bss.path)
        (add_bss_to_network callbacks_pointer interface bss).1).1 = interface := by
  have hk := lookup_key _ _ _ _ hfound
  rw [add_bss_to_network_found _ _ _ n0 hfound]
  have hrep : g_hash_table_replace Prod.fst interface.bss_mapping
      (bss.path, create_group bss) = interface.bss_mapping ++ [(bss.path, create_group bss)] :=
    replace_of_none Prod.fst _ _ hmap
  have hrepb : g_hash_table_replace supplicant_bss.path n0.bss_table bss
      = n0.bss_table ++ [bss] := replace_of_none supplicant_bss.path _ _ htab
  simp only [hrep]
  have h1 : g_hash_table_lookup Prod.fst
      (interface.bss_mapping ++ [(bss.path, create_group bss)]) bss.path
      = some (bss.path, create_group bss) := by
    rw [lookup_append_of_none _ _ _ _ hmap]
    simp
  have h2 : g_hash_table_lookup supplicant_network.group
      (interface.network_table.map (fun network =>
        if network.group == create_group bss then
          { network with
            bss_table := g_hash_table_replace supplicant_bss.path network.bss_table bss }
        else network))
      (create_group bss) = some { n0 with bss_table := n0.bss_table ++ [bss] } := by
    rw [lookup_map supplicant_network.group _ _ (by intro v; split <;> rfl), hfound]
    simp [hk.1, hrepb]
  rw [interface_bss_removed_eq callbacks_pointer _ bss.path (bss.path, create_group bss)
    { n0 with bss_table := n0.bss_table ++ [bss] } h1 h2]
  have hback : g_hash_table_remove supplicant_bss.path (n0.bss_table ++ [bss]) bss.path
      = n0.bss_table := remove_append_self supplicant_bss.path n0.bss_table bss htab
  simp only [hback, hne, if_false]
  have hm : g_hash_table_remove Prod.fst
      (interface.bss_mapping ++ [(bss.path, create_group bss)]) bss.path
      = interface.bss_mapping :=
    remove_append_self Prod.fst interface.bss_mapping (bss.path, create_group bss) hmap
  have hid : (interface.network_table.map (fun network =>
        if network.group == create_group bss then
          { network with
            bss_table := g_hash_table_replace supplicant_bss.path network.bss_table bss }
        else network)).map (fun n => if n.group == n0.group then n0 else n)
      = interface.network_table := by
    rw [List.map_map]
    conv => rhs; rw [← List.map_id interface.network_table]
    apply List.map_congr_left
    intro n hn
    by_cases hg : n.group = create_group bss
    · have : n = n0 :=
        eq_of_nodup_keys supplicant_network.group _ hkeys n n0 hn hk.2 (hg.trans hk.1.symm)
      simp [hg, hk.1, this]
    · simp [hg, hk.1]
  rw [hm]
  have heta : ({ n0 with bss_table := n0.bss_table } : supplicant_network) = n0 := rfl
  simp only [heta, hid]

/-! ### The keys of the BSS builder -/

theorem bss_property_null_interface (callbacks_pointer : Option supplicant_callbacks)
    (key : Option String) (iter : DBusValue) (ctx : bss_context)
    (h : ctx.bss.interface = none) :
    bss_property callbacks_pointer key iter ctx = ctx := by
  unfold bss_property
  simp only [h, if_true]

theorem bss_property_rsnie (callbacks_pointer : Option supplicant_callbacks)
    (iter : DBusValue) (ctx : bss_context) (h : ctx.bss.interface ≠ none) :
    bss_property callbacks_pointer (some "RSNIE") iter ctx
      = if ((get_fixed_array iter).length : Int) > 2 then
          { ctx with
            bss := extract_rsn ctx.bss ((get_fixed_array iter).drop 2)
              (((get_fixed_array iter).length : Int) - 2) }
        else ctx := by
  unfold bss_property
  simp only [h, if_false]
  rfl

theorem bss_property_wpaie (callbacks_pointer : Option supplicant_callbacks)
    (iter : DBusValue) (ctx : bss_context) (h : ctx.bss.interface ≠ none) :
    bss_property callbacks_pointer (some "WPAIE") iter ctx
      = if ((get_fixed_array iter).length : Int) > 6 then
          { ctx with
            bss := extract_rsn ctx.bss ((get_fixed_array iter).drop 6)
              (((get_fixed_array iter).length : Int) - 6) }
        else ctx := by
  unfold bss_property
  simp only [h, if_false]
  rfl

theorem bss_property_ssid (callbacks_pointer : Option supplicant_callbacks)
    (iter : DBusValue) (ctx : bss_context) (h : ctx.bss.interface ≠ none) :
    bss_property callbacks_pointer (some "SSID") iter ctx
      = if (get_fixed_array iter).length > 0 ∧ (get_fixed_array iter).length < 33 then
          { ctx with bss := { ctx.bss with
              ssid := get_fixed_array iter
                ++ ctx.bss.ssid.drop (get_fixed_array iter).length
              ssid_len := (get_fixed_array iter).length } }
        else
          { ctx with bss := { ctx.bss with
              ssid := List.replicate ctx.bss.ssid.length 0
              ssid_len := 0 } } := by
  unfold bss_property
  simp only [h, if_false]
  rfl

theorem bss_property_capabilities (callbacks_pointer : Option supplicant_callbacks)
    (iter : DBusValue) (ctx : bss_context) (h : ctx.bss.interface ≠ none) :
    bss_property callbacks_pointer (some "Capabilities") iter ctx
      = { ctx with bss := { ctx.bss with
            mode :=
              if get_basic_uint16 iter 0 &&& IEEE80211_CAP_ESS ≠ 0 then supplicant_mode.INFRA
              else if get_basic_uint16 iter 0 &&& IEEE80211_CAP_IBSS ≠ 0 then
                supplicant_mode.IBSS
              else ctx.bss.mode
            privacy :=
              if get_basic_uint16 iter 0 &&& IEEE80211_CAP_PRIVACY ≠ 0 then true
              else ctx.bss.privacy } } := by
  unfold bss_property
  simp only [h, if_false]
  rfl

theorem bss_property_privacy (callbacks_pointer : Option supplicant_callbacks)
    (iter : DBusValue) (ctx : bss_context) (h : ctx.bss.interface ≠ none) :
    bss_property callbacks_pointer (some "Privacy") iter ctx
      = { ctx with bss := { ctx.bss with privacy := get_basic_boolean iter false } } := by
  unfold bss_property
  simp only [h, if_false]
  rfl

/-! ### Malformed elements -/

theorem extract_rsn_malformed (bss : supplicant_bss) (buf : List Byte) (len : Int)
    (h : rsn_malformed buf len) : extract_rsn bss buf len = bss := by
  unfold rsn_malformed rsn_akm_count rsn_pairwise_count at h
  unfold extract_rsn
  simp only [List.drop_drop, Nat.reduceAdd]
  by_cases h1 : len < 2
  · rw [if_pos h1]
  rw [if_neg h1]
  by_cases h2 : len - 2 < 4
  · rw [if_pos h2]
  rw [if_neg h2]
  by_cases h3 : len - 2 - 4 < 2
  · rw [if_pos h3]
  rw [if_neg h3]
  by_cases h4 : 2 + ((rsn_count (List.drop 6 buf) : Nat) : Int) * 4 > len - 2 - 4
  · rw [if_pos h4]
  rw [if_neg h4]
  by_cases h5 : len - 2 - 4 - (2 + ((rsn_count (List.drop 6 buf) : Nat) : Int) * 4) < 2
  · rw [if_pos h5]
  rw [if_neg h5]
  split
  · rfl
  · rename_i h6
    exfalso
    omega

theorem interface_bss_added_records (callbacks_pointer : Option supplicant_callbacks)
    (interface : supplicant_interface) (path : String)
    (properties : List (String × DBusValue)) (hroot : (path == "/") = false) :
    bss_indexed
      (interface_bss_added callbacks_pointer (some path) (some properties) interface).1
      path = true := by
  by_cases hidx : bss_indexed interface path = true
  · rw [interface_bss_added_indexed _ _ _ _ hidx]
    exact hidx
  · simp only [Bool.not_eq_true] at hidx
    rw [interface_bss_added_inline _ _ _ _ hroot hidx]
    have h := bss_indexed_add_bss_to_network callbacks_pointer interface
      (built_bss callbacks_pointer interface path properties)
    rw [built_bss_path] at h
    exact h

theorem rsn_malformed_of_short (buf : List Byte) (len : Int) (h : len < 6) :
    rsn_malformed buf len := by
  unfold rsn_malformed
  omega

/-! ### The flags of the BSS builder -/

theorem rsn_body_length (version group : List Byte) (pairwise akm : List rsn_suite)
    (rest : List Byte) :
    (rsn_body version group pairwise akm rest).length
      = version.length + (group.length + (2 + (pairwise.length * 4
          + (2 + (akm.length * 4 + rest.length))))) := by
  unfold rsn_body
  simp only [List.length_append, suites_length]
  rfl

theorem extract_rsn_rsn_body (bss : supplicant_bss) (version group : List Byte)
    (pairwise akm : List rsn_suite) (rest : List Byte) (len : Int)
    (hv : version.length = 2) (hg : group.length = 4)
    (hp : pairwise.length < 65536) (ha : akm.length < 65536)
    (hlen : 10 + 4 * (pairwise.length : Int) + 4 * (akm.length : Int) ≤ len) :
    extract_rsn bss (rsn_body version group pairwise akm rest) len
      = { bss with
          ieee8021x := bss.ieee8021x || akm.any (akm_selects 1)
          psk := bss.psk || akm.any (akm_selects 2) } := by
  have d1 : (rsn_body version group pairwise akm rest).drop 2
      = group ++ (le16 pairwise.length ++ ((pairwise.map rsn_suite.bytes).flatten
          ++ (le16 akm.length ++ ((akm.map rsn_suite.bytes).flatten ++ rest)))) :=
    List.drop_left' hv
  have d2 : (group ++ (le16 pairwise.length ++ ((pairwise.map rsn_suite.bytes).flatten
          ++ (le16 akm.length ++ ((akm.map rsn_suite.bytes).flatten ++ rest))))).drop 4
      = le16 pairwise.length ++ ((pairwise.map rsn_suite.bytes).flatten
          ++ (le16 akm.length ++ ((akm.map rsn_suite.bytes).flatten ++ rest))) :=
    List.drop_left' hg
  have d3 : (le16 pairwise.length ++ ((pairwise.map rsn_suite.bytes).flatten
          ++ (le16 akm.length ++ ((akm.map rsn_suite.bytes).flatten ++ rest)))).drop
            (2 + pairwise.length * 4)
      = le16 akm.length ++ ((akm.map rsn_suite.bytes).flatten ++ rest) := by
    rw [← List.append_assoc]
    apply List.drop_left'
    rw [List.length_append, suites_length]
    rfl
  have hloop := extract_rsn_loop (le16 akm.length) akm rest bss
  have hl2 : (le16 akm.length).length = 2 := rfl
  rw [hl2] at hloop
  unfold extract_rsn
  simp only [d1, d2, rsn_count_le16 _ hp, d3, rsn_count_le16 _ ha, hloop]
  rw [if_neg (by omega), if_neg (by omega), if_neg (by omega), if_neg (by omega),
    if_neg (by omega), if_neg (by omega)]

theorem extract_rsn_wellformed (bss : supplicant_bss) (body : List Byte)
    (akm : List rsn_suite) (h : rsn_wellformed body akm) :
    extract_rsn bss body body.length
      = { bss with
          ieee8021x := bss.ieee8021x || akm.any (akm_selects 1)
          psk := bss.psk || akm.any (akm_selects 2) } := by
  obtain ⟨version, group, pairwise, rest, hb, hv, hg, hp, ha⟩ := h
  subst hb
  apply extract_rsn_rsn_body bss version group pairwise akm rest _ hv hg hp ha
  rw [rsn_body_length, hv, hg]
  push_cast
  omega

theorem extract_rsn_suite_keeps (bss : supplicant_bss) (ptr : List Byte) :
    (bss.psk = true → (extract_rsn_suite bss ptr).psk = true)
      ∧ (bss.ieee8021x = true → (extract_rsn_suite bss ptr).ieee8021x = true) := by
  unfold extract_rsn_suite
  split_ifs <;> exact ⟨fun h => by first | exact h | rfl, fun h => by first | exact h | rfl⟩

theorem extract_rsn_loop_keeps (f : Nat → List Byte) (l : List Nat) (bss : supplicant_bss) :
    (bss.psk = true →
        (l.foldl (fun bss i => extract_rsn_suite bss (f i)) bss).psk = true)
      ∧ (bss.ieee8021x = true →
        (l.foldl (fun bss i => extract_rsn_suite bss (f i)) bss).ieee8021x = true) := by
  induction l generalizing bss with
  | nil => exact ⟨id, id⟩
  | cons a t ih =>
    rw [List.foldl_cons]
    have h1 := extract_rsn_suite_keeps bss (f a)
    have h2 := ih (extract_rsn_suite bss (f a))
    exact ⟨fun h => h2.1 (h1.1 h), fun h => h2.2 (h1.2 h)⟩

/-- The parser `extract_rsn` never clears a flag. -/
theorem extract_rsn_keeps (bss : supplicant_bss) (buf : List Byte) (len : Int) :
    (bss.psk = true → (extract_rsn bss buf len).psk = true)
      ∧ (bss.ieee8021x = true → (extract_rsn bss buf len).ieee8021x = true) := by
  rcases extract_rsn_cases bss buf len with h | ⟨f, l, h⟩
  · rw [h]
    exact ⟨id, id⟩
  · rw [h]
    exact extract_rsn_loop_keeps f l bss

theorem bss_property_other_key_flags (callbacks_pointer : Option supplicant_callbacks)
    (key : String) (iter : DBusValue) (ctx : bss_context)
    (hk1 : (key == "RSNIE") = false) (hk2 : (key == "WPAIE") = false) :
    (bss_property callbacks_pointer (some key) iter ctx).bss.psk = ctx.bss.psk
      ∧ (bss_property callbacks_pointer (some key) iter ctx).bss.ieee8021x
          = ctx.bss.ieee8021x := by
  generalize hx : bss_property callbacks_pointer (some key) iter ctx = r
  unfold bss_property at hx
  by_cases hn : ctx.bss.interface = none
  · simp only [hn, if_true] at hx
    subst hx
    exact ⟨rfl, rfl⟩
  · simp only [hn, if_false] at hx
    by_cases k1 : (key == "BSSID") = true
    · rw [if_pos k1] at hx
      split at hx <;> subst hx <;> exact ⟨rfl, rfl⟩
    rw [if_neg k1] at hx
    by_cases k2 : (key == "SSID") = true
    · rw [if_pos k2] at hx
      split at hx <;> subst hx <;> exact ⟨rfl, rfl⟩
    rw [if_neg k2] at hx
    by_cases k3 : (key == "Capabilities") = true
    · rw [if_pos k3] at hx
      subst hx
      exact ⟨rfl, rfl⟩
    rw [if_neg k3] at hx
    by_cases k4 : (key == "Mode") = true
    · rw [if_pos k4] at hx
      subst hx
      exact ⟨rfl, rfl⟩
    rw [if_neg k4] at hx
    by_cases k5 : (key == "Frequency") = true
    · rw [if_pos k5] at hx
      subst hx
      exact ⟨rfl, rfl⟩
    rw [if_neg k5] at hx
    by_cases k6 : (key == "Signal") = true
    · rw [if_pos k6] at hx
      subst hx
      exact ⟨rfl, rfl⟩
    rw [if_neg k6] at hx
    by_cases k7 : (key == "Level") = true
    · rw [if_pos k7] at hx
      subst hx
      exact ⟨rfl, rfl⟩
    rw [if_neg k7] at hx
    by_cases k8 : (key == "MaxRate") = true
    · rw [if_pos k8] at hx
      subst hx
      exact ⟨rfl, rfl⟩
    rw [if_neg k8] at hx
    by_cases k9 : (key == "Privacy") = true
    · rw [if_pos k9] at hx
      subst hx
      exact ⟨rfl, rfl⟩
    rw [if_neg k9] at hx
    rw [if_neg (by rw [hk1]; decide), if_neg (by rw [hk2]; decide)] at hx
    split at hx <;> subst hx <;> exact ⟨rfl, rfl⟩

/-- What one property of the bag does to the flags: an RSNIE or WPAIE long enough is
parsed by `extract_rsn`, every other property leaves `psk` and `ieee8021x` alone. -/
theorem bss_property_entry (callbacks_pointer : Option supplicant_callbacks)
    (entry : String × DBusValue) (ctx : bss_context) (h : ctx.bss.interface ≠ none) :
    (∀ body, ie_body entry = some body →
        bss_property callbacks_pointer (some entry.1) entry.2 ctx
          = { ctx with bss := extract_rsn ctx.bss body body.length })
      ∧ (ie_body entry = none →
          (bss_property callbacks_pointer (some entry.1) entry.2 ctx).bss.psk = ctx.bss.psk
          ∧ (bss_property callbacks_pointer (some entry.1) entry.2 ctx).bss.ieee8021x
              = ctx.bss.ieee8021x) := by
  obtain ⟨key, iter⟩ := entry
  simp only
  by_cases hk1 : (key == "RSNIE") = true
  · have hk : key = "RSNIE" := by simpa using hk1
    subst hk
    rw [bss_property_rsnie _ _ _ h]
    unfold ie_body
    simp only [beq_self_eq_true, if_true]
    by_cases hl : (get_fixed_array iter).length > 2
    · have hl2 : ((get_fixed_array iter).length : Int) > 2 := by omega
      have hlen : (((get_fixed_array iter).drop 2).length : Int)
          = ((get_fixed_array iter).length : Int) - 2 := by
        rw [List.length_drop]
        omega
      rw [if_pos hl, if_pos hl2]
      refine ⟨?_, fun hc => by simp at hc⟩
      intro body hb
      simp only [Option.some.injEq] at hb
      subst hb
      rw [hlen]
    · have hl2 : ¬ ((get_fixed_array iter).length : Int) > 2 := by omega
      rw [if_neg hl, if_neg hl2]
      exact ⟨fun body hc => by simp at hc, fun _ => ⟨rfl, rfl⟩⟩
  · by_cases hk2 : (key == "WPAIE") = true
    · have hk : key = "WPAIE" := by simpa using hk2
      subst hk
      rw [bss_property_wpaie _ _ _ h]
      unfold ie_body
      simp only [show (("WPAIE" : String) == "RSNIE") = false by decide, beq_self_eq_true,
        if_true, Bool.false_eq_true, if_false]
      by_cases hl : (get_fixed_array iter).length > 6
      · have hl2 : ((get_fixed_array iter).length : Int) > 6 := by omega
        have hlen : (((get_fixed_array iter).drop 6).length : Int)
            = ((get_fixed_array iter).length : Int) - 6 := by
          rw [List.length_drop]
          omega
        rw [if_pos hl, if_pos hl2]
        refine ⟨?_, fun hc => by simp at hc⟩
        intro body hb
        simp only [Option.some.injEq] at hb
        subst hb
        rw [hlen]
      · have hl2 : ¬ ((get_fixed_array iter).length : Int) > 6 := by omega
        rw [if_neg hl, if_neg hl2]
        exact ⟨fun body hc => by simp at hc, fun _ => ⟨rfl, rfl⟩⟩
    · simp only [Bool.not_eq_true] at hk1 hk2
      have hnone : ie_body (key, iter) = none := by
        unfold ie_body
        simp only [hk1, hk2, Bool.false_eq_true, if_false]
      rw [hnone]
      exact ⟨fun body hc => by simp at hc,
        fun _ => bss_property_other_key_flags _ _ _ _ hk1 hk2⟩

/-- No call of `bss_property`, for a key or for the sentinel, clears `psk` or
`ieee8021x`. -/
theorem bss_property_keeps (callbacks_pointer : Option supplicant_callbacks)
    (key : Option String) (iter : DBusValue) (ctx : bss_context) :
    (ctx.bss.psk = true → (bss_property callbacks_pointer key iter ctx).bss.psk = true)
      ∧ (ctx.bss.ieee8021x = true →
          (bss_property callbacks_pointer key iter ctx).bss.ieee8021x = true) := by
  by_cases hn : ctx.bss.interface = none
  · rw [bss_property_null_interface _ _ _ _ hn]
    exact ⟨id, id⟩
  · cases key with
    | none =>
      unfold bss_property
      simp only [hn, if_false]
      exact ⟨id, id⟩
    | some key =>
      have h := bss_property_entry callbacks_pointer (key, iter) ctx hn
      cases hb : ie_body (key, iter) with
      | none =>
        have h2 := h.2 hb
        simp only at h2
        rw [h2.1, h2.2]
        exact ⟨id, id⟩
      | some body =>
        have h1 := h.1 body hb
        simp only at h1
        rw [h1]
        exact extract_rsn_keeps ctx.bss body body.length

theorem property_foreach_keeps (callbacks_pointer : Option supplicant_callbacks)
    (properties : List (String × DBusValue)) (ctx : bss_context) :
    (ctx.bss.psk = true →
        (supplicant_dbus_property_foreach (bss_property callbacks_pointer) properties
          ctx).bss.psk = true)
      ∧ (ctx.bss.ieee8021x = true →
        (supplicant_dbus_property_foreach (bss_property callbacks_pointer) properties
          ctx).bss.ieee8021x = true) := by
  unfold supplicant_dbus_property_foreach
  induction properties generalizing ctx with
  | nil => exact ⟨id, id⟩
  | cons a t ih =>
    rw [List.foldl_cons]
    have h1 := bss_property_keeps callbacks_pointer (some a.1) a.2 ctx
    have h2 := ih (bss_property callbacks_pointer (some a.1) a.2 ctx)
    exact ⟨fun h => h2.1 (h1.1 h), fun h => h2.2 (h1.2 h)⟩

theorem property_foreach_sets_psk (callbacks_pointer : Option supplicant_callbacks)
    (properties : List (String × DBusValue)) (ctx : bss_context)
    (hn : ctx.bss.interface ≠ none)
    (h : ∃ entry ∈ properties, ie_carries 2 entry) :
    (supplicant_dbus_property_foreach (bss_property callbacks_pointer) properties
      ctx).bss.psk = true := by
  induction properties generalizing ctx with
  | nil =>
    obtain ⟨e, he, _⟩ := h
    simp at he
  | cons a t ih =>
    have hstep : supplicant_dbus_property_foreach (bss_property callbacks_pointer) (a :: t)
        ctx = supplicant_dbus_property_foreach (bss_property callbacks_pointer) t
          (bss_property callbacks_pointer (some a.1) a.2 ctx) := rfl
    rw [hstep]
    obtain ⟨e, he, hc⟩ := h
    rw [List.mem_cons] at he
    rcases he with he | he
    · subst he
      obtain ⟨body, akm, hb, hw, hany⟩ := hc
      apply (property_foreach_keeps callbacks_pointer t _).1
      rw [(bss_property_entry callbacks_pointer e ctx hn).1 body hb,
        extract_rsn_wellformed _ _ _ hw]
      simp only [hany, Bool.or_true]
    · apply ih
      · rw [(bss_property_key_frame callbacks_pointer a.1 a.2 ctx).2.2.2]
        exact hn
      · exact ⟨e, he, hc⟩

theorem property_foreach_no_ieee8021x (callbacks_pointer : Option supplicant_callbacks)
    (properties : List (String × DBusValue)) (ctx : bss_context)
    (hn : ctx.bss.interface ≠ none) (h0 : ctx.bss.ieee8021x = false)
    (h : ∀ entry ∈ properties, ie_carries_no 1 entry) :
    (supplicant_dbus_property_foreach (bss_property callbacks_pointer) properties
      ctx).bss.ieee8021x = false := by
  induction properties generalizing ctx with
  | nil => exact h0
  | cons a t ih =>
    have hstep : supplicant_dbus_property_foreach (bss_property callbacks_pointer) (a :: t)
        ctx = supplicant_dbus_property_foreach (bss_property callbacks_pointer) t
          (bss_property callbacks_pointer (some a.1) a.2 ctx) := rfl
    rw [hstep]
    apply ih
    · rw [(bss_property_key_frame callbacks_pointer a.1 a.2 ctx).2.2.2]
      exact hn
    · have ha := h a (List.mem_cons_self a t)
      have he := bss_property_entry callbacks_pointer a ctx hn
      cases hb : ie_body a with
      | none =>
        rw [(he.2 hb).2]
        exact h0
      | some body =>
        rw [he.1 body hb]
        rcases ha body hb with hm | ⟨akm, hw, hany⟩
        · rw [extract_rsn_malformed _ _ _ hm]
          exact h0
        · rw [extract_rsn_wellformed _ _ _ hw]
          simp only [h0, hany, Bool.or_false]
    · intro e he
      exact h e (List.mem_cons_of_mem a he)

theorem bss_property_sentinel_security (callbacks_pointer : Option supplicant_callbacks)
    (iter : DBusValue) (ctx : bss_context) (h : ctx.bss.interface ≠ none) :
    (bss_property callbacks_pointer none iter ctx).bss.security
      = (if ctx.bss.ieee8021x = true then supplicant_security.IEEE8021X
         else if ctx.bss.psk = true then supplicant_security.PSK
         else if ctx.bss.privacy = true then supplicant_security.WEP
         else supplicant_security.NONE) := by
  unfold bss_property
  simp only [h, if_false]

/-! ### The keys of the interface tracker -/

theorem array_foreach_invariant {α σ : Type} (P : σ → Prop) (function : α → σ → σ)
    (hf : ∀ a s, P s → P (function a s)) (elements : List α) (ctx : σ) (h : P ctx) :
    P (supplicant_dbus_array_foreach function elements ctx) := by
  unfold supplicant_dbus_array_foreach
  induction elements generalizing ctx with
  | nil => exact h
  | cons a rest ih => exact ih _ (hf a ctx h)

theorem property_foreach_invariant {σ : Type} (P : σ → Prop)
    (function : Option String → DBusValue → σ → σ)
    (hf : ∀ k v s, P s → P (function (some k) v s))
    (properties : List (String × DBusValue)) (ctx : σ) (h : P ctx) :
    P (supplicant_dbus_property_foreach function properties ctx) := by
  unfold supplicant_dbus_property_foreach
  induction properties generalizing ctx with
  | nil => exact h
  | cons a rest ih => exact ih _ (hf a.1 a.2 ctx h)

theorem interface_capability_path (key : Option String) (iter : DBusValue)
    (interface : supplicant_interface) :
    (interface_capability key iter interface).path = interface.path := by
  unfold interface_capability
  cases key with
  | none => rfl
  | some key =>
    simp only []
    split_ifs
    all_goals first
      | rfl
      | (apply array_foreach_invariant
          (fun s : supplicant_interface => s.path = interface.path)
         · intro _ _ h; exact h
         · rfl)

theorem interface_bss_added_none (callbacks_pointer : Option supplicant_callbacks)
    (path : Option String) (interface : supplicant_interface) :
    interface_bss_added callbacks_pointer path none interface = (interface, []) := by
  unfold interface_bss_added
  cases path with
  | none => rfl
  | some path =>
    simp only []
    split_ifs <;> rfl

/-! ### The name of a network -/

theorem create_name_group_ssid (bss : supplicant_bss) :
    create_name bss.ssid bss.ssid_len
      = match group_ssid bss with
        | none => ""
        | some bytes =>
          String.mk (bytes.map (fun b =>
            if g_ascii_isprint b then Char.ofNat b.val else ' ')) := by
  unfold create_name group_ssid
  by_cases h : bss.ssid_len > 0 ∧ bss.ssid.getD 0 0 ≠ 0
  · have hc : ¬ (((bss.ssid_len : Nat) : Int) < 1 ∨ bss.ssid.getD 0 0 = 0) := by
      rintro (hc | hc)
      · omega
      · exact h.2 hc
    rw [if_neg hc, if_pos h]
    simp only [ssid_bytes, List.map_map, Int.toNat_ofNat]
    rfl
  · have hc : ((bss.ssid_len : Nat) : Int) < 1 ∨ bss.ssid.getD 0 0 = 0 := by
      by_cases h0 : bss.ssid.getD 0 0 = 0
      · exact Or.inr h0
      · left
        have : ¬ bss.ssid_len > 0 := fun hp => h ⟨hp, h0⟩
        omega
    rw [if_pos hc, if_neg h]

theorem create_name_of_group (b1 b2 : supplicant_bss)
    (h : create_group b1 = create_group b2) :
    create_name b1.ssid b1.ssid_len = create_name b2.ssid b2.ssid_len
      ∧ b1.mode = b2.mode := by
  obtain ⟨hg, hm, _⟩ := (create_group_inj b1 b2).1 h
  rw [create_name_group_ssid, create_name_group_ssid, hg]
  exact ⟨rfl, hm⟩

/-! ### The accesses of the IE parser -/

theorem rsn_count_lt (buf : List Byte) : rsn_count buf < 65536 :=
  Nat.mod_lt _ (by decide)

theorem shift_byte_le (b : Byte) : b.val <<< 8 ≤ 65280 := by
  rw [Nat.shiftLeft_eq]
  have := b.isLt
  omega

theorem extract_rsn_suite_reads_bounds (ptr : List Byte) (offset : Int) :
    ∀ r ∈ extract_rsn_suite_reads ptr offset, offset ≤ r ∧ r ≤ offset + 3 := by
  intro r hr
  unfold extract_rsn_suite_reads at hr
  split_ifs at hr <;>
    simp only [List.mem_append, List.mem_cons, List.mem_singleton, List.not_mem_nil,
      or_false] at hr <;>
    omega

theorem extract_rsn_loop_run (buf3 : List Byte) (offset3 : Int) (l : List Nat)
    (state : supplicant_bss × rsn_access) :
    l.foldl
        (fun (state : supplicant_bss × rsn_access) i =>
          (extract_rsn_suite state.1 (buf3.drop (2 + (i * 4))),
            ({ reads := state.2.reads
                ++ extract_rsn_suite_reads (buf3.drop (2 + (i * 4)))
                    (offset3 + (2 + ((i : Int) * 4)))
               ints := state.2.ints ++ [(i : Int) * 4, 2 + ((i : Int) * 4)]
               lens := state.2.lens
               iterations := state.2.iterations + 1 } : rsn_access)))
        state
      = (l.foldl (fun bss i => extract_rsn_suite bss (buf3.drop (2 + (i * 4)))) state.1,
          { reads := state.2.reads
              ++ l.flatMap (fun i =>
                  extract_rsn_suite_reads (buf3.drop (2 + (i * 4)))
                    (offset3 + (2 + ((i : Int) * 4))))
            ints := state.2.ints ++ l.flatMap (fun i => [(i : Int) * 4, 2 + ((i : Int) * 4)])
            lens := state.2.lens
            iterations := state.2.iterations + l.length }) := by
  induction l generalizing state with
  | nil =>
    obtain ⟨bss, access⟩ := state
    cases access
    simp
  | cons i rest ih =>
    rw [List.foldl_cons, ih]
    simp only [List.foldl_cons, List.flatMap_cons, List.append_assoc, List.length_cons]
    congr 2
    omega

/-! ### Sequences of BSS messages -/

theorem mem_replace {V : Type} (key : V → String) (t : List V) (v w : V)
    (h : w ∈ g_hash_table_replace key t v) : w ∈ t ∨ w = v := by
  unfold g_hash_table_replace at h
  split at h
  · obtain ⟨u, hu, hw⟩ := List.mem_map.mp h
    split at hw
    · exact Or.inr hw.symm
    · exact Or.inl (hw ▸ hu)
  · rcases List.mem_append.mp h with h | h
    · exact Or.inl h
    · exact Or.inr (List.mem_singleton.mp h)

theorem lookup_of_mem_nodup {V : Type} (key : V → String) (t : List V)
    (h : (t.map key).Nodup) (v : V) (hv : v ∈ t) :
    g_hash_table_lookup key t (key v) = some v := by
  cases hl : g_hash_table_lookup key t (key v) with
  | none => exact absurd rfl ((lookup_eq_none_iff key t (key v)).1 hl v hv)
  | some w =>
    obtain ⟨hk, hw⟩ := lookup_key key t (key v) w hl
    rw [eq_of_nodup_keys key t h w v hw hv hk]

theorem add_bss_to_network_path (callbacks_pointer : Option supplicant_callbacks)
    (interface : supplicant_interface) (bss : supplicant_bss) :
    (add_bss_to_network callbacks_pointer interface bss).1.path = interface.path := by
  cases h : g_hash_table_lookup supplicant_network.group interface.network_table
      (create_group bss) with
  | none => rw [add_bss_to_network_new _ _ _ h]
  | some n0 => rw [add_bss_to_network_found _ _ _ n0 h]

theorem add_bss_to_network_groups (callbacks_pointer : Option supplicant_callbacks)
    (interface : supplicant_interface) (bss : supplicant_bss)
    (h : bss_groups_match interface) :
    bss_groups_match (add_bss_to_network callbacks_pointer interface bss).1 := by
  cases hfound : g_hash_table_lookup supplicant_network.group interface.network_table
      (create_group bss) with
  | none =>
    rw [add_bss_to_network_new _ _ _ hfound]
    intro n hn b hb
    simp only at hn
    rcases List.mem_append.mp hn with hn | hn
    · exact h n hn b hb
    · rw [List.mem_singleton.mp hn] at hb ⊢
      simp only [List.mem_singleton] at hb
      rw [hb]
      rfl
  | some n0 =>
    rw [add_bss_to_network_found _ _ _ n0 hfound]
    intro n hn b hb
    simp only at hn
    obtain ⟨m, hm, hmn⟩ := List.mem_map.mp hn
    by_cases hg : (m.group == create_group bss) = true
    · rw [if_pos hg] at hmn
      rw [← hmn] at hb ⊢
      rcases mem_replace _ _ _ _ hb with hb | hb
      · exact h m hm b hb
      · rw [hb]
        exact (beq_iff_eq.mp hg).symm
    · rw [if_neg hg] at hmn
      rw [← hmn] at hb ⊢
      exact h m hm b hb

theorem interface_bss_removed_groups (callbacks_pointer : Option supplicant_callbacks)
    (interface : supplicant_interface) (path : Option String)
    (h : bss_groups_match interface) :
    bss_groups_match (interface_bss_removed callbacks_pointer path interface).1 := by
  cases path with
  | none => exact h
  | some p =>
    cases h1 : g_hash_table_lookup Prod.fst interface.bss_mapping p with
    | none =>
      rw [interface_bss_removed_absent _ _ _ h1]
      exact h
    | some entry =>
      cases h2 : g_hash_table_lookup supplicant_network.group interface.network_table
          entry.2 with
      | none =>
        unfold interface_bss_removed
        simp only [h1, h2]
        exact h
      | some network =>
        rw [interface_bss_removed_eq _ _ _ entry network h1 h2]
        have hnet := (lookup_key _ _ _ _ h2).2
        have hmem : ∀ n ∈ interface.network_table.map (fun n =>
            if n.group == network.group then
              { network with
                bss_table := g_hash_table_remove supplicant_bss.path network.bss_table p }
            else n), ∀ b ∈ n.bss_table, create_group b = n.group := by
          intro n hn b hb
          obtain ⟨m, hm, hmn⟩ := List.mem_map.mp hn
          split at hmn
          · rw [← hmn] at hb ⊢
            exact h network hnet b (mem_remove _ _ _ _ hb).1
          · rw [← hmn] at hb ⊢
            exact h m hm b hb
        split
        · intro n hn b hb
          exact hmem n (mem_remove _ _ _ _ hn).1 b hb
        · exact hmem

theorem bss_get_all_reply_cases (callbacks_pointer : Option supplicant_callbacks)
    (bss : supplicant_bss) (properties : List (String × DBusValue))
    (interface : supplicant_interface) :
    bss_get_all_reply callbacks_pointer bss properties interface = (interface, [])
      ∨ ∃ built : supplicant_bss, built.path = bss.path
          ∧ bss_get_all_reply callbacks_pointer bss properties interface
            = add_bss_to_network callbacks_pointer interface built := by
  by_cases hnull : bss.interface = none
  · left
    have hfold : supplicant_dbus_property_foreach (bss_property callbacks_pointer)
        properties { interface := interface, bss := bss, emitted := [] }
        = { interface := interface, bss := bss, emitted := [] } := by
      apply property_foreach_invariant (fun s : bss_context =>
        s = { interface := interface, bss := bss, emitted := [] })
      · intro k v s hs
        rw [hs]
        exact bss_property_null_interface _ _ _ _ hnull
      · rfl
    unfold bss_get_all_reply
    simp only [hfold]
    rw [bss_property_null_interface _ _ _ _ hnull]
  · right
    have hf := property_foreach_frame callbacks_pointer properties
      { interface := interface, bss := bss, emitted := [] }
    have hi : (supplicant_dbus_property_foreach (bss_property callbacks_pointer)
        properties { interface := interface, bss := bss, emitted := [] }).bss.interface
        ≠ none := by
      rw [hf.2.2.2]
      exact hnull
    have hs := bss_property_sentinel callbacks_pointer DBusValue.other _ hi
    refine ⟨_, hs.2.trans hf.2.2.1, ?_⟩
    unfold bss_get_all_reply
    simp only []
    rw [hs.1]
    simp only [hf.1, hf.2.1, List.nil_append]

theorem interface_bss_added_cases (callbacks_pointer : Option supplicant_callbacks)
    (path : Option String) (properties : Option (List (String × DBusValue)))
    (interface : supplicant_interface) :
    interface_bss_added callbacks_pointer path properties interface = (interface, [])
      ∨ ∃ built : supplicant_bss, some built.path = path ∧ built.path ≠ "/"
          ∧ interface_bss_added callbacks_pointer path properties interface
            = add_bss_to_network callbacks_pointer interface built := by
  cases path with
  | none => exact Or.inl rfl
  | some p =>
    by_cases hroot : (p == "/") = true
    · left
      unfold interface_bss_added
      simp only [hroot, if_true]
    · by_cases hidx : bss_indexed interface p = true
      · exact Or.inl (interface_bss_added_indexed _ _ _ _ hidx)
      · simp only [Bool.not_eq_true] at hroot hidx
        cases properties with
        | none => exact Or.inl (interface_bss_added_none _ _ _)
        | some properties =>
          right
          have hp := built_bss_path callbacks_pointer interface p properties
          refine ⟨_, by rw [hp], ?_, interface_bss_added_inline _ _ _ _ hroot hidx⟩
          rw [hp]
          intro hc
          rw [hc] at hroot
          exact absurd hroot (by decide)

theorem bss_message_handle_inv (callbacks_pointer : Option supplicant_callbacks)
    (message : bss_message) (interface : supplicant_interface)
    (h : interface_wf interface ∧ bss_groups_match interface) :
    interface_wf (bss_message_handle callbacks_pointer message interface).1
      ∧ bss_groups_match (bss_message_handle callbacks_pointer message interface).1 := by
  cases message with
  | BSSAdded path properties =>
    refine ⟨interface_bss_added_wf _ _ _ _ h.1, ?_⟩
    show bss_groups_match (interface_bss_added callbacks_pointer path properties interface).1
    rcases interface_bss_added_cases callbacks_pointer path properties interface with
      hc | ⟨built, _, _, hc⟩
    · rw [hc]
      exact h.2
    · rw [hc]
      exact add_bss_to_network_groups _ _ _ h.2
  | BSSRemoved path =>
    exact ⟨interface_bss_removed_wf _ _ _ h.1, interface_bss_removed_groups _ _ _ h.2⟩
  | GetAll_reply bss properties =>
    show interface_wf (bss_get_all_reply callbacks_pointer bss properties interface).1
      ∧ bss_groups_match (bss_get_all_reply callbacks_pointer bss properties interface).1
    rcases bss_get_all_reply_cases callbacks_pointer bss properties interface with
      hc | ⟨built, _, hc⟩
    · rw [hc]
      exact h
    · rw [hc]
      exact ⟨add_bss_to_network_wf _ _ _ h.1, add_bss_to_network_groups _ _ _ h.2⟩

theorem bss_messages_run_inv (callbacks_pointer : Option supplicant_callbacks)
    (messages : List bss_message) (interface : supplicant_interface)
    (h : interface_wf interface ∧ bss_groups_match interface) :
    interface_wf (bss_messages_run callbacks_pointer messages interface).1
      ∧ bss_groups_match (bss_messages_run callbacks_pointer messages interface).1 := by
  unfold bss_messages_run
  generalize ([] : List callback_event) = emitted
  induction messages generalizing interface emitted with
  | nil => exact h
  | cons message rest ih =>
    rw [List.foldl_cons]
    exact ih _ (bss_message_handle_inv callbacks_pointer message interface h) _

/-! ### The property bag of an interface -/

theorem interface_bss_added_actions_none (callbacks_pointer : Option supplicant_callbacks)
    (path : Option String) (interface : supplicant_interface) (q : String) :
    (interface_bss_added_actions callbacks_pointer path none interface).1 = interface
      ∧ ∀ a ∈ (interface_bss_added_actions callbacks_pointer path none interface).2,
          bag_action q a := by
  unfold interface_bss_added_actions
  rw [interface_bss_added_none]
  refine ⟨rfl, ?_⟩
  cases path with
  | none => intro a ha; simp at ha
  | some path =>
    simp only [List.map_nil, List.nil_append]
    split_ifs
    · intro a ha; simp at ha
    · intro a ha; simp at ha
    · intro a ha
      simp only [List.mem_singleton] at ha
      exact Or.inr (Or.inr ⟨_, _, ha⟩)

theorem interface_network_added_actions (path : Option String)
    (properties : Option (List (String × DBusValue))) (q : String) :
    ∀ a ∈ interface_network_added path properties, bag_action q a := by
  unfold interface_network_added
  cases path with
  | none => intro a ha; simp at ha
  | some path =>
    simp only []
    split_ifs
    · intro a ha; simp at ha
    · cases properties with
      | some _ => intro a ha; simp at ha
      | none =>
        intro a ha
        simp only [List.mem_singleton] at ha
        exact Or.inr (Or.inr ⟨_, _, ha⟩)

theorem interface_bss_added_path (callbacks_pointer : Option supplicant_callbacks)
    (path : Option String) (properties : Option (List (String × DBusValue)))
    (interface : supplicant_interface) :
    (interface_bss_added callbacks_pointer path properties interface).1.path
      = interface.path := by
  rcases interface_bss_added_cases callbacks_pointer path properties interface with
    hc | ⟨built, _, _, hc⟩
  · rw [hc]
  · rw [hc]
    exact add_bss_to_network_path _ _ _

theorem interface_bss_added_emitted (callbacks_pointer : Option supplicant_callbacks)
    (path : Option String) (properties : Option (List (String × DBusValue)))
    (interface : supplicant_interface) :
    ∀ e ∈ (interface_bss_added callbacks_pointer path properties interface).2,
      ∃ network : supplicant_network, e = callback_event.network_added network := by
  rcases interface_bss_added_cases callbacks_pointer path properties interface with
    hc | ⟨built, _, _, hc⟩
  · rw [hc]
    intro e he
    simp at he
  · rw [hc, add_bss_to_network_emitted]
    intro e he
    split at he
    · simp at he
    · unfold callback_network_added at he
      cases callbacks_pointer with
      | none => simp at he
      | some callbacks =>
        simp only [] at he
        split_ifs at he
        · exact ⟨_, List.mem_singleton.mp he⟩
        · simp at he

theorem interface_bss_added_actions_bag (callbacks_pointer : Option supplicant_callbacks)
    (path : Option String) (properties : Option (List (String × DBusValue)))
    (interface : supplicant_interface) (q : String) :
    (interface_bss_added_actions callbacks_pointer path properties interface).1.path
        = interface.path
      ∧ ∀ a ∈ (interface_bss_added_actions callbacks_pointer path properties interface).2,
          bag_action q a := by
  refine ⟨interface_bss_added_path _ _ _ _, ?_⟩
  unfold interface_bss_added_actions
  intro a ha
  rcases List.mem_append.mp ha with ha | ha
  · obtain ⟨e, he, hea⟩ := List.mem_map.mp ha
    obtain ⟨network, hn⟩ := interface_bss_added_emitted _ _ _ _ e he
    rw [← hea, hn]
    exact Or.inr (Or.inl ⟨network, rfl⟩)
  · cases path with
    | none => simp at ha
    | some path =>
      cases properties with
      | some _ => simp at ha
      | none =>
        simp only [] at ha
        split_ifs at ha
        · simp at ha
        · simp at ha
        · simp only [List.mem_singleton] at ha
          exact Or.inr (Or.inr ⟨_, _, ha⟩)

theorem interface_property_key (callbacks_pointer : Option supplicant_callbacks)
    (key : String) (iter : DBusValue) (interface : supplicant_interface)
    (emitted : List bus_action) :
    ∃ (final : supplicant_interface) (extra : List bus_action),
      interface_property callbacks_pointer (some key) iter
          { interface := some interface, emitted := emitted }
        = { interface := some final, emitted := emitted ++ extra }
      ∧ final.path = interface.path
      ∧ ∀ a ∈ extra, bag_action interface.path a := by
  have hnil : ∀ a ∈ ([] : List bus_action), bag_action interface.path a := by
    intro a ha; simp at ha
  have hupd : ∀ updated : supplicant_interface, updated.path = interface.path →
      ∃ (final : supplicant_interface) (extra : List bus_action),
        ({ interface := some updated, emitted := emitted } : interface_context)
          = { interface := some final, emitted := emitted ++ extra }
        ∧ final.path = interface.path
        ∧ ∀ a ∈ extra, bag_action interface.path a :=
    fun updated h => ⟨updated, [], by rw [List.append_nil], h, hnil⟩
  have hsame := hupd interface rfl
  generalize hx : interface_property callbacks_pointer (some key) iter
    { interface := some interface, emitted := emitted } = r
  unfold interface_property at hx
  simp only [] at hx
  by_cases k1 : (key == "Capabilities") = true
  · rw [if_pos k1] at hx
    subst hx
    apply hupd
    apply property_foreach_invariant
      (fun s : supplicant_interface => s.path = interface.path)
    · intro k v s h; exact (interface_capability_path _ _ _).trans h
    · rfl
  rw [if_neg k1] at hx
  by_cases k2 : (key == "State") = true
  · rw [if_pos k2] at hx
    split at hx <;> subst hx
    · exact hupd _ rfl
    · exact hsame
  rw [if_neg k2] at hx
  by_cases k3 : (key == "Scanning") = true
  · rw [if_pos k3] at hx
    subst hx
    refine ⟨_, _, rfl, rfl, ?_⟩
    intro a ha
    split_ifs at ha
    · unfold callback_scan_started at ha
      cases callbacks_pointer with
      | none => simp at ha
      | some callbacks =>
        simp only [] at ha
        split_ifs at ha
        · simp only [List.map_cons, List.map_nil, List.mem_singleton] at ha
          exact Or.inl ⟨_, ha, rfl⟩
        · simp at ha
    · simp at ha
  rw [if_neg k3] at hx
  by_cases k4 : (key == "ApScan") = true
  · rw [if_pos k4] at hx
    subst hx
    exact hupd _ rfl
  rw [if_neg k4] at hx
  by_cases k5 : (key == "Ifname") = true
  · rw [if_pos k5] at hx
    split at hx <;> subst hx
    · exact hupd _ rfl
    · exact hsame
  rw [if_neg k5] at hx
  by_cases k6 : (key == "Driver") = true
  · rw [if_pos k6] at hx
    split at hx <;> subst hx
    · exact hupd _ rfl
    · exact hsame
  rw [if_neg k6] at hx
  by_cases k7 : (key == "BridgeIfname") = true
  · rw [if_pos k7] at hx
    split at hx <;> subst hx
    · exact hupd _ rfl
    · exact hsame
  rw [if_neg k7] at hx
  by_cases k8 : (key == "CurrentBSS") = true
  · rw [if_pos k8] at hx
    subst hx
    have h := interface_bss_added_actions_none callbacks_pointer (get_basic_path iter)
      interface interface.path
    exact ⟨_, _, rfl, by rw [h.1], h.2⟩
  rw [if_neg k8] at hx
  by_cases k9 : (key == "CurrentNetwork") = true
  · rw [if_pos k9] at hx
    subst hx
    exact ⟨_, _, rfl, rfl, interface_network_added_actions _ _ _⟩
  rw [if_neg k9] at hx
  by_cases k10 : (key == "BSSs") = true
  · rw [if_pos k10] at hx
    subst hx
    have h := array_foreach_invariant
      (fun s : supplicant_interface × List bus_action =>
        s.1.path = interface.path ∧ ∃ extra, s.2 = emitted ++ extra
          ∧ ∀ a ∈ extra, bag_action interface.path a)
      (fun (element : Option String × Bool)
          (ctx : supplicant_interface × List bus_action) =>
        ((interface_bss_added_actions callbacks_pointer element.1
            (element_properties element.2) ctx.1).1,
          ctx.2 ++ (interface_bss_added_actions callbacks_pointer element.1
            (element_properties element.2) ctx.1).2))
      (by
        intro p s hs
        obtain ⟨h1, extra, h2, h3⟩ := hs
        have h := interface_bss_added_actions_bag callbacks_pointer p.1
          (element_properties p.2) s.1 interface.path
        refine ⟨h.1.trans h1,
          extra ++ (interface_bss_added_actions callbacks_pointer p.1
            (element_properties p.2) s.1).2, ?_, ?_⟩
        · show s.2 ++ _ = _
          rw [h2, List.append_assoc]
        intro a ha
        rcases List.mem_append.1 ha with ha | ha
        · exact h3 a ha
        · exact h.2 a ha)
      (array_positions (get_object_paths iter)) (interface, emitted)
      ⟨rfl, [], by rw [List.append_nil], hnil⟩
    obtain ⟨h1, extra, h2, h3⟩ := h
    exact ⟨_, extra, by rw [h2], h1, h3⟩
  rw [if_neg k10] at hx
  by_cases k11 : (key == "Blobs") = true
  · rw [if_pos k11] at hx
    subst hx
    exact hsame
  rw [if_neg k11] at hx
  by_cases k12 : (key == "Networks") = true
  · rw [if_pos k12] at hx
    subst hx
    have h := array_foreach_invariant
      (fun s : List bus_action =>
        ∃ extra, s = emitted ++ extra ∧ ∀ a ∈ extra, bag_action interface.path a)
      (fun (element : Option String × Bool) (emitted : List bus_action) =>
        emitted ++ interface_network_added element.1 (element_properties element.2))
      (by
        intro p s hs
        obtain ⟨extra, h2, h3⟩ := hs
        refine ⟨extra ++ interface_network_added p.1 (element_properties p.2), ?_, ?_⟩
        · show s ++ _ = _
          rw [h2, List.append_assoc]
        intro a ha
        rcases List.mem_append.1 ha with ha | ha
        · exact h3 a ha
        · exact interface_network_added_actions _ _ _ a ha)
      (array_positions (get_object_paths iter)) emitted
      ⟨[], by rw [List.append_nil], hnil⟩
    obtain ⟨extra, h2, h3⟩ := h
    exact ⟨_, extra, by rw [h2], rfl, h3⟩
  rw [if_neg k12] at hx
  subst hx
  exact hsame

theorem interface_property_foreach (callbacks_pointer : Option supplicant_callbacks)
    (properties : List (String × DBusValue)) (interface : supplicant_interface)
    (emitted : List bus_action) :
    ∃ (final : supplicant_interface) (extra : List bus_action),
      supplicant_dbus_property_foreach (interface_property callbacks_pointer) properties
          { interface := some interface, emitted := emitted }
        = { interface := some final, emitted := emitted ++ extra }
      ∧ final.path = interface.path
      ∧ ∀ a ∈ extra, bag_action interface.path a := by
  induction properties generalizing interface emitted with
  | nil =>
    refine ⟨interface, [], ?_, rfl, ?_⟩
    · rw [List.append_nil]; rfl
    · intro a ha; simp at ha
  | cons entry rest ih =>
    obtain ⟨mid, extra1, h1, hp1, ha1⟩ :=
      interface_property_key callbacks_pointer entry.1 entry.2 interface emitted
    obtain ⟨final, extra2, h2, hp2, ha2⟩ := ih mid (emitted ++ extra1)
    refine ⟨final, extra1 ++ extra2, ?_, hp2.trans hp1, ?_⟩
    · unfold supplicant_dbus_property_foreach at h2 ⊢
      rw [List.foldl_cons, h1, h2, List.append_assoc]
    · intro a ha
      rcases List.mem_append.1 ha with ha | ha
      · exact ha1 a ha
      · rw [← hp1]
        exact ha2 a ha

theorem interface_property_scanning (callbacks : supplicant_callbacks)
    (hscan : callbacks.scan_started = true) (interface : supplicant_interface)
    (emitted : List bus_action) :
    interface_property (some callbacks) (some "Scanning") (DBusValue.boolean true)
        { interface := some interface, emitted := emitted }
      = { interface := some { interface with scanning := true }
          emitted := emitted ++ [bus_action.callback
            (callback_event.scan_started { interface with scanning := true })] } := by
  unfold interface_property
  simp only []
  rw [if_neg (by decide), if_neg (by decide), if_pos (by decide)]
  simp only [get_basic_boolean, callback_scan_started, hscan, if_true, List.map_cons,
    List.map_nil]

theorem interface_property_foreach_scanning (callbacks : supplicant_callbacks)
    (hscan : callbacks.scan_started = true)
    (properties : List (String × DBusValue))
    (hmem : ("Scanning", DBusValue.boolean true) ∈ properties)
    (interface : supplicant_interface) (emitted : List bus_action) :
    ∃ (final : supplicant_interface) (extra : List bus_action)
      (scanning : supplicant_interface),
      supplicant_dbus_property_foreach (interface_property (some callbacks)) properties
          { interface := some interface, emitted := emitted }
        = { interface := some final, emitted := emitted ++ extra }
      ∧ bus_action.callback (callback_event.scan_started scanning) ∈ extra := by
  induction properties generalizing interface emitted with
  | nil => simp at hmem
  | cons entry rest ih =>
    rcases List.mem_cons.1 hmem with heq | hrest
    · obtain ⟨final, extra2, h2, _, _⟩ :=
        interface_property_foreach (some callbacks) rest { interface with scanning := true }
          (emitted ++ [bus_action.callback
            (callback_event.scan_started { interface with scanning := true })])
      refine ⟨final, _ ++ extra2, { interface with scanning := true }, ?_,
        List.mem_append_left _ (List.mem_singleton.2 rfl)⟩
      unfold supplicant_dbus_property_foreach at h2 ⊢
      rw [List.foldl_cons, ← heq, interface_property_scanning callbacks hscan, h2,
        List.append_assoc]
    · obtain ⟨mid, extra1, h1, _, _⟩ :=
        interface_property_key (some callbacks) entry.1 entry.2 interface emitted
      obtain ⟨final, extra2, scanning, h2, hm⟩ := ih hrest mid (emitted ++ extra1)
      refine ⟨final, extra1 ++ extra2, scanning, ?_, List.mem_append_right _ hm⟩
      unfold supplicant_dbus_property_foreach at h2 ⊢
      rw [List.foldl_cons, h1, h2, List.append_assoc]

/-! ### Interfaces reached through `interface_table` -/

theorem interface_store_lookup (system : supplicant_system) (final : supplicant_interface)
    (p : String) (interface : supplicant_interface)
    (h : g_hash_table_lookup supplicant_interface.path system.interface_table p
      = some interface)
    (hp : final.path = p) :
    g_hash_table_lookup supplicant_interface.path
        (interface_store system (some final)).interface_table p = some final
      ∧ (∀ q, q ≠ p →
          g_hash_table_lookup supplicant_interface.path
              (interface_store system (some final)).interface_table q
            = g_hash_table_lookup supplicant_interface.path system.interface_table q)
      ∧ (interface_store system (some final)).callbacks_pointer
          = system.callbacks_pointer := by
  unfold interface_store
  simp only []
  refine ⟨?_, ?_, trivial⟩
  · rw [lookup_map_set, if_pos hp.symm, h]
    rfl
  · intro q hq
    rw [lookup_map_set, if_neg (by rw [hp]; exact hq)]

theorem interface_property_at_found (key : Option String) (iter : DBusValue) (p : String)
    (system : supplicant_system) (emitted : List bus_action)
    (interface : supplicant_interface)
    (h : g_hash_table_lookup supplicant_interface.path system.interface_table p
      = some interface) :
    interface_property_at key iter (some p) (system, emitted)
      = (interface_store system
            (interface_property system.callbacks_pointer key iter
              { interface := some interface, emitted := emitted }).interface,
          (interface_property system.callbacks_pointer key iter
              { interface := some interface, emitted := emitted }).emitted) := by
  unfold interface_property_at
  simp only [h]

theorem interface_create_property_foreach (data : interface_create_data) (p : String)
    (hdata : data.interface = some p) (properties : List (String × DBusValue))
    (system : supplicant_system) (emitted : List bus_action)
    (interface : supplicant_interface)
    (h : g_hash_table_lookup supplicant_interface.path system.interface_table p
      = some interface) :
    ∃ after : supplicant_system,
      supplicant_dbus_property_foreach
          (fun key iter ctx => interface_create_property key iter data ctx)
          properties (system, emitted)
        = (after,
            (supplicant_dbus_property_foreach
              (interface_property system.callbacks_pointer) properties
              { interface := some interface, emitted := emitted }).emitted)
      ∧ g_hash_table_lookup supplicant_interface.path after.interface_table p
          = (supplicant_dbus_property_foreach
              (interface_property system.callbacks_pointer) properties
              { interface := some interface, emitted := emitted }).interface
      ∧ (∀ q, q ≠ p →
          g_hash_table_lookup supplicant_interface.path after.interface_table q
            = g_hash_table_lookup supplicant_interface.path system.interface_table q)
      ∧ after.callbacks_pointer = system.callbacks_pointer := by
  induction properties generalizing system emitted interface with
  | nil => exact ⟨system, rfl, h, fun _ _ => rfl, rfl⟩
  | cons entry rest ih =>
    obtain ⟨mid, extra, hkey, hpath, _⟩ :=
      interface_property_key system.callbacks_pointer entry.1 entry.2 interface emitted
    have hip : interface.path = p := (lookup_key _ _ _ _ h).1
    obtain ⟨h1, h2, h3⟩ := interface_store_lookup system mid p interface h (hpath.trans hip)
    have hcb := h3
    obtain ⟨after, ha, hb, hc, hd⟩ := ih (interface_store system (some mid))
      (emitted ++ extra) mid h1
    rw [hcb] at ha hb
    have hstep : interface_create_property (some entry.1) entry.2 data (system, emitted)
        = (interface_store system (some mid), emitted ++ extra) := by
      unfold interface_create_property
      simp only [hdata, reduceCtorEq, if_false]
      rw [interface_property_at_found _ _ _ _ _ _ h, hkey]
    refine ⟨after, ?_, ?_, ?_, ?_⟩
    · unfold supplicant_dbus_property_foreach at ha ⊢
      simp only [List.foldl_cons]
      rw [hstep, ha, hkey]
    · unfold supplicant_dbus_property_foreach at hb ⊢
      simp only [List.foldl_cons]
      rw [hkey]
      exact hb
    · intro q hq
      rw [hc q hq, h2 q hq]
    · rw [hd, h3]

theorem interface_property_sentinel (callbacks_pointer : Option supplicant_callbacks)
    (iter : DBusValue) (interface : supplicant_interface) (emitted : List bus_action) :
    interface_property callbacks_pointer none iter
        { interface := some interface, emitted := emitted }
      = { interface := some interface
          emitted := emitted
            ++ (callback_interface_added callbacks_pointer interface).map
                bus_action.callback } := by
  unfold interface_property
  rfl

theorem interface_create_reply (data : interface_create_data) (p : String)
    (hdata : data.interface = some p) (hcallback : data.callback = true)
    (properties : List (String × DBusValue)) (system : supplicant_system)
    (interface : supplicant_interface)
    (h : g_hash_table_lookup supplicant_interface.path system.interface_table p
      = some interface) :
    ∃ (final : supplicant_interface) (before : List bus_action)
      (after : supplicant_system),
      supplicant_dbus_property_foreach (interface_property system.callbacks_pointer)
          properties { interface := some interface, emitted := [] }
        = { interface := some final, emitted := before }
      ∧ property_get_all_reply (get_all_function.interface_create_property data)
          properties system
        = (after,
            before ++ [bus_action.create_callback 0 (some final)]
              ++ (callback_interface_added system.callbacks_pointer final).map
                  bus_action.callback)
      ∧ g_hash_table_lookup supplicant_interface.path after.interface_table p = some final
      ∧ (∀ q, q ≠ p →
          g_hash_table_lookup supplicant_interface.path after.interface_table q
            = g_hash_table_lookup supplicant_interface.path system.interface_table q) := by
  obtain ⟨final, before, hR, hpath, _⟩ :=
    interface_property_foreach system.callbacks_pointer properties interface []
  rw [List.nil_append] at hR
  obtain ⟨mid, ha, hb, hc, hd⟩ :=
    interface_create_property_foreach data p hdata properties system [] interface h
  rw [hR] at ha hb
  change _ = (mid, before) at ha
  change _ = some final at hb
  have hip : interface.path = p := (lookup_key _ _ _ _ h).1
  obtain ⟨h1, h2, _⟩ := interface_store_lookup mid final p final hb (hpath.trans hip)
  refine ⟨final, before, interface_store mid (some final), hR, ?_, h1, ?_⟩
  · unfold property_get_all_reply
    simp only []
    rw [ha]
    unfold interface_create_property
    simp only [hdata, hcallback, if_true, Option.some_bind, hb]
    rw [interface_property_at_found _ _ _ _ _ _ hb, hd, interface_property_sentinel]
  · intro q hq
    rw [h2 q hq, hc q hq]

/-! ### The path `/` -/

theorem signal_action_callbacks (events : List callback_event) :
    ∀ a ∈ events.map bus_action.callback, signal_action a := by
  intro a ha
  obtain ⟨e, _, he⟩ := List.mem_map.mp ha
  rw [← he]
  trivial

theorem signal_action_append (l1 l2 : List bus_action)
    (h1 : ∀ a ∈ l1, signal_action a) (h2 : ∀ a ∈ l2, signal_action a) :
    ∀ a ∈ l1 ++ l2, signal_action a := by
  intro a ha
  rcases List.mem_append.mp ha with ha | ha
  · exact h1 a ha
  · exact h2 a ha

theorem interface_capability_frame (key : Option String) (iter : DBusValue)
    (interface : supplicant_interface) :
    (interface_capability key iter interface).path = interface.path
      ∧ (interface_capability key iter interface).bss_mapping = interface.bss_mapping
      ∧ (interface_capability key iter interface).network_table
          = interface.network_table := by
  unfold interface_capability
  cases key with
  | none => exact ⟨rfl, rfl, rfl⟩
  | some key =>
    simp only []
    split_ifs
    all_goals first
      | exact ⟨rfl, rfl, rfl⟩
      | (apply array_foreach_invariant
          (fun s : supplicant_interface => s.path = interface.path
            ∧ s.bss_mapping = interface.bss_mapping
            ∧ s.network_table = interface.network_table)
         · intro _ _ h; exact h
         · exact ⟨rfl, rfl, rfl⟩)

theorem interface_bss_added_actions_none_signal
    (callbacks_pointer : Option supplicant_callbacks)
    (path : Option String) (interface : supplicant_interface) :
    (interface_bss_added_actions callbacks_pointer path none interface).1 = interface
      ∧ ∀ a ∈ (interface_bss_added_actions callbacks_pointer path none interface).2,
          signal_action a := by
  unfold interface_bss_added_actions
  rw [interface_bss_added_none]
  refine ⟨rfl, ?_⟩
  cases path with
  | none => intro a ha; simp at ha
  | some path =>
    simp only [List.map_nil, List.nil_append]
    split_ifs with hroot hidx
    · intro a ha; simp at ha
    · intro a ha; simp at ha
    · intro a ha
      simp only [List.mem_singleton] at ha
      rw [ha]
      show path ≠ "/"
      intro hc
      exact hroot (by rw [hc]; rfl)

theorem interface_network_added_signal (path : Option String)
    (properties : Option (List (String × DBusValue))) :
    ∀ a ∈ interface_network_added path properties, signal_action a := by
  unfold interface_network_added
  cases path with
  | none => intro a ha; simp at ha
  | some path =>
    simp only []
    split_ifs
    · intro a ha; simp at ha
    · cases properties with
      | some _ => intro a ha; simp at ha
      | none =>
        intro a ha
        simp only [List.mem_singleton] at ha
        rw [ha]
        trivial

theorem interface_store_inv (system : supplicant_system)
    (updated : supplicant_interface) (hinv : table_inv system)
    (hok : null_path_free updated) : table_inv (interface_store system (some updated)) := by
  obtain ⟨hnodup, hall⟩ := hinv
  unfold interface_store table_inv
  simp only []
  constructor
  · rw [map_set_keys supplicant_interface.path system.interface_table updated]
    exact hnodup
  · intro i hi
    obtain ⟨w, hw, hwi⟩ := List.mem_map.mp hi
    split at hwi
    · rw [← hwi]
      exact hok
    · rw [← hwi]
      exact hall w hw

theorem interface_store_self (system : supplicant_system) (interface : supplicant_interface)
    (hnodup : (system.interface_table.map supplicant_interface.path).Nodup)
    (hmem : interface ∈ system.interface_table) :
    interface_store system (some interface) = system := by
  have hmap : system.interface_table.map (fun w =>
      if w.path == interface.path then interface else w) = system.interface_table := by
    conv => rhs; rw [← List.map_id system.interface_table]
    apply List.map_congr_left
    intro w hw
    by_cases hp : (w.path == interface.path) = true
    · rw [if_pos hp]
      exact (eq_of_nodup_keys supplicant_interface.path _ hnodup w interface hw hmem
        (beq_iff_eq.mp hp)).symm
    · rw [if_neg hp]
      rfl
  unfold interface_store
  simp only [hmap]

theorem interface_alloc_inv (system : supplicant_system) (p : String)
    (hinv : table_inv system) (hp : p ≠ "/")
    (hnone : g_hash_table_lookup supplicant_interface.path system.interface_table p = none) :
    table_inv
      { system with
        interface_table :=
          g_hash_table_replace supplicant_interface.path system.interface_table
            (interface_alloc p) } := by
  obtain ⟨hnodup, hall⟩ := hinv
  have hr : g_hash_table_replace supplicant_interface.path system.interface_table
      (interface_alloc p) = system.interface_table ++ [interface_alloc p] :=
    replace_of_none _ _ _ hnone
  unfold table_inv
  simp only [hr]
  constructor
  · rw [List.map_append, List.nodup_append]
    refine ⟨hnodup, by simp, ?_⟩
    rw [lookup_eq_none_iff] at hnone
    intro a ha hb
    simp only [List.map_cons, List.map_nil, List.mem_singleton] at hb
    obtain ⟨n, hn1, hn2⟩ := List.mem_map.mp ha
    exact hnone n hn1 (hn2.trans hb)
  · intro i hi
    rcases List.mem_append.mp hi with hi | hi
    · exact hall i hi
    · rw [List.mem_singleton.mp hi]
      refine ⟨hp, ?_⟩
      intro e he
      simp [interface_alloc] at he

theorem table_inv_remove (system : supplicant_system) (p : String)
    (hinv : table_inv system) :
    table_inv
      { system with
        interface_table :=
          g_hash_table_remove supplicant_interface.path system.interface_table p } := by
  obtain ⟨hnodup, hall⟩ := hinv
  unfold table_inv
  simp only []
  exact ⟨List.Nodup.sublist (List.Sublist.map _ (remove_sublist _ _ _)) hnodup,
    fun i hi => hall i (mem_remove _ _ _ _ hi).1⟩

theorem add_bss_to_network_null_free (callbacks_pointer : Option supplicant_callbacks)
    (interface : supplicant_interface) (bss : supplicant_bss)
    (h : null_path_free interface) (hp : bss.path ≠ "/") :
    null_path_free (add_bss_to_network callbacks_pointer interface bss).1 := by
  unfold null_path_free
  rw [add_bss_to_network_path, add_bss_to_network_mapping]
  refine ⟨h.1, ?_⟩
  intro e he
  rcases mem_replace _ _ _ _ he with he | he
  · exact h.2 e he
  · rw [he]
    exact hp

theorem interface_bss_added_null_free (callbacks_pointer : Option supplicant_callbacks)
    (path : Option String) (properties : Option (List (String × DBusValue)))
    (interface : supplicant_interface) (h : null_path_free interface) :
    null_path_free (interface_bss_added callbacks_pointer path properties interface).1 := by
  rcases interface_bss_added_cases callbacks_pointer path properties interface with
    hc | ⟨built, _, hb, hc⟩
  · rw [hc]
    exact h
  · rw [hc]
    exact add_bss_to_network_null_free _ _ _ h hb

theorem interface_bss_added_actions_signal (callbacks_pointer : Option supplicant_callbacks)
    (path : Option String) (properties : Option (List (String × DBusValue)))
    (interface : supplicant_interface) :
    ∀ a ∈ (interface_bss_added_actions callbacks_pointer path properties interface).2,
      signal_action a := by
  unfold interface_bss_added_actions
  apply signal_action_append _ _ (signal_action_callbacks _)
  cases path with
  | none => intro a ha; simp at ha
  | some path =>
    cases properties with
    | some _ => intro a ha; simp at ha
    | none =>
      simp only []
      split_ifs with hroot hidx
      · intro a ha; simp at ha
      · intro a ha; simp at ha
      · intro a ha
        simp only [List.mem_singleton] at ha
        rw [ha]
        show path ≠ "/"
        intro hc
        exact hroot (by rw [hc]; rfl)

theorem interface_bss_removed_null_free (callbacks_pointer : Option supplicant_callbacks)
    (path : Option String) (interface : supplicant_interface)
    (h : null_path_free interface) :
    null_path_free (interface_bss_removed callbacks_pointer path interface).1 := by
  cases path with
  | none => exact h
  | some p =>
    cases h1 : g_hash_table_lookup Prod.fst interface.bss_mapping p with
    | none =>
      rw [interface_bss_removed_absent _ _ _ h1]
      exact h
    | some entry =>
      have hsub : ∀ e ∈ g_hash_table_remove Prod.fst interface.bss_mapping p,
          e.1 ≠ "/" := fun e he => h.2 e (mem_remove _ _ _ _ he).1
      cases h2 : g_hash_table_lookup supplicant_network.group interface.network_table
          entry.2 with
      | none =>
        unfold interface_bss_removed
        simp only [h1, h2]
        exact ⟨h.1, hsub⟩
      | some network =>
        rw [interface_bss_removed_eq _ _ _ entry network h1 h2]
        split
        · exact ⟨h.1, hsub⟩
        · exact ⟨h.1, hsub⟩

theorem bss_get_all_reply_null_free (callbacks_pointer : Option supplicant_callbacks)
    (bss : supplicant_bss) (properties : List (String × DBusValue))
    (interface : supplicant_interface) (h : null_path_free interface)
    (hp : bss.path ≠ "/") :
    null_path_free (bss_get_all_reply callbacks_pointer bss properties interface).1 := by
  rcases bss_get_all_reply_cases callbacks_pointer bss properties interface with
    hc | ⟨built, hb, hc⟩
  · rw [hc]
    exact h
  · rw [hc]
    exact add_bss_to_network_null_free _ _ _ h (by rw [hb]; exact hp)

theorem interface_property_key_frame (callbacks_pointer : Option supplicant_callbacks)
    (key : String) (iter : DBusValue) (interface : supplicant_interface)
    (emitted : List bus_action) :
    ∃ (final : supplicant_interface) (extra : List bus_action),
      interface_property callbacks_pointer (some key) iter
          { interface := some interface, emitted := emitted }
        = { interface := some final, emitted := emitted ++ extra }
      ∧ final.path = interface.path
      ∧ (null_path_free interface → null_path_free final)
      ∧ ∀ a ∈ extra, signal_action a := by
  have hnil : ∀ a ∈ ([] : List bus_action), signal_action a := by
    intro a ha; simp at ha
  have hupd : ∀ updated : supplicant_interface,
      (updated.path = interface.path ∧ updated.bss_mapping = interface.bss_mapping) →
      ∃ (final : supplicant_interface) (extra : List bus_action),
        ({ interface := some updated, emitted := emitted } : interface_context)
          = { interface := some final, emitted := emitted ++ extra }
        ∧ final.path = interface.path
        ∧ (null_path_free interface → null_path_free final)
        ∧ ∀ a ∈ extra, signal_action a :=
    fun updated h =>
      ⟨updated, [], by rw [List.append_nil], h.1,
        fun hfree => ⟨by rw [h.1]; exact hfree.1, by rw [h.2]; exact hfree.2⟩, hnil⟩
  have hsame := hupd interface ⟨rfl, rfl⟩
  generalize hx : interface_property callbacks_pointer (some key) iter
    { interface := some interface, emitted := emitted } = r
  unfold interface_property at hx
  simp only [] at hx
  by_cases k1 : (key == "Capabilities") = true
  · rw [if_pos k1] at hx
    subst hx
    apply hupd
    apply property_foreach_invariant
      (fun s : supplicant_interface => s.path = interface.path
        ∧ s.bss_mapping = interface.bss_mapping)
    · intro k v s h
      have hc := interface_capability_frame (some k) v s
      exact ⟨hc.1.trans h.1, hc.2.1.trans h.2⟩
    · exact ⟨rfl, rfl⟩
  rw [if_neg k1] at hx
  by_cases k2 : (key == "State") = true
  · rw [if_pos k2] at hx
    split at hx <;> subst hx
    · exact hupd _ ⟨rfl, rfl⟩
    · exact hsame
  rw [if_neg k2] at hx
  by_cases k3 : (key == "Scanning") = true
  · rw [if_pos k3] at hx
    subst hx
    refine ⟨_, _, rfl, rfl, fun hfree => hfree, ?_⟩
    intro a ha
    split_ifs at ha
    · exact signal_action_callbacks _ a ha
    · simp at ha
  rw [if_neg k3] at hx
  by_cases k4 : (key == "ApScan") = true
  · rw [if_pos k4] at hx
    subst hx
    exact hupd _ ⟨rfl, rfl⟩
  rw [if_neg k4] at hx
  by_cases k5 : (key == "Ifname") = true
  · rw [if_pos k5] at hx
    split at hx <;> subst hx
    · exact hupd _ ⟨rfl, rfl⟩
    · exact hsame
  rw [if_neg k5] at hx
  by_cases k6 : (key == "Driver") = true
  · rw [if_pos k6] at hx
    split at hx <;> subst hx
    · exact hupd _ ⟨rfl, rfl⟩
    · exact hsame
  rw [if_neg k6] at hx
  by_cases k7 : (key == "BridgeIfname") = true
  · rw [if_pos k7] at hx
    split at hx <;> subst hx
    · exact hupd _ ⟨rfl, rfl⟩
    · exact hsame
  rw [if_neg k7] at hx
  by_cases k8 : (key == "CurrentBSS") = true
  · rw [if_pos k8] at hx
    subst hx
    exact ⟨_, _, rfl, interface_bss_added_path _ _ _ _,
      interface_bss_added_null_free _ _ _ _, interface_bss_added_actions_signal _ _ _ _⟩
  rw [if_neg k8] at hx
  by_cases k9 : (key == "CurrentNetwork") = true
  · rw [if_pos k9] at hx
    subst hx
    exact ⟨_, _, rfl, rfl, fun hfree => hfree, interface_network_added_signal _ _⟩
  rw [if_neg k9] at hx
  by_cases k10 : (key == "BSSs") = true
  · rw [if_pos k10] at hx
    subst hx
    have h := array_foreach_invariant
      (fun s : supplicant_interface × List bus_action =>
        s.1.path = interface.path
          ∧ (null_path_free interface → null_path_free s.1)
          ∧ ∃ extra, s.2 = emitted ++ extra ∧ ∀ a ∈ extra, signal_action a)
      (fun (element : Option String × Bool)
          (ctx : supplicant_interface × List bus_action) =>
        ((interface_bss_added_actions callbacks_pointer element.1
            (element_properties element.2) ctx.1).1,
          ctx.2 ++ (interface_bss_added_actions callbacks_pointer element.1
            (element_properties element.2) ctx.1).2))
      (by
        intro p s hs
        obtain ⟨h1, hfree, extra, h2, h3⟩ := hs
        refine ⟨(interface_bss_added_path _ _ _ _).trans h1,
          fun hf => interface_bss_added_null_free _ _ _ _ (hfree hf),
          extra ++ (interface_bss_added_actions callbacks_pointer p.1
            (element_properties p.2) s.1).2, ?_, ?_⟩
        · show s.2 ++ _ = _
          rw [h2, List.append_assoc]
        · exact signal_action_append _ _ h3 (interface_bss_added_actions_signal _ _ _ _))
      (array_positions (get_object_paths iter)) (interface, emitted)
      ⟨rfl, fun hf => hf, [], by rw [List.append_nil], hnil⟩
    obtain ⟨h1, hfree, extra, h2, h3⟩ := h
    exact ⟨_, extra, by rw [h2], h1, hfree, h3⟩
  rw [if_neg k10] at hx
  by_cases k11 : (key == "Blobs") = true
  · rw [if_pos k11] at hx
    subst hx
    exact hsame
  rw [if_neg k11] at hx
  by_cases k12 : (key == "Networks") = true
  · rw [if_pos k12] at hx
    subst hx
    have h := array_foreach_invariant
      (fun s : List bus_action =>
        ∃ extra, s = emitted ++ extra ∧ ∀ a ∈ extra, signal_action a)
      (fun (element : Option String × Bool) (emitted : List bus_action) =>
        emitted ++ interface_network_added element.1 (element_properties element.2))
      (by
        intro p s hs
        obtain ⟨extra, h2, h3⟩ := hs
        refine ⟨extra ++ interface_network_added p.1 (element_properties p.2), ?_, ?_⟩
        · show s ++ _ = _
          rw [h2, List.append_assoc]
        · exact signal_action_append _ _ h3 (interface_network_added_signal _ _))
      (array_positions (get_object_paths iter)) emitted
      ⟨[], by rw [List.append_nil], hnil⟩
    obtain ⟨extra, h2, h3⟩ := h
    exact ⟨_, extra, by rw [h2], rfl, fun hfree => hfree, h3⟩
  rw [if_neg k12] at hx
  subst hx
  exact hsame

theorem interface_property_any_frame (callbacks_pointer : Option supplicant_callbacks)
    (key : Option String) (iter : DBusValue) (interface : supplicant_interface)
    (emitted : List bus_action) :
    ∃ (final : supplicant_interface) (extra : List bus_action),
      interface_property callbacks_pointer key iter
          { interface := some interface, emitted := emitted }
        = { interface := some final, emitted := emitted ++ extra }
      ∧ final.path = interface.path
      ∧ (null_path_free interface → null_path_free final)
      ∧ ∀ a ∈ extra, signal_action a := by
  cases key with
  | some key => exact interface_property_key_frame callbacks_pointer key iter interface emitted
  | none =>
    exact ⟨interface, _, interface_property_sentinel _ _ _ _, rfl, fun hfree => hfree,
      signal_action_callbacks _⟩

theorem interface_property_at_ok (key : Option String) (iter : DBusValue)
    (interface : Option String) (ctx : supplicant_system × List bus_action)
    (h : handler_ok ctx) : handler_ok (interface_property_at key iter interface ctx) := by
  unfold interface_property_at
  cases interface with
  | none => exact h
  | some p =>
    simp only []
    cases hl : g_hash_table_lookup supplicant_interface.path ctx.1.interface_table p with
    | none => exact h
    | some found =>
      simp only []
      obtain ⟨final, extra, hr, _, hfree, ha⟩ :=
        interface_property_any_frame ctx.1.callbacks_pointer key iter found ctx.2
      rw [hr]
      have hfound := h.1.2 found (lookup_key _ _ _ _ hl).2
      exact ⟨interface_store_inv _ _ h.1 (hfree hfound), signal_action_append _ _ h.2 ha⟩

theorem interface_added_ok (path : Option String)
    (properties : Option (List (String × DBusValue))) (system : supplicant_system)
    (h : table_inv system) : handler_ok (interface_added path properties system) := by
  have hsame : handler_ok (system, []) := ⟨h, by intro a ha; simp at ha⟩
  unfold interface_added
  cases path with
  | none => exact hsame
  | some p =>
    simp only []
    by_cases hroot : (p == "/") = true
    · rw [if_pos hroot]
      exact hsame
    rw [if_neg hroot]
    have hp : p ≠ "/" := fun hc => hroot (by rw [hc]; rfl)
    cases hl : g_hash_table_lookup supplicant_interface.path system.interface_table p with
    | some _ => exact hsame
    | none =>
      simp only []
      have halloc := interface_alloc_inv system p h hp hl
      cases properties with
      | none =>
        refine ⟨halloc, ?_⟩
        intro a ha
        simp only [List.mem_singleton] at ha
        rw [ha]
        trivial
      | some properties =>
        simp only []
        have hfold := property_foreach_invariant
          (fun c : interface_context =>
            ∃ final : supplicant_interface, c.interface = some final
              ∧ null_path_free final ∧ ∀ a ∈ c.emitted, signal_action a)
          (interface_property system.callbacks_pointer)
          (by
            intro k v c hc
            obtain ⟨mid, hmid, hfree, hacts⟩ := hc
            obtain ⟨final, extra, hr, _, hkeep, ha⟩ :=
              interface_property_key_frame system.callbacks_pointer k v mid c.emitted
            have hceq : c = { interface := some mid, emitted := c.emitted } := by
              cases c
              simp only at hmid
              rw [hmid]
            rw [hceq, hr]
            exact ⟨final, rfl, hkeep hfree, signal_action_append _ _ hacts ha⟩)
          properties
          { interface := some (interface_alloc p), emitted := [] }
          ⟨interface_alloc p, rfl, ⟨hp, by intro e he; simp [interface_alloc] at he⟩,
            by intro a ha; simp at ha⟩
        obtain ⟨final, hfinal, hfree, hacts⟩ := hfold
        generalize supplicant_dbus_property_foreach
          (interface_property system.callbacks_pointer) properties
          { interface := some (interface_alloc p), emitted := [] } = c at hfinal hacts
        have hceq : c = { interface := some final, emitted := c.emitted } := by
          cases c
          simp only at hfinal
          rw [hfinal]
        rw [hceq, interface_property_sentinel]
        exact ⟨interface_store_inv _ _ halloc hfree,
          signal_action_append _ _ hacts (signal_action_callbacks _)⟩

theorem interface_removed_ok (path : Option String) (system : supplicant_system)
    (h : table_inv system) : handler_ok (interface_removed path system) := by
  have hsame : handler_ok (system, []) := ⟨h, by intro a ha; simp at ha⟩
  unfold interface_removed
  cases path with
  | none => exact hsame
  | some p =>
    simp only []
    cases g_hash_table_lookup supplicant_interface.path system.interface_table p with
    | none => exact hsame
    | some interface => exact ⟨table_inv_remove system p h, signal_action_callbacks _⟩

theorem callback_system_ready_table (system : supplicant_system) :
    (callback_system_ready system).1.interface_table = system.interface_table := by
  unfold callback_system_ready
  split
  · rfl
  · simp only []
    split
    · rfl
    · split <;> rfl

theorem service_property_ok (key : Option String) (iter : DBusValue)
    (ctx : supplicant_system × List bus_action) (h : handler_ok ctx) :
    handler_ok (service_property key iter ctx) := by
  unfold service_property
  cases key with
  | none =>
    refine ⟨?_, signal_action_append _ _ h.2 (signal_action_callbacks _)⟩
    unfold table_inv
    simp only [callback_system_ready_table]
    exact h.1
  | some key =>
    simp only []
    split_ifs
    · split
      · exact ⟨h.1, h.2⟩
      · exact h
    · exact ⟨h.1, h.2⟩
    · exact ⟨h.1, h.2⟩
    · exact ⟨h.1, h.2⟩
    · apply array_foreach_invariant handler_ok
      · intro p c hc
        have hadd := interface_added_ok p.1 (element_properties p.2) c.1 hc.1
        exact ⟨hadd.1, signal_action_append _ _ hc.2 hadd.2⟩
      · exact h
    · refine ⟨?_, h.2⟩
      have : (supplicant_dbus_array_foreach eap_method (get_strings iter)
          ctx.1).interface_table = ctx.1.interface_table := by
        apply array_foreach_invariant
          (fun s : supplicant_system => s.interface_table = ctx.1.interface_table)
        · intro _ _ hs; exact hs
        · rfl
      unfold table_inv
      simp only [this]
      exact h.1
    · exact h

theorem signal_name_owner_changed_ok
    (DBUS_PATH_DBUS SUPPLICANT_SERVICE SUPPLICANT_PATH : String) (path : String)
    (name old new : Option String) (system : supplicant_system) (h : table_inv system) :
    handler_ok
      (signal_name_owner_changed DBUS_PATH_DBUS SUPPLICANT_SERVICE SUPPLICANT_PATH path
        name old new system) := by
  have hsame : handler_ok (system, []) := ⟨h, by intro a ha; simp at ha⟩
  have hempty : ∀ s : supplicant_system, s.interface_table = [] → table_inv s := by
    intro s hs
    unfold table_inv
    rw [hs]
    exact ⟨List.nodup_nil, by intro i hi; simp at hi⟩
  have hboot : ∀ a ∈ supplicant_bootstrap SUPPLICANT_PATH, signal_action a := by
    intro a ha
    unfold supplicant_bootstrap at ha
    simp only [List.mem_singleton] at ha
    rw [ha]
    trivial
  have hkilled : ∀ s : supplicant_system,
      (callback_system_killed s).1.interface_table = s.interface_table := by
    intro s
    unfold callback_system_killed
    simp only []
    split
    · rfl
    · split <;> rfl
  unfold signal_name_owner_changed
  split_ifs
  · exact hsame
  · cases name with
    | none => exact hsame
    | some name =>
      simp only []
      split_ifs
      · exact hsame
      · cases old with
        | none => exact hsame
        | some old =>
          cases new with
          | none => exact hsame
          | some new =>
            simp only []
            by_cases hlost : old.length > 0 ∧ new.length = 0
            · rw [if_pos hlost]
              have hk : table_inv (callback_system_killed
                  { system with system_available := false, interface_table := [] }).1 :=
                hempty _ (by rw [hkilled])
              split_ifs
              · exact ⟨hk, signal_action_append _ _ (signal_action_callbacks _) hboot⟩
              · exact ⟨hk, signal_action_callbacks _⟩
            · rw [if_neg hlost]
              split_ifs
              · exact ⟨h, signal_action_append _ _ hsame.2 hboot⟩
              · exact hsame

theorem supplicant_filter_ok
    (DBUS_PATH_DBUS SUPPLICANT_SERVICE SUPPLICANT_PATH : String) (path : Option String)
    (signal : supplicant_signal) (system : supplicant_system) (h : table_inv system) :
    handler_ok
      (supplicant_filter DBUS_PATH_DBUS SUPPLICANT_SERVICE SUPPLICANT_PATH path signal
        system) := by
  have hsame : handler_ok (system, []) := ⟨h, by intro a ha; simp at ha⟩
  have hadded : ∀ p object properties,
      handler_ok (signal_interface_added SUPPLICANT_PATH p object properties system) := by
    intro p object properties
    unfold signal_interface_added
    split_ifs
    · exact interface_added_ok _ _ _ h
    · exact hsame
  unfold supplicant_filter
  cases path with
  | none => exact hsame
  | some p =>
    cases signal with
    | NameOwnerChanged name old new => exact signal_name_owner_changed_ok _ _ _ _ _ _ _ _ h
    | PropertiesChanged properties =>
      show handler_ok (signal_properties_changed SUPPLICANT_PATH p properties system)
      unfold signal_properties_changed
      split_ifs
      · exact hsame
      · exact property_foreach_invariant handler_ok service_property
          (fun k v c hc => service_property_ok (some k) v c hc) properties _ hsame
    | InterfaceAdded object properties => exact hadded p object properties
    | InterfaceCreated object properties => exact hadded p object properties
    | InterfaceRemoved object =>
      show handler_ok (signal_interface_removed SUPPLICANT_PATH p object system)
      unfold signal_interface_removed
      split_ifs
      · exact interface_removed_ok _ _ h
      · exact hsame
    | ScanDone =>
      show handler_ok (signal_scan_done p system)
      unfold signal_scan_done
      split
      · exact hsame
      · exact ⟨h, signal_action_callbacks _⟩
    | BSSAdded object properties =>
      show handler_ok (signal_bss_added p object properties system)
      unfold signal_bss_added
      split
      · exact hsame
      · rename_i interface hl
        exact ⟨interface_store_inv _ _ h
            (interface_bss_added_null_free _ _ _ _ (h.2 interface (lookup_key _ _ _ _ hl).2)),
          interface_bss_added_actions_signal _ _ _ _⟩
    | BSSRemoved object =>
      show handler_ok (signal_bss_removed p object system)
      unfold signal_bss_removed
      split
      · exact hsame
      · rename_i interface hl
        exact ⟨interface_store_inv _ _ h
            (interface_bss_removed_null_free _ _ _ (h.2 interface (lookup_key _ _ _ _ hl).2)),
          signal_action_callbacks _⟩
    | NetworkAdded object properties =>
      show handler_ok (signal_network_added p object properties system)
      unfold signal_network_added
      split
      · exact hsame
      · exact ⟨h, interface_network_added_signal _ _⟩
    | NetworkRemoved object =>
      show handler_ok (signal_network_removed p object system)
      unfold signal_network_removed
      split
      · exact hsame
      · split <;> exact hsame
    | other => exact hsame

theorem property_get_all_reply_ok (path : String) (function : get_all_function)
    (properties : List (String × DBusValue)) (system : supplicant_system)
    (h : table_inv system)
    (hsent : signal_action (bus_action.property_get_all path function)) :
    handler_ok (property_get_all_reply function properties system) := by
  have hsame : handler_ok (system, []) := ⟨h, by intro a ha; simp at ha⟩
  unfold property_get_all_reply
  cases function with
  | service_property =>
    exact service_property_ok none _ _
      (property_foreach_invariant handler_ok service_property
        (fun k v c hc => service_property_ok (some k) v c hc) properties _ hsame)
  | interface_property interface =>
    exact interface_property_at_ok none _ _ _
      (property_foreach_invariant handler_ok
        (fun key iter ctx => interface_property_at key iter (some interface) ctx)
        (fun k v c hc => interface_property_at_ok (some k) v _ c hc) properties _ hsame)
  | interface_create_property data => exact absurd hsent (fun hc => hc)
  | bss_property bss =>
    have hp : bss.path ≠ "/" := hsent
    simp only []
    split
    · exact hsame
    · rename_i interface hl
      have hmem : interface ∈ system.interface_table := by
        cases hi : bss.interface with
        | none => rw [hi] at hl; cases hl
        | some q =>
          rw [hi] at hl
          exact (lookup_key _ _ _ _ hl).2
      exact ⟨interface_store_inv _ _ h
          (bss_get_all_reply_null_free system.callbacks_pointer bss properties interface
            (h.2 interface hmem) hp),
        signal_action_callbacks _⟩
  | network_property => exact hsame

theorem replica_reachable_inv
    (DBUS_PATH_DBUS SUPPLICANT_SERVICE SUPPLICANT_PATH : String)
    (system : supplicant_system) (sent : List bus_action)
    (h : replica_reachable DBUS_PATH_DBUS SUPPLICANT_SERVICE SUPPLICANT_PATH system sent) :
    handler_ok (system, sent) := by
  induction h with
  | register callbacks has_owner =>
    refine ⟨⟨List.nodup_nil, by intro i hi; simp [supplicant_register] at hi⟩, ?_⟩
    intro a ha
    simp only [supplicant_register] at ha
    split at ha
    · unfold supplicant_bootstrap at ha
      simp only [List.mem_singleton] at ha
      rw [ha]
      trivial
    · simp at ha
  | signal system sent path signal _ ih =>
    have hf := supplicant_filter_ok DBUS_PATH_DBUS SUPPLICANT_SERVICE SUPPLICANT_PATH path
      signal system ih.1
    exact ⟨hf.1, signal_action_append _ _ ih.2 hf.2⟩
  | reply system sent path function properties _ hmem ih =>
    have hf := property_get_all_reply_ok path function properties system ih.1
      (ih.2 _ hmem)
    exact ⟨hf.1, signal_action_append _ _ ih.2 hf.2⟩

theorem interface_bss_added_actions_root (callbacks_pointer : Option supplicant_callbacks)
    (properties : Option (List (String × DBusValue))) (interface : supplicant_interface) :
    interface_bss_added_actions callbacks_pointer (some "/") properties interface
      = (interface, []) := by
  have h : interface_bss_added callbacks_pointer (some "/") properties interface
      = (interface, []) := by
    unfold interface_bss_added
    simp only [beq_self_eq_true, if_true]
  unfold interface_bss_added_actions
  rw [h]
  cases properties with
  | none => simp only [List.map_nil, beq_self_eq_true, if_true, List.append_nil]
  | some _ => simp only [List.map_nil, List.append_nil]

theorem interface_added_root (properties : Option (List (String × DBusValue)))
    (system : supplicant_system) :
    interface_added (some "/") properties system = (system, []) := by
  unfold interface_added
  simp only [beq_self_eq_true, if_true]

/-! ## Claims -/

/-! ### C1: security at the sentinel -/

/-- C1: at the sentinel (`bss_property` with the `NULL` key) of a BSS whose interface
pointer is set, the security recorded is IEEE-8021X if `ieee8021x` is set, else PSK if
`psk` is set, else WEP if `privacy` is set, else none; it is never `UNKNOWN`, and the
BSS handed to `add_bss_to_network` is the one carrying that security. -/
theorem C1_sentinel_security (callbacks_pointer : Option supplicant_callbacks)
    (iter : DBusValue) (ctx : bss_context) (h : ctx.bss.interface ≠ none) :
    (bss_property callbacks_pointer none iter ctx).bss.security
        = (if ctx.bss.ieee8021x then supplicant_security.IEEE8021X
           else if ctx.bss.psk then supplicant_security.PSK
           else if ctx.bss.privacy then supplicant_security.WEP
           else supplicant_security.NONE)
      ∧ (bss_property callbacks_pointer none iter ctx).bss.security
          ≠ supplicant_security.UNKNOWN
      ∧ (bss_property callbacks_pointer none iter ctx).interface
          = (add_bss_to_network callbacks_pointer ctx.interface
              (bss_property callbacks_pointer none iter ctx).bss).1 := by
  simp only [bss_property, h, if_false]
  cases ctx.bss.ieee8021x <;> cases ctx.bss.psk <;> cases ctx.bss.privacy <;> simp

/-- C1 at a concrete BSS: privacy and PSK seen, no 802.1X. -/
theorem C1_sentinel_security_witness :
    (bss_property (some all_callbacks) none DBusValue.other
        { interface := interface_alloc "/wlan0"
          bss := { bss_alloc (interface_alloc "/wlan0") "/bss/0" with
                    privacy := true, psk := true }
          emitted := [] }).bss.security = supplicant_security.PSK :=
  (C1_sentinel_security (some all_callbacks) DBusValue.other
    { interface := interface_alloc "/wlan0"
      bss := { bss_alloc (interface_alloc "/wlan0") "/bss/0" with
                privacy := true, psk := true }
      emitted := [] } (by decide)).1

/-! ### C2: the group key -/

/-- C2: for a BSS whose `ssid_len` lies within its SSID array, `create_group` is the
lowercase hexadecimal dump of the first `ssid_len` SSID bytes when `ssid_len > 0` and
`ssid[0] != 0`, otherwise `hidden`; followed by `_infra` or `_adhoc` for the mode
(nothing for unknown); followed by `_none`, `_wep`, `_psk` or `_ieee8021x` for the
security (nothing for unknown). A BSS with no SSID, mode infra and security none has
the key `hidden_infra_none`. -/
theorem C2_create_group (bss : supplicant_bss) :
    (bss.ssid_len ≤ bss.ssid.length →
      create_group bss
        = (if bss.ssid_len > 0 ∧ bss.ssid.getD 0 0 ≠ 0
            then hex_dump (bss.ssid.take bss.ssid_len) else "hidden")
          ++ mode_suffix bss.mode ++ security_suffix bss.security)
      ∧ (bss.ssid_len = 0 → bss.mode = supplicant_mode.INFRA →
          bss.security = supplicant_security.NONE →
          create_group bss = "hidden_infra_none") := by
  constructor
  · intro h
    rw [create_group_eq, ssid_bytes_eq_take bss h]
  · intro h0 hm hs
    rw [create_group_eq, h0, hm, hs]
    simp only [gt_iff_lt, Nat.lt_irrefl, false_and, if_false]
    decide

/-- C2 at the BSS with SSID `Guest`, mode infra and security PSK, and at a BSS
without SSID. -/
theorem C2_create_group_witness :
    create_group { bss_alloc (interface_alloc "/wlan0") "/bss/0" with
        ssid := [0x47, 0x75, 0x65, 0x73, 0x74] ++ List.replicate 27 0
        ssid_len := 5
        mode := supplicant_mode.INFRA
        security := supplicant_security.PSK } = "4775657374_infra_psk"
      ∧ create_group { bss_alloc (interface_alloc "/wlan0") "/bss/1" with
          mode := supplicant_mode.INFRA
          security := supplicant_security.NONE } = "hidden_infra_none" :=
  ⟨((C2_create_group { bss_alloc (interface_alloc "/wlan0") "/bss/0" with
        ssid := [0x47, 0x75, 0x65, 0x73, 0x74] ++ List.replicate 27 0
        ssid_len := 5
        mode := supplicant_mode.INFRA
        security := supplicant_security.PSK }).1 (by decide)).trans (by decide),
   (C2_create_group { bss_alloc (interface_alloc "/wlan0") "/bss/1" with
          mode := supplicant_mode.INFRA
          security := supplicant_security.NONE }).2 rfl rfl rfl⟩

/-! ### C3: the group key as a function of (SSID, mode, security) -/

/-- C3 as stated fails: a BSS without SSID and a BSS announcing four zero bytes differ
in their (SSID bytes, mode, security) triples and have the same group key, and
`add_bss_to_network` puts both into one network. -/
theorem C3_counterexample :
    (hidden_bss_a.ssid.take hidden_bss_a.ssid_len, hidden_bss_a.mode, hidden_bss_a.security)
        ≠ (hidden_bss_b.ssid.take hidden_bss_b.ssid_len, hidden_bss_b.mode,
            hidden_bss_b.security)
      ∧ create_group hidden_bss_a = create_group hidden_bss_b
      ∧ ((add_bss_to_network (some all_callbacks)
            (add_bss_to_network (some all_callbacks) (interface_alloc "/wlan0")
              hidden_bss_a).1 hidden_bss_b).1.network_table.map supplicant_network.group)
          = ["hidden_infra_none"] := by
  decide

/-- C3, amended: the group key is a function of the triple (SSID bytes read, mode,
security), so equal triples give equal keys; two BSSs have the same key exactly when
they have the same mode, the same security, and SSIDs that are either both hidden
(`ssid_len = 0` or first byte zero) or both visible with the same length and bytes; and
the network `add_bss_to_network` records for a BSS in `bss_mapping` is the one stored
under its key, so two BSSs share a network exactly in that case. -/
theorem C3_create_group_injective (b1 b2 : supplicant_bss) :
    ((ssid_bytes b1 = ssid_bytes b2 ∧ b1.mode = b2.mode ∧ b1.security = b2.security) →
        create_group b1 = create_group b2)
      ∧ (create_group b1 = create_group b2
          ↔ group_ssid b1 = group_ssid b2 ∧ b1.mode = b2.mode
            ∧ b1.security = b2.security)
      ∧ (∀ (callbacks_pointer : Option supplicant_callbacks)
          (interface : supplicant_interface),
          g_hash_table_lookup Prod.fst
            (add_bss_to_network callbacks_pointer interface b1).1.bss_mapping b1.path
            = some (b1.path, create_group b1)) := by
  refine ⟨?_, create_group_inj b1 b2, ?_⟩
  · rintro ⟨hb, hm, hs⟩
    exact (create_group_inj b1 b2).2 ⟨group_ssid_of_ssid_bytes b1 b2 hb, hm, hs⟩
  · intro callbacks_pointer interface
    rw [add_bss_to_network_mapping]
    exact lookup_replace_self Prod.fst interface.bss_mapping (b1.path, create_group b1)

/-- C3, amended, at two BSSs with the two-byte SSID `Gu`, stored in arrays of
different content beyond `ssid_len`: equal triples give the same key. -/
theorem C3_create_group_injective_witness :
    create_group { hidden_bss_a with ssid := [0x47, 0x75], ssid_len := 2 }
      = create_group { hidden_bss_b with ssid := [0x47, 0x75, 0x00], ssid_len := 2 } :=
  (C3_create_group_injective
    { hidden_bss_a with ssid := [0x47, 0x75], ssid_len := 2 }
    { hidden_bss_b with ssid := [0x47, 0x75, 0x00], ssid_len := 2 }).1
    ⟨by decide, rfl, rfl⟩

/-! ### C4: the AKM suites of an information element -/

/-- C4: on a buffer laid out as version (2 bytes), group cipher (4 bytes), a 16-bit
little-endian count and that many pairwise suites, a 16-bit little-endian count and
that many AKM suites, with a length `len` that passes every length check,
`extract_rsn` sets `ieee8021x` iff it was set before or some AKM suite has OUI
`00:50:f2` or `00:0f:ac` and fourth byte 1, sets `psk` iff it was set before or some
such suite has fourth byte 2, and changes nothing else. -/
theorem C4_extract_rsn (bss : supplicant_bss) (version group : List Byte)
    (pairwise akm : List rsn_suite) (rest : List Byte) (len : Int)
    (hv : version.length = 2) (hg : group.length = 4)
    (hp : pairwise.length < 65536) (ha : akm.length < 65536)
    (hlen : 10 + 4 * (pairwise.length : Int) + 4 * (akm.length : Int) ≤ len) :
    extract_rsn bss (rsn_body version group pairwise akm rest) len
      = { bss with
          ieee8021x := bss.ieee8021x || akm.any (akm_selects 1)
          psk := bss.psk || akm.any (akm_selects 2) } := by
  have d1 : (rsn_body version group pairwise akm rest).drop 2
      = group ++ (le16 pairwise.length ++ ((pairwise.map rsn_suite.bytes).flatten
          ++ (le16 akm.length ++ ((akm.map rsn_suite.bytes).flatten ++ rest)))) :=
    List.drop_left' hv
  have d2 : (group ++ (le16 pairwise.length ++ ((pairwise.map rsn_suite.bytes).flatten
          ++ (le16 akm.length ++ ((akm.map rsn_suite.bytes).flatten ++ rest))))).drop 4
      = le16 pairwise.length ++ ((pairwise.map rsn_suite.bytes).flatten
          ++ (le16 akm.length ++ ((akm.map rsn_suite.bytes).flatten ++ rest))) :=
    List.drop_left' hg
  have d3 : (le16 pairwise.length ++ ((pairwise.map rsn_suite.bytes).flatten
          ++ (le16 akm.length ++ ((akm.map rsn_suite.bytes).flatten ++ rest)))).drop
            (2 + pairwise.length * 4)
      = le16 akm.length ++ ((akm.map rsn_suite.bytes).flatten ++ rest) := by
    rw [← List.append_assoc]
    apply List.drop_left'
    rw [List.length_append, suites_length]
    rfl
  have hloop := extract_rsn_loop (le16 akm.length) akm rest bss
  have hl2 : (le16 akm.length).length = 2 := rfl
  rw [hl2] at hloop
  unfold extract_rsn
  simp only [d1, d2, rsn_count_le16 _ hp, d3, rsn_count_le16 _ ha, hloop]
  rw [if_neg (by omega), if_neg (by omega), if_neg (by omega), if_neg (by omega),
    if_neg (by omega), if_neg (by omega)]

/-- C4 at an RSN body with one pairwise suite and the AKM suite `00:0f:ac:02`. -/
theorem C4_extract_rsn_witness :
    (extract_rsn (bss_alloc (interface_alloc "/wlan0") "/bss/0")
        (rsn_body [0x01, 0x00] [0x00, 0x0f, 0xac, 0x04]
          [⟨0x00, 0x0f, 0xac, 0x04⟩] [⟨0x00, 0x0f, 0xac, 0x02⟩] [0x00, 0x00]) 20).psk = true
      ∧ (extract_rsn (bss_alloc (interface_alloc "/wlan0") "/bss/0")
        (rsn_body [0x01, 0x00] [0x00, 0x0f, 0xac, 0x04]
          [⟨0x00, 0x0f, 0xac, 0x04⟩] [⟨0x00, 0x0f, 0xac, 0x02⟩] [0x00, 0x00]) 20).ieee8021x
          = false := by
  rw [C4_extract_rsn (bss_alloc (interface_alloc "/wlan0") "/bss/0")
        [0x01, 0x00] [0x00, 0x0f, 0xac, 0x04]
        [⟨0x00, 0x0f, 0xac, 0x04⟩] [⟨0x00, 0x0f, 0xac, 0x02⟩] [0x00, 0x00] 20
        rfl rfl (by decide) (by decide) (by decide)]
  decide

/-! ### C5: the WPA-PSK scenario -/

/-- C5 as stated fails: with the RSNIE bytes of the scenario, which `bss_property`
parses from offset 2, no network with group `4775657374_infra_psk` is created and the
BSS recorded has `psk` false and security WEP. -/
theorem C5_counterexample :
    g_hash_table_lookup supplicant_network.group
        (interface_bss_added (some all_callbacks) (some "/bss/0")
          (some (guest_bag guest_rsnie)) (interface_alloc "/wlan0")).1.network_table
        "4775657374_infra_psk" = none
      ∧ ((interface_bss_added (some all_callbacks) (some "/bss/0")
          (some (guest_bag guest_rsnie)) (interface_alloc "/wlan0")).1.network_table.map
            supplicant_network.bss_table)
          = [[guest_bss supplicant_security.WEP false]] := by
  decide

/-- C5, amended: from an interface with no BSS, `BSSAdded` for `/bss/0` with the bag of
the scenario creates exactly one network, with group `4775657374_infra_wep`, name
`Guest` and mode infra, holding one BSS with security WEP, privacy true, `psk` false
and an all-zero bssid, and makes one `network_added` callback; when the RSNIE is the
whole element, the same bytes behind the element id `30` and length `14`, the network
has group `4775657374_infra_psk` and the BSS has security PSK and `psk` true. -/
theorem C5_guest_scenario :
    interface_bss_added (some all_callbacks) (some "/bss/0")
        (some (guest_bag guest_rsnie)) (interface_alloc "/wlan0")
      = ({ interface_alloc "/wlan0" with
            network_table :=
              [{ interface := none
                 group := "4775657374_infra_wep"
                 name := "Guest"
                 mode := supplicant_mode.INFRA
                 bss_table := [guest_bss supplicant_security.WEP false] }]
            bss_mapping := [("/bss/0", "4775657374_infra_wep")] },
          [callback_event.network_added
            { interface := none
              group := "4775657374_infra_wep"
              name := "Guest"
              mode := supplicant_mode.INFRA
              bss_table := [] }])
      ∧ interface_bss_added (some all_callbacks) (some "/bss/0")
        (some (guest_bag ([0x30, 0x14] ++ guest_rsnie))) (interface_alloc "/wlan0")
      = ({ interface_alloc "/wlan0" with
            network_table :=
              [{ interface := none
                 group := "4775657374_infra_psk"
                 name := "Guest"
                 mode := supplicant_mode.INFRA
                 bss_table := [guest_bss supplicant_security.PSK true] }]
            bss_mapping := [("/bss/0", "4775657374_infra_psk")] },
          [callback_event.network_added
            { interface := none
              group := "4775657374_infra_psk"
              name := "Guest"
              mode := supplicant_mode.INFRA
              bss_table := [] }]) := by
  decide

/-! ### C6: insertion -/

/-- C6: after `add_bss_to_network` of a BSS with group key `g`, `network_table[g]`
exists, `bss_mapping[bss.path]` is that network and its `bss_table[bss.path]` is the
BSS. When `network_table` had no entry for `g`, the entry is a new network with group
`g`, the name `create_name` gives, the mode of the BSS and the BSS as its only member,
and `callback_network_added` is called once for it (one `network_added` event when the
callback is registered). When the entry existed, nothing is emitted and the entry only
gains the BSS. Every other network and every other `bss_mapping` entry is unchanged.
Two BSSs with one group key and different paths, added to an interface without that
network, give one `network_added` and a `bss_table` of size two. -/
theorem C6_add_bss_to_network (callbacks_pointer : Option supplicant_callbacks)
    (interface : supplicant_interface) (bss : supplicant_bss) :
    (∃ network,
        g_hash_table_lookup supplicant_network.group
            (add_bss_to_network callbacks_pointer interface bss).1.network_table
            (create_group bss) = some network
        ∧ network.group = create_group bss
        ∧ g_hash_table_lookup Prod.fst
            (add_bss_to_network callbacks_pointer interface bss).1.bss_mapping bss.path
            = some (bss.path, create_group bss)
        ∧ g_hash_table_lookup supplicant_bss.path network.bss_table bss.path = some bss)
      ∧ (g_hash_table_lookup supplicant_network.group interface.network_table
            (create_group bss) = none →
          g_hash_table_lookup supplicant_network.group
              (add_bss_to_network callbacks_pointer interface bss).1.network_table
              (create_group bss)
            = some { interface := none
                     group := create_group bss
                     name := create_name bss.ssid bss.ssid_len
                     mode := bss.mode
                     bss_table := [bss] }
          ∧ (add_bss_to_network callbacks_pointer interface bss).2
              = callback_network_added callbacks_pointer (network_alloc bss)
          ∧ (∀ callbacks, callbacks_pointer = some callbacks →
              callbacks.network_added = true →
              (add_bss_to_network callbacks_pointer interface bss).2
                = [callback_event.network_added (network_alloc bss)]))
      ∧ (∀ n0, g_hash_table_lookup supplicant_network.group interface.network_table
            (create_group bss) = some n0 →
          (add_bss_to_network callbacks_pointer interface bss).2 = []
          ∧ g_hash_table_lookup supplicant_network.group
              (add_bss_to_network callbacks_pointer interface bss).1.network_table
              (create_group bss)
            = some { n0 with
                     bss_table :=
                       g_hash_table_replace supplicant_bss.path n0.bss_table bss })
      ∧ (∀ k, k ≠ create_group bss →
          g_hash_table_lookup supplicant_network.group
              (add_bss_to_network callbacks_pointer interface bss).1.network_table k
            = g_hash_table_lookup supplicant_network.group interface.network_table k)
      ∧ (∀ q, q ≠ bss.path →
          g_hash_table_lookup Prod.fst
              (add_bss_to_network callbacks_pointer interface bss).1.bss_mapping q
            = g_hash_table_lookup Prod.fst interface.bss_mapping q)
      ∧ (∀ bss2 : supplicant_bss,
          g_hash_table_lookup supplicant_network.group interface.network_table
            (create_group bss) = none →
          create_group bss2 = create_group bss → bss2.path ≠ bss.path →
          (add_bss_to_network callbacks_pointer interface bss).2
              ++ (add_bss_to_network callbacks_pointer
                    (add_bss_to_network callbacks_pointer interface bss).1 bss2).2
            = callback_network_added callbacks_pointer (network_alloc bss)
          ∧ ∃ network,
              g_hash_table_lookup supplicant_network.group
                (add_bss_to_network callbacks_pointer
                  (add_bss_to_network callbacks_pointer interface bss).1 bss2).1.network_table
                (create_group bss) = some network
              ∧ network.bss_table = [bss, bss2]
              ∧ g_hash_table_size network.bss_table = 2) := by
  have hg := add_bss_to_network_lookup_group callbacks_pointer interface bss
  have hm := add_bss_to_network_mapping callbacks_pointer interface bss
  have he := add_bss_to_network_emitted callbacks_pointer interface bss
  refine ⟨?_, ?_, ?_, ?_, ?_, ?_⟩
  · refine ⟨_, hg, ?_, ?_, ?_⟩
    · cases h : g_hash_table_lookup supplicant_network.group interface.network_table
          (create_group bss) with
      | none => rfl
      | some n0 => exact (lookup_key _ _ _ _ h).1
    · rw [hm]
      exact lookup_replace_self Prod.fst interface.bss_mapping (bss.path, create_group bss)
    · cases h : g_hash_table_lookup supplicant_network.group interface.network_table
          (create_group bss) with
      | none => simp [g_hash_table_lookup]
      | some n0 => exact lookup_replace_self supplicant_bss.path n0.bss_table bss
  · intro h
    rw [h] at hg he
    refine ⟨hg, he, ?_⟩
    intro callbacks hc hr
    rw [he, hc]
    simp [callback_network_added, hr]
  · intro n0 h
    rw [h] at hg he
    exact ⟨he, hg⟩
  · intro k hk
    exact add_bss_to_network_lookup_other callbacks_pointer interface bss k hk
  · intro q hq
    rw [hm]
    exact lookup_replace_of_ne Prod.fst _ _ q (fun hc => hq hc.symm)
  · intro bss2 h hgrp hpath
    rw [h] at hg he
    have hg2 := add_bss_to_network_lookup_group callbacks_pointer
      (add_bss_to_network callbacks_pointer interface bss).1 bss2
    have he2 := add_bss_to_network_emitted callbacks_pointer
      (add_bss_to_network callbacks_pointer interface bss).1 bss2
    rw [hgrp, hg] at hg2 he2
    refine ⟨?_, ?_⟩
    · rw [he, he2]
      simp
    · refine ⟨_, hg2, ?_, ?_⟩
      · simp [g_hash_table_replace, network_alloc, Ne.symm hpath]
      · simp [g_hash_table_replace, network_alloc, Ne.symm hpath, g_hash_table_size]

/-- C6 at two BSSs without SSID on different paths, added to a fresh interface: one
`network_added`, and a `bss_table` of size two. -/
theorem C6_add_bss_to_network_witness :
    (add_bss_to_network (some all_callbacks) (interface_alloc "/wlan0") hidden_bss_a).2
        ++ (add_bss_to_network (some all_callbacks)
              (add_bss_to_network (some all_callbacks) (interface_alloc "/wlan0")
                hidden_bss_a).1 { hidden_bss_a with path := "/bss/1" }).2
        = callback_network_added (some all_callbacks) (network_alloc hidden_bss_a)
      ∧ ∃ network,
          g_hash_table_lookup supplicant_network.group
            (add_bss_to_network (some all_callbacks)
              (add_bss_to_network (some all_callbacks) (interface_alloc "/wlan0")
                hidden_bss_a).1 { hidden_bss_a with path := "/bss/1" }).1.network_table
            (create_group hidden_bss_a) = some network
          ∧ network.bss_table = [hidden_bss_a, { hidden_bss_a with path := "/bss/1" }]
          ∧ g_hash_table_size network.bss_table = 2 :=
  (C6_add_bss_to_network (some all_callbacks) (interface_alloc "/wlan0")
    hidden_bss_a).2.2.2.2.2 { hidden_bss_a with path := "/bss/1" }
    (by decide) (by decide) (by decide)

/-! ### C7: removal -/

/-- C7: `interface_bss_removed` leaves the interface unchanged and calls nothing when
`bss_mapping` has no entry for the path (or the path is `NULL`). Otherwise, the owning
network being the one `bss_mapping[path]` points to, the path is removed from
`bss_mapping` and from that network's `bss_table`; when the `bss_table` became empty the
network is removed from `network_table` and `callback_network_removed` is called once
for it (one `network_removed` event when the callback is registered); when other BSSs
remain the network stays, with the remaining BSSs, and nothing is called. Other
`bss_mapping` entries and other networks are unchanged. -/
theorem C7_interface_bss_removed (callbacks_pointer : Option supplicant_callbacks)
    (interface : supplicant_interface) (path : String) :
    interface_bss_removed callbacks_pointer none interface = (interface, [])
      ∧ (g_hash_table_lookup Prod.fst interface.bss_mapping path = none →
          interface_bss_removed callbacks_pointer (some path) interface = (interface, []))
      ∧ (∀ entry network,
          g_hash_table_lookup Prod.fst interface.bss_mapping path = some entry →
          g_hash_table_lookup supplicant_network.group interface.network_table entry.2
            = some network →
          (interface_bss_removed callbacks_pointer (some path) interface).1.bss_mapping
              = g_hash_table_remove Prod.fst interface.bss_mapping path
          ∧ g_hash_table_lookup Prod.fst
              (interface_bss_removed callbacks_pointer (some path) interface).1.bss_mapping
              path = none
          ∧ (∀ q, q ≠ path →
              g_hash_table_lookup Prod.fst
                (interface_bss_removed callbacks_pointer (some path) interface).1.bss_mapping
                q = g_hash_table_lookup Prod.fst interface.bss_mapping q)
          ∧ g_hash_table_lookup supplicant_bss.path (network_without network path).bss_table
              path = none
          ∧ ((network_without network path).bss_table = [] →
              g_hash_table_lookup supplicant_network.group
                (interface_bss_removed callbacks_pointer (some path) interface).1.network_table
                entry.2 = none
              ∧ (interface_bss_removed callbacks_pointer (some path) interface).2
                  = callback_network_removed callbacks_pointer
                      (network_without network path)
              ∧ (∀ callbacks, callbacks_pointer = some callbacks →
                  callbacks.network_removed = true →
                  (interface_bss_removed callbacks_pointer (some path) interface).2
                    = [callback_event.network_removed (network_without network path)]))
          ∧ ((network_without network path).bss_table ≠ [] →
              g_hash_table_lookup supplicant_network.group
                (interface_bss_removed callbacks_pointer (some path) interface).1.network_table
                entry.2 = some (network_without network path)
              ∧ (interface_bss_removed callbacks_pointer (some path) interface).2 = [])
          ∧ (∀ k, k ≠ entry.2 →
              g_hash_table_lookup supplicant_network.group
                (interface_bss_removed callbacks_pointer (some path) interface).1.network_table
                k = g_hash_table_lookup supplicant_network.group interface.network_table k))
    := by
  refine ⟨rfl, ?_, ?_⟩
  · exact interface_bss_removed_absent callbacks_pointer interface path
  · intro entry network h1 h2
    have hk := (lookup_key _ _ _ _ h2).1
    have heq := interface_bss_removed_eq callbacks_pointer interface path entry network h1 h2
    have hset := lookup_map_set supplicant_network.group interface.network_table
      (network_without network path)
    have hkey : (network_without network path).group = network.group := rfl
    rw [hkey] at hset
    unfold network_without at heq hset ⊢
    by_cases hempty : g_hash_table_remove supplicant_bss.path network.bss_table path = []
    · rw [if_pos hempty] at heq
      rw [heq]
      refine ⟨rfl, lookup_remove_self _ _ _, ?_, lookup_remove_self _ _ _, ?_, ?_, ?_⟩
      · intro q hq
        exact lookup_remove_of_ne _ _ _ _ hq
      · intro _
        refine ⟨?_, rfl, ?_⟩
        · rw [← hk]
          exact lookup_remove_self _ _ _
        · intro callbacks hc hr
          simp [callback_network_removed, hc, hr]
      · intro hne
        exact absurd hempty hne
      · intro k hkne
        rw [hk] at hset ⊢
        simp only
        rw [lookup_remove_of_ne _ _ _ _ hkne, hset, if_neg hkne]
    · rw [if_neg hempty] at heq
      rw [heq]
      refine ⟨rfl, lookup_remove_self _ _ _, ?_, lookup_remove_self _ _ _, ?_, ?_, ?_⟩
      · intro q hq
        exact lookup_remove_of_ne _ _ _ _ hq
      · intro he
        exact absurd he hempty
      · intro _
        refine ⟨?_, rfl⟩
        simp only
        rw [hset, if_pos hk.symm, h2]
        rfl
      · intro k hkne
        rw [hk] at hset
        simp only
        rw [hk, hset, if_neg hkne]

/-- C7 at an interface holding two BSSs of one network: removing the first leaves the
network with the second and calls nothing. -/
theorem C7_interface_bss_removed_witness :
    g_hash_table_lookup supplicant_network.group
        (interface_bss_removed (some all_callbacks) (some "/bss/0")
          two_bss_interface).1.network_table "hidden_infra_none"
        = some (network_without
            { network_alloc hidden_bss_a with
              bss_table := [hidden_bss_a, { hidden_bss_a with path := "/bss/1" }] } "/bss/0")
      ∧ (interface_bss_removed (some all_callbacks) (some "/bss/0") two_bss_interface).2
          = [] :=
  ((C7_interface_bss_removed (some all_callbacks) two_bss_interface "/bss/0").2.2
    ("/bss/0", "hidden_infra_none")
    { network_alloc hidden_bss_a with
      bss_table := [hidden_bss_a, { hidden_bss_a with path := "/bss/1" }] }
    (by decide) (by decide)).2.2.2.2.2.1 (by decide)

/-! ### C8: the display name -/

/-- C8: `create_name` of an SSID array and a length `ssid_len` is the empty string
when `ssid_len < 1` or the first byte is zero; otherwise it has exactly `ssid_len`
characters, the `i`-th being the `i`-th SSID byte (`ssid.getD i 0` is `ssid[i]`) when
that byte is printable ASCII (0x20..0x7e) and a space otherwise. -/
theorem C8_create_name (ssid : List Byte) (ssid_len : Int) :
    ((ssid_len < 1 ∨ ssid.getD 0 0 = 0) → create_name ssid ssid_len = "")
      ∧ (¬ (ssid_len < 1 ∨ ssid.getD 0 0 = 0) →
          ((create_name ssid ssid_len).length : Int) = ssid_len
          ∧ ∀ i : Nat, (i : Int) < ssid_len →
              (create_name ssid ssid_len).data[i]?
                = some (if 0x20 ≤ (ssid.getD i 0).val ∧ (ssid.getD i 0).val ≤ 0x7e
                        then Char.ofNat (ssid.getD i 0).val else ' ')) := by
  constructor
  · intro h
    unfold create_name
    rw [if_pos h]
  · intro h
    have hpos : 1 ≤ ssid_len := by
      by_contra hc
      exact h (Or.inl (by omega))
    simp only [create_name, h, if_false]
    constructor
    · simp [String.length]
      omega
    · intro i hi
      have hi2 : i < ssid_len.toNat := by omega
      simp [List.getElem?_range hi2, g_ascii_isprint]

/-! ### C9: `BSSAdded` twice -/

/-- C9: handling the same `BSSAdded` signal (path and inline property bag, run through
`bss_property` up to the sentinel) a second time leaves the interface, with its
`network_table`, `bss_mapping` and every `bss_table`, as the first handling left it and
makes no callback; and a `BSSAdded`, with or without inline properties, for a path that
is indexed in `bss_mapping` and in that network's `bss_table` changes nothing and makes
no callback. -/
theorem C9_bss_added_idempotent (callbacks_pointer : Option supplicant_callbacks)
    (interface : supplicant_interface) (path : Option String)
    (properties : List (String × DBusValue)) :
    interface_bss_added callbacks_pointer path (some properties)
        (interface_bss_added callbacks_pointer path (some properties) interface).1
        = ((interface_bss_added callbacks_pointer path (some properties) interface).1, [])
      ∧ (∀ (p : String) (inline : Option (List (String × DBusValue))),
          bss_indexed interface p = true →
          interface_bss_added callbacks_pointer (some p) inline interface
            = (interface, [])) := by
  refine ⟨?_, fun p inline h => interface_bss_added_indexed _ _ _ _ h⟩
  cases path with
  | none => rfl
  | some p =>
    by_cases hroot : (p == "/") = true
    · unfold interface_bss_added
      simp only [hroot, if_true]
    · by_cases hidx : bss_indexed interface p = true
      · rw [interface_bss_added_indexed _ _ _ _ hidx]
        exact interface_bss_added_indexed _ _ _ _ hidx
      · simp only [Bool.not_eq_true] at hroot hidx
        rw [interface_bss_added_inline _ _ _ _ hroot hidx]
        apply interface_bss_added_indexed
        have h := bss_indexed_add_bss_to_network callbacks_pointer interface
          (built_bss callbacks_pointer interface p properties)
        rw [built_bss_path] at h
        exact h

/-- C9 at the interface that already holds `/bss/0`: a further `BSSAdded` for that path,
here with the bag of the WPA-PSK scenario, changes nothing. -/
theorem C9_bss_added_idempotent_witness :
    interface_bss_added (some all_callbacks) (some "/bss/0")
        (some (guest_bag guest_rsnie)) two_bss_interface = (two_bss_interface, []) :=
  (C9_bss_added_idempotent (some all_callbacks) two_bss_interface (some "/bss/0")
    (guest_bag guest_rsnie)).2 "/bss/0" (some (guest_bag guest_rsnie)) (by decide)

/-! ### C10: `BSSAdded` then `BSSRemoved` -/

/-- C10 as stated fails: `stale_interface` is reached from a fresh interface by
`BSSAdded`, a `GetAll` reply and `BSSRemoved`; the path `/bss/0` is not indexed in it
(no entry in `bss_mapping`), but the network `4775657374_infra_wep` still holds a record
for the path. `BSSAdded` for `/bss/0` with the bag of the WPA-PSK scenario replaces
that record, and `BSSRemoved` for `/bss/0` then empties and removes the network: the
round trip ends in an interface without networks, not in the starting interface. -/
theorem C10_counterexample :
    stale_interface
        = { interface_alloc "/wlan0" with
            network_table :=
              [{ interface := none
                 group := "4775657374_infra_wep"
                 name := "Guest"
                 mode := supplicant_mode.INFRA
                 bss_table := [guest_bss supplicant_security.WEP false] }]
            bss_mapping := [] }
      ∧ interface_wf stale_interface
      ∧ bss_indexed stale_interface "/bss/0" = false
      ∧ (interface_bss_removed (some all_callbacks) (some "/bss/0")
          (interface_bss_added (some all_callbacks) (some "/bss/0")
            (some (guest_bag guest_rsnie)) stale_interface).1).1
        = interface_alloc "/wlan0"
      ∧ (interface_bss_removed (some all_callbacks) (some "/bss/0")
          (interface_bss_added (some all_callbacks) (some "/bss/0")
            (some (guest_bag guest_rsnie)) stale_interface).1).1
        ≠ stale_interface :=
  ⟨by decide, ⟨by decide, by decide⟩, by decide, by decide, by decide⟩

/-- C10, amended: in an interface whose `network_table` holds one network per group
key and no network with an empty `bss_table` (`interface_wf`, which `interface_alloc`
establishes and `interface_bss_added`, `add_bss_to_network` and `interface_bss_removed`
preserve), and for a path that is in neither index (not in `bss_mapping`, and not in
the `bss_table` of any network), handling `BSSAdded` for the path with any inline
property bag up to the sentinel and then `BSSRemoved` for the path gives back the
starting interface: the same `network_table`, `bss_mapping` and `bss_table` of every
network. -/
theorem C10_add_remove_round_trip (callbacks_pointer : Option supplicant_callbacks)
    (interface : supplicant_interface) (path : String)
    (properties : List (String × DBusValue))
    (hwf : interface_wf interface)
    (hmap : g_hash_table_lookup Prod.fst interface.bss_mapping path = none)
    (htab : ∀ n ∈ interface.network_table,
      g_hash_table_lookup supplicant_bss.path n.bss_table path = none) :
    (interface_bss_removed callbacks_pointer (some path)
        (interface_bss_added callbacks_pointer (some path) (some properties)
          interface).1).1 = interface := by
  obtain ⟨hkeys, hnonempty⟩ := hwf
  have hgone : (interface_bss_removed callbacks_pointer (some path) interface).1
      = interface := by
    rw [interface_bss_removed_absent callbacks_pointer interface path hmap]
  by_cases hroot : (path == "/") = true
  · have : interface_bss_added callbacks_pointer (some path) (some properties) interface
        = (interface, []) := by
      unfold interface_bss_added
      simp only [hroot, if_true]
    rw [this]
    exact hgone
  · simp only [Bool.not_eq_true] at hroot
    have hidx : bss_indexed interface path = false := by
      unfold bss_indexed
      rw [hmap]
    rw [interface_bss_added_inline _ _ _ _ hroot hidx]
    have hp := built_bss_path callbacks_pointer interface path properties
    generalize built_bss callbacks_pointer interface path properties = bss at hp
    subst hp
    cases hfound : g_hash_table_lookup supplicant_network.group interface.network_table
        (create_group bss) with
    | none => exact add_remove_new callbacks_pointer interface bss hmap hfound
    | some n0 =>
      have hmem := (lookup_key _ _ _ _ hfound).2
      exact add_remove_found callbacks_pointer interface bss n0 hkeys hmap hfound
        (hnonempty n0 hmem) (htab n0 hmem)

/-- C10, amended, at the interface holding `/bss/0` and `/bss/1`: `BSSAdded` for `/bss/2` with
the bag of the WPA-PSK scenario, then `BSSRemoved` for `/bss/2`. -/
theorem C10_add_remove_round_trip_witness :
    (interface_bss_removed (some all_callbacks) (some "/bss/2")
        (interface_bss_added (some all_callbacks) (some "/bss/2")
          (some (guest_bag guest_rsnie)) two_bss_interface).1).1 = two_bss_interface :=
  C10_add_remove_round_trip (some all_callbacks) two_bss_interface "/bss/2"
    (guest_bag guest_rsnie) ⟨by decide, by decide⟩ (by decide) (by decide)

/-! ### C11: the security classification is monotone -/

/-- C11: when some property of the bag is an RSNIE or WPAIE carrying a PSK AKM suite
and no property carries an 802.1X suite, the BSS that `interface_bss_added` builds from
the bag has security PSK, not WEP, wherever the properties stand in the bag and whatever
`Privacy` and `Capabilities` values it holds; and no call of `bss_property` clears
`psk` or `ieee8021x` once set. -/
theorem C11_security_monotone (callbacks_pointer : Option supplicant_callbacks) :
    (∀ (interface : supplicant_interface) (path : String)
        (properties : List (String × DBusValue)),
        (∃ entry ∈ properties, ie_carries 2 entry) →
        (∀ entry ∈ properties, ie_carries_no 1 entry) →
        (built_bss callbacks_pointer interface path properties).security
            = supplicant_security.PSK
          ∧ (built_bss callbacks_pointer interface path properties).security
            ≠ supplicant_security.WEP)
      ∧ (∀ (key : Option String) (iter : DBusValue) (ctx : bss_context),
          (ctx.bss.psk = true →
            (bss_property callbacks_pointer key iter ctx).bss.psk = true)
          ∧ (ctx.bss.ieee8021x = true →
            (bss_property callbacks_pointer key iter ctx).bss.ieee8021x = true)) := by
  refine ⟨?_, fun key iter ctx => bss_property_keeps callbacks_pointer key iter ctx⟩
  intro interface path properties hpsk hno
  have ha := property_foreach_alloc callbacks_pointer interface path properties
  have h1 := property_foreach_sets_psk callbacks_pointer properties
    { interface := interface, bss := bss_alloc interface path, emitted := [] }
    (by simp [bss_alloc]) hpsk
  have h2 := property_foreach_no_ieee8021x callbacks_pointer properties
    { interface := interface, bss := bss_alloc interface path, emitted := [] }
    (by simp [bss_alloc]) rfl hno
  have hs : (built_bss callbacks_pointer interface path properties).security
      = supplicant_security.PSK := by
    unfold built_bss
    rw [bss_property_sentinel_security _ _ _ ha.2.2.2, h1, h2]
    rfl
  rw [hs]
  exact ⟨rfl, by decide⟩

/-- C11 at the bag `Privacy = true`, WPAIE with OUI `00:50:f2` and AKM type 2,
`Privacy = false`. -/
theorem C11_security_monotone_witness :
    (built_bss none (interface_alloc "/wlan0") "/bss/0" upgrade_bag).security
      = supplicant_security.PSK := by
  have hw : rsn_wellformed (wpa_psk_ie.drop 6) [⟨0x00, 0x50, 0xf2, 0x02⟩] :=
    ⟨[0x01, 0x00], [0x00, 0x50, 0xf2, 0x02], [⟨0x00, 0x50, 0xf2, 0x02⟩], [], rfl, rfl, rfl,
      by decide, by decide⟩
  have hb : ie_body ("WPAIE", DBusValue.byte_array wpa_psk_ie)
      = some (wpa_psk_ie.drop 6) := by decide
  refine ((C11_security_monotone none).1 (interface_alloc "/wlan0") "/bss/0" upgrade_bag
    ⟨("WPAIE", DBusValue.byte_array wpa_psk_ie), by simp [upgrade_bag],
      wpa_psk_ie.drop 6, [⟨0x00, 0x50, 0xf2, 0x02⟩], hb, hw, by decide⟩ ?_).1
  intro entry he body hbody
  simp only [upgrade_bag, List.mem_cons, List.mem_singleton, List.not_mem_nil,
    or_false] at he
  rcases he with he | he | he
  · subst he
    have hnone : ie_body ("Privacy", DBusValue.boolean true) = none := by decide
    rw [hnone] at hbody
    cases hbody
  · subst he
    rw [hb] at hbody
    simp only [Option.some.injEq] at hbody
    subst hbody
    exact Or.inr ⟨[⟨0x00, 0x50, 0xf2, 0x02⟩], hw, by decide⟩
  · subst he
    have hnone : ie_body ("Privacy", DBusValue.boolean false) = none := by decide
    rw [hnone] at hbody
    cases hbody

/-! ### C12: a malformed element is dropped -/

/-- C12: when any length check of `extract_rsn` fails (fewer than 2 bytes for the
version, fewer than 4 for the group cipher, no 2-byte pairwise count, a pairwise list
that overruns the remaining length, no 2-byte AKM count, an AKM list that overruns the
remaining length), `extract_rsn` returns the BSS as it was, flags and every other field;
`bss_property` for such an RSNIE or WPAIE leaves its whole context unchanged; and a
`BSSAdded` with inline properties, whatever they hold, ends with the BSS indexed in
`bss_mapping` and in its network's `bss_table`. -/
theorem C12_malformed_ie_dropped (callbacks_pointer : Option supplicant_callbacks) :
    (∀ (bss : supplicant_bss) (buf : List Byte) (len : Int),
        rsn_malformed buf len → extract_rsn bss buf len = bss)
      ∧ (∀ (ie : List Byte) (ctx : bss_context),
          rsn_malformed (ie.drop 2) ((ie.length : Int) - 2) →
          bss_property callbacks_pointer (some "RSNIE") (DBusValue.byte_array ie) ctx = ctx)
      ∧ (∀ (ie : List Byte) (ctx : bss_context),
          rsn_malformed (ie.drop 6) ((ie.length : Int) - 6) →
          bss_property callbacks_pointer (some "WPAIE") (DBusValue.byte_array ie) ctx = ctx)
      ∧ (∀ (interface : supplicant_interface) (path : String)
          (properties : List (String × DBusValue)), (path == "/") = false →
          bss_indexed
            (interface_bss_added callbacks_pointer (some path) (some properties)
              interface).1 path = true) := by
  refine ⟨fun bss buf len h => extract_rsn_malformed bss buf len h, ?_, ?_,
    fun interface path properties h =>
      interface_bss_added_records callbacks_pointer interface path properties h⟩
  · intro ie ctx h
    by_cases hn : ctx.bss.interface = none
    · exact bss_property_null_interface _ _ _ _ hn
    · rw [bss_property_rsnie _ _ _ hn]
      simp only [get_fixed_array]
      split
      · rw [extract_rsn_malformed _ _ _ h]
      · rfl
  · intro ie ctx h
    by_cases hn : ctx.bss.interface = none
    · exact bss_property_null_interface _ _ _ _ hn
    · rw [bss_property_wpaie _ _ _ hn]
      simp only [get_fixed_array]
      split
      · rw [extract_rsn_malformed _ _ _ h]
      · rfl

/-- C12 at an RSN body whose pairwise count, 3840, overruns its twelve remaining
bytes. -/
theorem C12_malformed_ie_dropped_witness :
    extract_rsn (bss_alloc (interface_alloc "/wlan0") "/bss/0") (guest_rsnie.drop 2) 18
      = bss_alloc (interface_alloc "/wlan0") "/bss/0" :=
  (C12_malformed_ie_dropped none).1 (bss_alloc (interface_alloc "/wlan0") "/bss/0")
    (guest_rsnie.drop 2) 18 (Or.inr (Or.inr (Or.inr (Or.inl (by decide)))))

/-! ### C13: the offsets of RSNIE and WPAIE -/

/-- C13: for a BSS whose interface pointer is set, `bss_property` parses an RSNIE of
more than 2 bytes from offset 2 and a WPAIE of more than 6 bytes from offset 6, with the
remaining length; it leaves its context unchanged, calling no parser, for an RSNIE of at
most 2 bytes and a WPAIE of at most 6 bytes, so for every element shorter than its
prefix; and it leaves the context unchanged, so sets neither `ieee8021x` nor `psk`, for
every RSNIE of fewer than 8 bytes. -/
theorem C13_ie_offsets (callbacks_pointer : Option supplicant_callbacks)
    (ie : List Byte) (ctx : bss_context) (h : ctx.bss.interface ≠ none) :
    (ie.length > 2 →
        bss_property callbacks_pointer (some "RSNIE") (DBusValue.byte_array ie) ctx
          = { ctx with
              bss := extract_rsn ctx.bss (ie.drop 2) ((ie.length : Int) - 2) })
      ∧ (ie.length ≤ 2 →
          bss_property callbacks_pointer (some "RSNIE") (DBusValue.byte_array ie) ctx = ctx)
      ∧ (ie.length > 6 →
          bss_property callbacks_pointer (some "WPAIE") (DBusValue.byte_array ie) ctx
            = { ctx with
                bss := extract_rsn ctx.bss (ie.drop 6) ((ie.length : Int) - 6) })
      ∧ (ie.length ≤ 6 →
          bss_property callbacks_pointer (some "WPAIE") (DBusValue.byte_array ie) ctx = ctx)
      ∧ (ie.length < 8 →
          bss_property callbacks_pointer (some "RSNIE") (DBusValue.byte_array ie) ctx = ctx)
    := by
  rw [bss_property_rsnie _ _ _ h, bss_property_wpaie _ _ _ h]
  simp only [get_fixed_array]
  refine ⟨?_, ?_, ?_, ?_, ?_⟩
  · intro hl
    rw [if_pos (by omega)]
  · intro hl
    rw [if_neg (by omega)]
  · intro hl
    rw [if_pos (by omega)]
  · intro hl
    rw [if_neg (by omega)]
  · intro hl
    split
    · rw [extract_rsn_malformed _ _ _ (rsn_malformed_of_short _ _ (by omega))]
    · rfl

/-- C13 at the seven-byte RSNIE `30 05 01 00 00 0f ac`: no flag is set. -/
theorem C13_ie_offsets_witness :
    bss_property none (some "RSNIE")
        (DBusValue.byte_array [0x30, 0x05, 0x01, 0x00, 0x00, 0x0f, 0xac])
        { interface := interface_alloc "/wlan0"
          bss := bss_alloc (interface_alloc "/wlan0") "/bss/0"
          emitted := [] }
      = { interface := interface_alloc "/wlan0"
          bss := bss_alloc (interface_alloc "/wlan0") "/bss/0"
          emitted := [] } :=
  (C13_ie_offsets none [0x30, 0x05, 0x01, 0x00, 0x00, 0x0f, 0xac]
    { interface := interface_alloc "/wlan0"
      bss := bss_alloc (interface_alloc "/wlan0") "/bss/0"
      emitted := [] } (by decide)).2.2.2.2 (by decide)

/-! ### C14: the SSID property -/

/-- C14: for a BSS whose interface pointer is set and whose SSID array has 32 bytes, an
SSID property of `n` bytes with `1 <= n <= 32` leaves the delivered bytes in the first
`n` bytes of `ssid`, the array still 32 bytes long, and `ssid_len = n`; for `n = 0` or
`n >= 33` the whole array is zeroed and `ssid_len = 0`, so that the name is empty and the
group key is `hidden` followed by the mode and security suffixes. -/
theorem C14_ssid_property (callbacks_pointer : Option supplicant_callbacks)
    (ssid : List Byte) (ctx : bss_context) (h : ctx.bss.interface ≠ none)
    (harray : ctx.bss.ssid.length = 32) :
    (1 ≤ ssid.length ∧ ssid.length ≤ 32 →
        (bss_property callbacks_pointer (some "SSID") (DBusValue.byte_array ssid)
            ctx).bss.ssid.take ssid.length = ssid
        ∧ (bss_property callbacks_pointer (some "SSID") (DBusValue.byte_array ssid)
            ctx).bss.ssid.length = 32
        ∧ (bss_property callbacks_pointer (some "SSID") (DBusValue.byte_array ssid)
            ctx).bss.ssid_len = ssid.length)
      ∧ (ssid.length = 0 ∨ 33 ≤ ssid.length →
          (bss_property callbacks_pointer (some "SSID") (DBusValue.byte_array ssid)
              ctx).bss.ssid = List.replicate 32 0
          ∧ (bss_property callbacks_pointer (some "SSID") (DBusValue.byte_array ssid)
              ctx).bss.ssid_len = 0
          ∧ create_name
              (bss_property callbacks_pointer (some "SSID") (DBusValue.byte_array ssid)
                ctx).bss.ssid
              (bss_property callbacks_pointer (some "SSID") (DBusValue.byte_array ssid)
                ctx).bss.ssid_len = ""
          ∧ create_group
              (bss_property callbacks_pointer (some "SSID") (DBusValue.byte_array ssid)
                ctx).bss
              = "hidden" ++ mode_suffix ctx.bss.mode
                  ++ security_suffix ctx.bss.security) := by
  rw [bss_property_ssid _ _ _ h]
  simp only [get_fixed_array]
  constructor
  · intro hl
    rw [if_pos (by omega)]
    refine ⟨?_, ?_, rfl⟩
    · exact List.take_left' rfl
    · show (ssid ++ List.drop ssid.length ctx.bss.ssid).length = 32
      rw [List.length_append, List.length_drop, harray]
      omega
  · intro hl
    rw [if_neg (by omega)]
    refine ⟨?_, rfl, ?_, ?_⟩
    · show List.replicate ctx.bss.ssid.length 0 = List.replicate 32 0
      rw [harray]
    · unfold create_name
      rw [if_pos (Or.inl (show ((0 : Nat) : Int) < 1 by decide))]
    · rw [create_group_eq]
      simp

/-- C14 at SSIDs of 32 and of 33 bytes. -/
theorem C14_ssid_property_witness :
    (bss_property none (some "SSID") (DBusValue.byte_array (List.replicate 32 0x41))
        { interface := interface_alloc "/wlan0"
          bss := bss_alloc (interface_alloc "/wlan0") "/bss/0"
          emitted := [] }).bss.ssid_len = 32
      ∧ (bss_property none (some "SSID") (DBusValue.byte_array (List.replicate 33 0x41))
        { interface := interface_alloc "/wlan0"
          bss := bss_alloc (interface_alloc "/wlan0") "/bss/0"
          emitted := [] }).bss.ssid_len = 0 :=
  ⟨((C14_ssid_property none (List.replicate 32 0x41)
      { interface := interface_alloc "/wlan0"
        bss := bss_alloc (interface_alloc "/wlan0") "/bss/0"
        emitted := [] } (by decide) (by decide)).1 (by decide)).2.2,
   ((C14_ssid_property none (List.replicate 33 0x41)
      { interface := interface_alloc "/wlan0"
        bss := bss_alloc (interface_alloc "/wlan0") "/bss/0"
        emitted := [] } (by decide) (by decide)).2 (by decide)).2.1⟩

/-! ### C15: the Capabilities property -/

/-- C15 as stated fails: the capabilities `0x0003` have the IBSS bit set and the mode
becomes infra, not ad-hoc. -/
theorem C15_counterexample :
    (0x0003 : Nat) &&& IEEE80211_CAP_IBSS ≠ 0
      ∧ (bss_property none (some "Capabilities") (DBusValue.uint16 0x0003)
          { interface := interface_alloc "/wlan0"
            bss := bss_alloc (interface_alloc "/wlan0") "/bss/0"
            emitted := [] }).bss.mode = supplicant_mode.INFRA
      ∧ (bss_property none (some "Capabilities") (DBusValue.uint16 0x0003)
          { interface := interface_alloc "/wlan0"
            bss := bss_alloc (interface_alloc "/wlan0") "/bss/0"
            emitted := [] }).bss.mode ≠ supplicant_mode.IBSS := by
  decide

/-- C15, amended: for a BSS whose interface pointer is set and a 16-bit Capabilities
value, the mode becomes infra if bit `0x0001` (ESS) is set, becomes ad-hoc if bit
`0x0002` (IBSS) is set and ESS is not, and is unchanged if neither is set; `privacy`
becomes true if bit `0x0010` (PRIVACY) is set and is unchanged otherwise; nothing else
changes. -/
theorem C15_capabilities (callbacks_pointer : Option supplicant_callbacks)
    (capabilities : Nat) (ctx : bss_context) (h : ctx.bss.interface ≠ none)
    (h16 : capabilities < 65536) :
    (capabilities &&& 0x0001 ≠ 0 →
        (bss_property callbacks_pointer (some "Capabilities")
          (DBusValue.uint16 capabilities) ctx).bss.mode = supplicant_mode.INFRA)
      ∧ (capabilities &&& 0x0001 = 0 → capabilities &&& 0x0002 ≠ 0 →
          (bss_property callbacks_pointer (some "Capabilities")
            (DBusValue.uint16 capabilities) ctx).bss.mode = supplicant_mode.IBSS)
      ∧ (capabilities &&& 0x0001 = 0 → capabilities &&& 0x0002 = 0 →
          (bss_property callbacks_pointer (some "Capabilities")
            (DBusValue.uint16 capabilities) ctx).bss.mode = ctx.bss.mode)
      ∧ (capabilities &&& 0x0010 ≠ 0 →
          (bss_property callbacks_pointer (some "Capabilities")
            (DBusValue.uint16 capabilities) ctx).bss.privacy = true)
      ∧ (capabilities &&& 0x0010 = 0 →
          (bss_property callbacks_pointer (some "Capabilities")
            (DBusValue.uint16 capabilities) ctx).bss.privacy = ctx.bss.privacy)
      ∧ bss_property callbacks_pointer (some "Capabilities")
          (DBusValue.uint16 capabilities) ctx
        = { ctx with bss := { ctx.bss with
              mode := (bss_property callbacks_pointer (some "Capabilities")
                (DBusValue.uint16 capabilities) ctx).bss.mode
              privacy := (bss_property callbacks_pointer (some "Capabilities")
                (DBusValue.uint16 capabilities) ctx).bss.privacy } } := by
  rw [bss_property_capabilities _ _ _ h]
  have hv : get_basic_uint16 (DBusValue.uint16 capabilities) 0 = capabilities := by
    simp only [get_basic_uint16]
    exact Nat.mod_eq_of_lt h16
  simp only [hv, IEEE80211_CAP_ESS, IEEE80211_CAP_IBSS, IEEE80211_CAP_PRIVACY]
  refine ⟨?_, ?_, ?_, ?_, ?_, trivial⟩
  · intro h1
    rw [if_pos h1]
  · intro h1 h2
    rw [if_neg (by simpa using h1), if_pos h2]
  · intro h1 h2
    rw [if_neg (by simpa using h1), if_neg (by simpa using h2)]
  · intro h4
    rw [if_pos h4]
  · intro h4
    rw [if_neg (by simpa using h4)]

/-- C15, amended, at the capabilities `0x0012`: IBSS without ESS, and PRIVACY. -/
theorem C15_capabilities_witness :
    (bss_property none (some "Capabilities") (DBusValue.uint16 0x0012)
        { interface := interface_alloc "/wlan0"
          bss := bss_alloc (interface_alloc "/wlan0") "/bss/0"
          emitted := [] }).bss.mode = supplicant_mode.IBSS :=
  (C15_capabilities none 0x0012
    { interface := interface_alloc "/wlan0"
      bss := bss_alloc (interface_alloc "/wlan0") "/bss/0"
      emitted := [] } (by decide) (by decide)).2.1 (by decide) (by decide)

/-! ### C16: the peer is lost -/

/-- C16: for every state of the static variables, with the callbacks `network_removed`,
`interface_removed` and `system_killed` registered, handling `NameOwnerChanged` on the
bus object for the supplicant service with a non-empty old owner and an empty new owner
leaves `interface_table` empty, `system_available` false and `system_ready` false and
changes nothing else; what it does is exactly this callback trace: for each interface
that was in the table, in turn, `network_removed` for each of its networks and then
`interface_removed` for the interface (whose two tables are gone by then), and one
`system_killed` at the very end. -/
theorem C16_peer_lost (DBUS_PATH_DBUS SUPPLICANT_SERVICE SUPPLICANT_PATH : String)
    (old : String) (system : supplicant_system) (callbacks : supplicant_callbacks)
    (hcallbacks : system.callbacks_pointer = some callbacks)
    (hnetwork : callbacks.network_removed = true)
    (hinterface : callbacks.interface_removed = true)
    (hkilled : callbacks.system_killed = true)
    (hold : old.length > 0) :
    signal_name_owner_changed DBUS_PATH_DBUS SUPPLICANT_SERVICE SUPPLICANT_PATH
        DBUS_PATH_DBUS (some SUPPLICANT_SERVICE) (some old) (some "") system
      = ({ system with
            interface_table := [], system_available := false, system_ready := false },
          ((system.interface_table.flatMap (fun interface =>
              interface.network_table.map callback_event.network_removed
                ++ [callback_event.interface_removed
                      { interface with network_table := [], bss_mapping := [] }]))
            ++ [callback_event.system_killed]).map bus_action.callback) := by
  have hremove : ∀ interface : supplicant_interface,
      remove_interface (some callbacks) interface
        = interface.network_table.map callback_event.network_removed
            ++ [callback_event.interface_removed
                  { interface with network_table := [], bss_mapping := [] }] := by
    intro interface
    unfold remove_interface callback_interface_removed
    simp only [hinterface, if_true]
    congr 1
    induction interface.network_table with
    | nil => rfl
    | cons n rest ih =>
      simp only [List.flatMap_cons, List.map_cons, ih, remove_network,
        callback_network_removed, hnetwork, if_true, List.singleton_append]
  have hnew : ("" : String).length = 0 := rfl
  have hnot : ¬ ((0 : Nat) > 0 ∧ old.length = 0) := fun h => absurd h.1 (by decide)
  unfold signal_name_owner_changed
  simp only [bne_self_eq_false, Bool.false_eq_true, if_false, hnew, hold, and_self, if_true,
    hnot, callback_system_killed, hcallbacks, hkilled]
  rw [funext hremove]

/-- C16 at a replica with two interfaces, the first with one network: one
`network_removed`, two `interface_removed`, then `system_killed`. -/
theorem C16_peer_lost_witness :
    signal_name_owner_changed "/org/freedesktop/DBus" "fi.w1.wpa_supplicant1"
        "/fi/w1/wpa_supplicant1" "/org/freedesktop/DBus" (some "fi.w1.wpa_supplicant1")
        (some ":1.42") (some "") two_interface_system
      = ({ two_interface_system with
            interface_table := [], system_available := false, system_ready := false },
          ((two_interface_system.interface_table.flatMap (fun interface =>
              interface.network_table.map callback_event.network_removed
                ++ [callback_event.interface_removed
                      { interface with network_table := [], bss_mapping := [] }]))
            ++ [callback_event.system_killed]).map bus_action.callback) :=
  C16_peer_lost "/org/freedesktop/DBus" "fi.w1.wpa_supplicant1" "/fi/w1/wpa_supplicant1"
    ":1.42" two_interface_system all_callbacks rfl rfl rfl rfl (by decide)

/-! ### C17: `interface_added` once per interface -/

/-- C17 fails in the code: while `supplicant_interface_create` for `wlan0` waits for the
reply to `CreateInterface`, the signal `InterfaceAdded` for `/wlan0` with inline
properties puts the interface into `interface_table` and announces it with
`interface_added`; the reply to `CreateInterface` with the path `/wlan0` finds the
interface in the table and asks for its properties; at the end of that reply
`interface_create_property` calls the completion function and then runs
`interface_property` with the `NULL` key, which announces the same interface with
`interface_added` a second time. One interface has entered the table and
`interface_added` was called for it twice. -/
theorem C17_interface_added_twice :
    interface_added (some "/wlan0") (some wlan0_bag) system_running
        = ({ system_running with interface_table := [wlan0_interface] },
            [bus_action.callback (callback_event.interface_added wlan0_interface)])
      ∧ interface_create_result none (some "/wlan0") 0 wlan0_create_data
          { system_running with interface_table := [wlan0_interface] }
        = ({ system_running with interface_table := [wlan0_interface] },
            [bus_action.property_get_all "/wlan0"
              (get_all_function.interface_create_property
                { wlan0_create_data with interface := some "/wlan0" })])
      ∧ property_get_all_reply
          (get_all_function.interface_create_property
            { wlan0_create_data with interface := some "/wlan0" })
          wlan0_bag { system_running with interface_table := [wlan0_interface] }
        = ({ system_running with interface_table := [wlan0_interface] },
            [bus_action.create_callback 0 (some wlan0_interface),
              bus_action.callback (callback_event.interface_added wlan0_interface)])
      ∧ interface_added_count "/wlan0"
          ((interface_added (some "/wlan0") (some wlan0_bag) system_running).2
            ++ (interface_create_result none (some "/wlan0") 0 wlan0_create_data
                  { system_running with interface_table := [wlan0_interface] }).2
            ++ (property_get_all_reply
                  (get_all_function.interface_create_property
                    { wlan0_create_data with interface := some "/wlan0" })
                  wlan0_bag { system_running with interface_table := [wlan0_interface] }).2)
          = 2 := by
  decide

/-! ### C18: the order of the callbacks of an interface -/

/-- C18 as stated fails, in two ways, on a fresh interface whose bag is run through
`interface_property` up to the sentinel. For the bag with the single key `Scanning` set
to true, `scan_started` is called first and `interface_added` after it. For the bag with
the single key `BSSs` holding the paths `/bss/0` and `/bss/1`, the handler of the first
path finds the second path behind it, takes the branch for inline properties and runs
the sentinel of the BSS, so that `network_added` is called for the network `hidden_none`;
a `GetAll` request is sent for `/bss/1`; `interface_added` is called last. -/
theorem C18_counterexample :
    (interface_property (some all_callbacks) none DBusValue.other
        (supplicant_dbus_property_foreach (interface_property (some all_callbacks))
          [("Scanning", DBusValue.boolean true)]
          { interface := some (interface_alloc "/wlan0"), emitted := [] })).emitted
      = [bus_action.callback
            (callback_event.scan_started { interface_alloc "/wlan0" with scanning := true }),
          bus_action.callback
            (callback_event.interface_added
              { interface_alloc "/wlan0" with scanning := true })]
    ∧ (interface_property (some all_callbacks) none DBusValue.other
        (supplicant_dbus_property_foreach (interface_property (some all_callbacks))
          [("BSSs", DBusValue.object_paths ["/bss/0", "/bss/1"])]
          { interface := some (interface_alloc "/wlan0"), emitted := [] })).emitted
      = [bus_action.callback
            (callback_event.network_added
              { interface := none
                group := "hidden_none"
                name := ""
                mode := supplicant_mode.UNKNOWN
                bss_table := [] }),
          bus_action.property_get_all "/bss/1"
            (get_all_function.bss_property (bss_alloc (interface_alloc "/wlan0") "/bss/1")),
          bus_action.callback
            (callback_event.interface_added
              { interface_alloc "/wlan0" with
                network_table :=
                  [{ interface := none
                     group := "hidden_none"
                     name := ""
                     mode := supplicant_mode.UNKNOWN
                     bss_table :=
                       [{ bss_alloc (interface_alloc "/wlan0") "/bss/0" with
                          security := supplicant_security.NONE }] }]
                bss_mapping := [("/bss/0", "hidden_none")] })] := by
  decide

/-- C18, amended: in what handling the property bag of an interface does
(`interface_property` over any sequence of keys, then the sentinel), `interface_added`
comes last and only there: everything before it is a `scan_started` callback for that
interface, a `network_added` callback (for a network that an element of `BSSs`
created), or a request sent to the peer, so no `interface_added` and no `scan_finished`
comes earlier, and `interface_added` is called, if registered, with the interface as
the bag left it. A key `Scanning` set to true in the bag, with `scan_started`
registered, does put a `scan_started` before the `interface_added`. -/
theorem C18_interface_added_last (callbacks_pointer : Option supplicant_callbacks)
    (interface : supplicant_interface) (properties : List (String × DBusValue)) :
    ∃ (final : supplicant_interface) (before : List bus_action),
      interface_property callbacks_pointer none DBusValue.other
          (supplicant_dbus_property_foreach (interface_property callbacks_pointer)
            properties { interface := some interface, emitted := [] })
        = { interface := some final
            emitted := before
              ++ (callback_interface_added callbacks_pointer final).map bus_action.callback }
      ∧ final.path = interface.path
      ∧ (∀ a ∈ before, bag_action interface.path a)
      ∧ (∀ callbacks : supplicant_callbacks, callbacks_pointer = some callbacks →
          callbacks.scan_started = true →
          ("Scanning", DBusValue.boolean true) ∈ properties →
          ∃ scanning : supplicant_interface,
            bus_action.callback (callback_event.scan_started scanning) ∈ before) := by
  obtain ⟨final, before, h, hp, ha⟩ :=
    interface_property_foreach callbacks_pointer properties interface []
  rw [List.nil_append] at h
  refine ⟨final, before, ?_, hp, ha, ?_⟩
  · rw [h]
    rfl
  · intro callbacks hcb hscan hmem
    subst hcb
    obtain ⟨final2, extra, scanning, h2, hm⟩ :=
      interface_property_foreach_scanning callbacks hscan properties hmem interface []
    rw [List.nil_append, h] at h2
    have hbefore : before = extra := by
      injection h2
    rw [hbefore]
    exact ⟨scanning, hm⟩

/-- C18, amended, at the bag with the keys `BSSs`, holding two paths, and `Scanning`:
a `scan_started` comes before the `interface_added`. -/
theorem C18_interface_added_last_witness :
    ∃ (final : supplicant_interface) (before : List bus_action),
      interface_property (some all_callbacks) none DBusValue.other
          (supplicant_dbus_property_foreach (interface_property (some all_callbacks))
            [("BSSs", DBusValue.object_paths ["/bss/0", "/bss/1"]),
              ("Scanning", DBusValue.boolean true)]
            { interface := some (interface_alloc "/wlan0"), emitted := [] })
        = { interface := some final
            emitted := before
              ++ (callback_interface_added (some all_callbacks) final).map
                  bus_action.callback }
      ∧ (∀ a ∈ before, bag_action "/wlan0" a)
      ∧ ∃ scanning : supplicant_interface,
          bus_action.callback (callback_event.scan_started scanning) ∈ before :=
  match C18_interface_added_last (some all_callbacks) (interface_alloc "/wlan0")
      [("BSSs", DBusValue.object_paths ["/bss/0", "/bss/1"]),
        ("Scanning", DBusValue.boolean true)] with
  | ⟨final, before, h, _, hbag, hscan⟩ =>
    ⟨final, before, h, hbag, hscan all_callbacks rfl rfl (by decide)⟩

/-! ### C19: how `supplicant_interface_create` is resolved -/

/-- C19 as stated fails: when the reply to `GetInterface` carries a path that is not in
`interface_table`, the completion function is called with `-ENOENT` and `NULL`; no
interface is allocated and no `GetAll` request is sent. -/
theorem C19_counterexample :
    g_hash_table_lookup supplicant_interface.path system_running.interface_table "/wlan0"
        = none
      ∧ interface_get_result none (some "/wlan0") 0 wlan0_create_data system_running
        = (system_running, [bus_action.create_callback (-ENOENT) none]) := by
  decide

/-- C19, amended: in an operation with a completion function, when the reply to
`GetInterface` carries the path `p`, the completion function is called with 0 and the
interface of `p` if `p` is in `interface_table`, and with `-ENOENT` and `NULL`, the
state unchanged, if it is not. When `GetInterface` fails and the peer is available,
`CreateInterface` is called. When the reply to `CreateInterface` carries the path `p`
and the peer is available, the interface of `p` is looked up, or allocated if `p` is not
in `interface_table`, and a `GetAll` request is sent for it; the reply to that request
applies the keys of the bag to the interface through `interface_property`, then calls
the completion function with 0 and the interface so populated, then calls
`interface_added` for it. -/
theorem C19_interface_create_resolution (system : supplicant_system)
    (data : interface_create_data) (p : String) (properties : List (String × DBusValue))
    (hcallback : data.callback = true) :
    (∀ (interface : supplicant_interface) (result : Int),
        g_hash_table_lookup supplicant_interface.path system.interface_table p
            = some interface →
          interface_get_result none (some p) result data system
            = (system, [bus_action.create_callback 0 (some interface)]))
      ∧ (∀ result : Int,
          g_hash_table_lookup supplicant_interface.path system.interface_table p = none →
          interface_get_result none (some p) result data system
            = (system, [bus_action.create_callback (-ENOENT) none]))
      ∧ (∀ (error : String) (path : Option String), system.system_available = true →
          interface_get_result (some error) path 0 data system
            = (system, [bus_action.method_call "CreateInterface" data]))
      ∧ (system.system_available = true →
          ∃ (created after : supplicant_system) (final : supplicant_interface)
            (before : List bus_action),
            interface_create_result none (some p) 0 data system
              = (created,
                  [bus_action.property_get_all p
                    (get_all_function.interface_create_property
                      { data with interface := some p })])
            ∧ g_hash_table_lookup supplicant_interface.path created.interface_table p
              = some ((g_hash_table_lookup supplicant_interface.path
                  system.interface_table p).getD (interface_alloc p))
            ∧ supplicant_dbus_property_foreach
                (interface_property system.callbacks_pointer) properties
                { interface := some ((g_hash_table_lookup supplicant_interface.path
                    system.interface_table p).getD (interface_alloc p))
                  emitted := [] }
              = { interface := some final, emitted := before }
            ∧ property_get_all_reply
                (get_all_function.interface_create_property
                  { data with interface := some p })
                properties created
              = (after,
                  before ++ [bus_action.create_callback 0 (some final)]
                    ++ (callback_interface_added system.callbacks_pointer final).map
                        bus_action.callback)
            ∧ g_hash_table_lookup supplicant_interface.path after.interface_table p
              = some final) := by
  refine ⟨?_, ?_, ?_, ?_⟩
  · intro interface result h
    unfold interface_get_result
    simp only [ne_eq, not_true_eq_false, if_false, h, hcallback, if_true]
  · intro result h
    unfold interface_get_result
    simp only [ne_eq, not_true_eq_false, if_false, h, hcallback, if_true]
  · intro error path havailable
    unfold interface_get_result
    simp only [ne_eq, reduceCtorEq, not_false_eq_true, if_true, havailable,
      Bool.true_eq_false, if_false]
  · intro havailable
    cases hfound : g_hash_table_lookup supplicant_interface.path system.interface_table p with
    | some interface =>
      obtain ⟨final, before, after, h1, h2, h3, _⟩ :=
        interface_create_reply { data with interface := some p } p rfl hcallback properties
          system interface hfound
      refine ⟨system, after, final, before, ?_, hfound, h1, h2, h3⟩
      unfold interface_create_result
      simp only [ne_eq, not_true_eq_false, if_false, havailable, Bool.true_eq_false, hfound,
        if_true]
    | none =>
      have hcreated : g_hash_table_lookup supplicant_interface.path
          (g_hash_table_replace supplicant_interface.path system.interface_table
            (interface_alloc p)) p = some (interface_alloc p) :=
        lookup_replace_self supplicant_interface.path system.interface_table
          (interface_alloc p)
      obtain ⟨final, before, after, h1, h2, h3, _⟩ :=
        interface_create_reply { data with interface := some p } p rfl hcallback properties
          { system with
            interface_table :=
              g_hash_table_replace supplicant_interface.path system.interface_table
                (interface_alloc p) }
          (interface_alloc p) hcreated
      refine ⟨_, after, final, before, ?_, hcreated, h1, h2, h3⟩
      unfold interface_create_result
      simp only [ne_eq, not_true_eq_false, if_false, havailable, Bool.true_eq_false, hfound,
        if_true]

/-- C19, amended, at the running peer without interfaces: the reply to
`CreateInterface` with the path `/wlan0` and then the reply to `GetAll`. -/
theorem C19_interface_create_resolution_witness :
    ∃ (created after : supplicant_system) (final : supplicant_interface)
      (before : List bus_action),
      interface_create_result none (some "/wlan0") 0 wlan0_create_data system_running
        = (created,
            [bus_action.property_get_all "/wlan0"
              (get_all_function.interface_create_property
                { wlan0_create_data with interface := some "/wlan0" })])
      ∧ g_hash_table_lookup supplicant_interface.path created.interface_table "/wlan0"
        = some ((g_hash_table_lookup supplicant_interface.path
            system_running.interface_table "/wlan0").getD (interface_alloc "/wlan0"))
      ∧ supplicant_dbus_property_foreach
          (interface_property system_running.callbacks_pointer) wlan0_bag
          { interface := some ((g_hash_table_lookup supplicant_interface.path
              system_running.interface_table "/wlan0").getD (interface_alloc "/wlan0"))
            emitted := [] }
        = { interface := some final, emitted := before }
      ∧ property_get_all_reply
          (get_all_function.interface_create_property
            { wlan0_create_data with interface := some "/wlan0" })
          wlan0_bag created
        = (after,
            before ++ [bus_action.create_callback 0 (some final)]
              ++ (callback_interface_added system_running.callbacks_pointer final).map
                  bus_action.callback)
      ∧ g_hash_table_lookup supplicant_interface.path after.interface_table "/wlan0"
        = some final :=
  (C19_interface_create_resolution system_running wlan0_create_data "/wlan0" wlan0_bag
    rfl).2.2.2 rfl

/-! ### C20: the getters -/

/-- C20 as stated fails: called with a `NULL` interface,
`supplicant_interface_get_ifname` and `supplicant_interface_get_driver` return `NULL`,
not the empty string. -/
theorem C20_counterexample :
    supplicant_interface_get_ifname none = none
      ∧ supplicant_interface_get_ifname none ≠ some ""
      ∧ supplicant_interface_get_driver none = none
      ∧ supplicant_interface_get_driver none ≠ some "" := by
  decide

/-- C20, amended: every getter accepts a `NULL` object. For a `NULL` interface
`supplicant_interface_get_ifname` and `supplicant_interface_get_driver` return `NULL`,
and for an interface they return the stored field, which is `NULL` until the property
was seen. For a `NULL` network `supplicant_network_get_name` and
`supplicant_network_get_identifier` return the empty string, `supplicant_network_get_mode`
returns the unknown mode and `supplicant_network_get_interface` returns `NULL`; for a
network they return the stored name, group (the empty string when the field is `NULL`),
mode and interface, so for a network of the replica its name and its group. -/
theorem C20_getters :
    supplicant_interface_get_ifname none = none
      ∧ supplicant_interface_get_driver none = none
      ∧ (∀ interface : supplicant_interface,
          supplicant_interface_get_ifname (some interface) = interface.ifname
            ∧ supplicant_interface_get_driver (some interface) = interface.driver)
      ∧ supplicant_network_get_name none = ""
      ∧ supplicant_network_get_identifier none = ""
      ∧ supplicant_network_get_mode none = supplicant_mode.UNKNOWN
      ∧ supplicant_network_get_interface none = none
      ∧ (∀ network : network_fields,
          supplicant_network_get_name (some network) = network.name.getD ""
            ∧ supplicant_network_get_identifier (some network) = network.group.getD ""
            ∧ supplicant_network_get_mode (some network) = network.mode
            ∧ supplicant_network_get_interface (some network) = network.interface)
      ∧ (∀ network : supplicant_network,
          supplicant_network_get_name (some network.fields) = network.name
            ∧ supplicant_network_get_identifier (some network.fields) = network.group) := by
  refine ⟨rfl, rfl, fun _ => ⟨rfl, rfl⟩, rfl, rfl, rfl, rfl, ?_, fun _ => ⟨rfl, rfl⟩⟩
  intro network
  cases network with
  | mk interface group name mode =>
    cases group <;> cases name <;> exact ⟨rfl, rfl, rfl, rfl⟩

/-! ### C21: the path `/` is ignored -/

/-- C21: in every state of the static variables that registration, the signal handlers
and the replies to their `GetAll` requests reach, a signal `InterfaceAdded`,
`InterfaceCreated`, `InterfaceRemoved`, `BSSAdded`, `BSSRemoved` or `NetworkAdded` whose
object path argument is `/`, received on any path, leaves the state as it is, with
`interface_table` and the `network_table` and `bss_mapping` of every interface, and
neither calls a callback nor sends a request; and so does an element `/` of the
properties `CurrentBSS` and `BSSs` of an interface and of the property `Interfaces` of
the root object. -/
theorem C21_null_path_ignored
    (DBUS_PATH_DBUS SUPPLICANT_SERVICE SUPPLICANT_PATH : String)
    (system : supplicant_system) (sent : List bus_action)
    (h : replica_reachable DBUS_PATH_DBUS SUPPLICANT_SERVICE SUPPLICANT_PATH system sent) :
    (∀ (path : Option String) (properties : Option (List (String × DBusValue))),
        supplicant_filter DBUS_PATH_DBUS SUPPLICANT_SERVICE SUPPLICANT_PATH path
            (supplicant_signal.InterfaceAdded (some "/") properties) system = (system, [])
          ∧ supplicant_filter DBUS_PATH_DBUS SUPPLICANT_SERVICE SUPPLICANT_PATH path
              (supplicant_signal.InterfaceCreated (some "/") properties) system
            = (system, [])
          ∧ supplicant_filter DBUS_PATH_DBUS SUPPLICANT_SERVICE SUPPLICANT_PATH path
              (supplicant_signal.BSSAdded (some "/") properties) system = (system, [])
          ∧ supplicant_filter DBUS_PATH_DBUS SUPPLICANT_SERVICE SUPPLICANT_PATH path
              (supplicant_signal.NetworkAdded (some "/") properties) system
            = (system, []))
      ∧ (∀ path : Option String,
          supplicant_filter DBUS_PATH_DBUS SUPPLICANT_SERVICE SUPPLICANT_PATH path
              (supplicant_signal.InterfaceRemoved (some "/")) system = (system, [])
            ∧ supplicant_filter DBUS_PATH_DBUS SUPPLICANT_SERVICE SUPPLICANT_PATH path
                (supplicant_signal.BSSRemoved (some "/")) system = (system, []))
      ∧ (∀ (interface : supplicant_interface) (emitted : List bus_action),
          interface_property system.callbacks_pointer (some "CurrentBSS")
              (DBusValue.object_path "/") { interface := some interface, emitted := emitted }
            = { interface := some interface, emitted := emitted }
          ∧ interface_property system.callbacks_pointer (some "BSSs")
              (DBusValue.object_paths ["/"])
              { interface := some interface, emitted := emitted }
            = { interface := some interface, emitted := emitted })
      ∧ ∀ emitted : List bus_action,
          service_property (some "Interfaces") (DBusValue.object_paths ["/"])
              (system, emitted) = (system, emitted) := by
  obtain ⟨⟨hnodup, hfree⟩, _⟩ :=
    replica_reachable_inv DBUS_PATH_DBUS SUPPLICANT_SERVICE SUPPLICANT_PATH system sent h
  have hpos : array_positions [(some "/" : Option String)] = [(some "/", false)] := rfl
  have hstore : ∀ (p : String) (interface : supplicant_interface),
      g_hash_table_lookup supplicant_interface.path system.interface_table p
        = some interface → interface_store system (some interface) = system :=
    fun p interface hl =>
      interface_store_self system interface hnodup (lookup_key _ _ _ _ hl).2
  refine ⟨?_, ?_, ?_, ?_⟩
  · intro path properties
    cases path with
    | none => exact ⟨rfl, rfl, rfl, rfl⟩
    | some p =>
      have hadded : signal_interface_added SUPPLICANT_PATH p (some "/") properties system
          = (system, []) := by
        unfold signal_interface_added
        split_ifs
        · exact interface_added_root properties system
        · rfl
      refine ⟨hadded, hadded, ?_, ?_⟩
      · show signal_bss_added p (some "/") properties system = (system, [])
        unfold signal_bss_added
        cases hl : g_hash_table_lookup supplicant_interface.path system.interface_table
            p with
        | none => rfl
        | some interface =>
          simp only [interface_bss_added_actions_root]
          rw [hstore p interface hl]
      · show signal_network_added p (some "/") properties system = (system, [])
        unfold signal_network_added interface_network_added
        cases g_hash_table_lookup supplicant_interface.path system.interface_table p with
        | none => rfl
        | some interface => simp only [beq_self_eq_true, if_true]
  · intro path
    cases path with
    | none => exact ⟨rfl, rfl⟩
    | some p =>
      constructor
      · show signal_interface_removed SUPPLICANT_PATH p (some "/") system = (system, [])
        have hnone : g_hash_table_lookup supplicant_interface.path system.interface_table
            "/" = none := by
          rw [lookup_eq_none_iff]
          exact fun i hi => (hfree i hi).1
        unfold signal_interface_removed interface_removed
        split_ifs
        · simp only [hnone]
        · rfl
      · show signal_bss_removed p (some "/") system = (system, [])
        unfold signal_bss_removed
        cases hl : g_hash_table_lookup supplicant_interface.path system.interface_table
            p with
        | none => rfl
        | some interface =>
          have hnone : g_hash_table_lookup Prod.fst interface.bss_mapping "/" = none := by
            rw [lookup_eq_none_iff]
            exact (hfree interface (lookup_key _ _ _ _ hl).2).2
          simp only [interface_bss_removed_absent _ _ _ hnone, List.map_nil]
          rw [hstore p interface hl]
  · intro interface emitted
    constructor
    · unfold interface_property
      simp only []
      rw [if_neg (by decide), if_neg (by decide), if_neg (by decide), if_neg (by decide),
        if_neg (by decide), if_neg (by decide), if_neg (by decide), if_pos (by decide)]
      simp only [get_basic_path, interface_bss_added_actions_root, List.append_nil]
    · unfold interface_property
      simp only []
      rw [if_neg (by decide), if_neg (by decide), if_neg (by decide), if_neg (by decide),
        if_neg (by decide), if_neg (by decide), if_neg (by decide), if_neg (by decide),
        if_neg (by decide), if_pos (by decide)]
      simp only [get_object_paths, supplicant_dbus_array_foreach, List.map_cons,
        List.map_nil, hpos, List.foldl_cons, List.foldl_nil,
        interface_bss_added_actions_root, List.append_nil]
  · intro emitted
    unfold service_property
    simp only []
    rw [if_neg (by decide), if_neg (by decide), if_neg (by decide), if_neg (by decide),
      if_pos (by decide)]
    simp only [get_object_paths, supplicant_dbus_array_foreach, List.map_cons,
      List.map_nil, hpos, List.foldl_cons, List.foldl_nil, interface_added_root,
      List.append_nil]

/-- C21 at the replica that holds the interface `/wlan0` and nothing else: an
`InterfaceRemoved` for `/` on the root object and a `BSSRemoved` for `/` on `/wlan0`
change nothing. -/
theorem C21_null_path_ignored_witness :
    wlan0_replica.interface_table = [wlan0_interface]
      ∧ supplicant_filter "/org/freedesktop/DBus" "fi.w1.wpa_supplicant1"
        "/fi/w1/wpa_supplicant1" (some "/fi/w1/wpa_supplicant1")
        (supplicant_signal.InterfaceRemoved (some "/")) wlan0_replica = (wlan0_replica, [])
      ∧ supplicant_filter "/org/freedesktop/DBus" "fi.w1.wpa_supplicant1"
          "/fi/w1/wpa_supplicant1" (some "/wlan0")
          (supplicant_signal.BSSRemoved (some "/")) wlan0_replica = (wlan0_replica, []) :=
  ⟨by decide,
    ((C21_null_path_ignored "/org/freedesktop/DBus" "fi.w1.wpa_supplicant1"
      "/fi/w1/wpa_supplicant1" wlan0_replica wlan0_replica_sent
      (replica_reachable.signal _ _ _ _ (replica_reachable.register _ _))).2.1
        (some "/fi/w1/wpa_supplicant1")).1,
    ((C21_null_path_ignored "/org/freedesktop/DBus" "fi.w1.wpa_supplicant1"
      "/fi/w1/wpa_supplicant1" wlan0_replica wlan0_replica_sent
      (replica_reachable.signal _ _ _ _ (replica_reachable.register _ _))).2.1
        (some "/wlan0")).2⟩

/-! ### C22: the consistency of the BSS index -/

/-- C22 fails in the code: on a fresh interface, a `BSSAdded` for `/bss/0` without
inline properties leaves a record waiting for its `GetAll` reply; a `BSSAdded` for the
same path with inline properties then indexes a second record in the network
`4775657374_infra_wep`; the reply for the first record, whose bag gives the group
`4775657374_infra_psk`, indexes it in a second network and overwrites the entry of
`bss_mapping`. The second record stays in the `bss_table` of the first network while
`bss_mapping` points to the other network: the index is not consistent. -/
theorem C22_stale_index :
    (bss_messages_run (some all_callbacks) stale_index_messages
        (interface_alloc "/wlan0")).1
      = { interface_alloc "/wlan0" with
          network_table :=
            [{ interface := none
               group := "4775657374_infra_wep"
               name := "Guest"
               mode := supplicant_mode.INFRA
               bss_table := [guest_bss supplicant_security.WEP false] },
             { interface := none
               group := "4775657374_infra_psk"
               name := "Guest"
               mode := supplicant_mode.INFRA
               bss_table := [guest_bss supplicant_security.PSK true] }]
          bss_mapping := [("/bss/0", "4775657374_infra_psk")] }
      ∧ ¬ index_consistent
          (bss_messages_run (some all_callbacks) stale_index_messages
            (interface_alloc "/wlan0")).1 := by
  decide

/-! ### C23: the networks of an interface are well formed -/

/-- C23: start from the interface `interface_alloc` creates and handle any sequence of
`BSSAdded` signals (with inline properties or without), replies to the `GetAll` requests
for BSS records and `BSSRemoved` signals. Every network then in `network_table` is the
one stored under its own group key, its `bss_table` is not empty, and every BSS of its
`bss_table` has the group key (`create_group`) of the network. -/
theorem C23_network_wellformed (callbacks_pointer : Option supplicant_callbacks)
    (path : String) (messages : List bss_message) (network : supplicant_network)
    (hnetwork : network ∈ (bss_messages_run callbacks_pointer messages
      (interface_alloc path)).1.network_table) :
    g_hash_table_lookup supplicant_network.group
        (bss_messages_run callbacks_pointer messages (interface_alloc path)).1.network_table
        network.group = some network
      ∧ network.bss_table ≠ []
      ∧ ∀ b ∈ network.bss_table, create_group b = network.group := by
  have hinit : interface_wf (interface_alloc path)
      ∧ bss_groups_match (interface_alloc path) := by
    refine ⟨interface_alloc_wf path, ?_⟩
    intro n hn
    simp [interface_alloc] at hn
  obtain ⟨⟨hkeys, hnonempty⟩, hgroups⟩ :=
    bss_messages_run_inv callbacks_pointer messages (interface_alloc path) hinit
  exact ⟨lookup_of_mem_nodup _ _ hkeys network hnetwork, hnonempty network hnetwork,
    hgroups network hnetwork⟩

/-- C23 at the end of the stale index scenario: the network `4775657374_infra_wep`,
which still holds its BSS, is well formed. -/
theorem C23_network_wellformed_witness :
    g_hash_table_lookup supplicant_network.group
        (bss_messages_run (some all_callbacks) stale_index_messages
          (interface_alloc "/wlan0")).1.network_table
        "4775657374_infra_wep"
        = some
            { interface := none
              group := "4775657374_infra_wep"
              name := "Guest"
              mode := supplicant_mode.INFRA
              bss_table := [guest_bss supplicant_security.WEP false] }
      ∧ [guest_bss supplicant_security.WEP false] ≠ []
      ∧ ∀ b ∈ [guest_bss supplicant_security.WEP false],
          create_group b = "4775657374_infra_wep" :=
  C23_network_wellformed (some all_callbacks) "/wlan0" stale_index_messages
    { interface := none
      group := "4775657374_infra_wep"
      name := "Guest"
      mode := supplicant_mode.INFRA
      bss_table := [guest_bss supplicant_security.WEP false] }
    (by decide)

/-! ### C24: the group key determines the name and the mode -/

/-- C24: two BSSs with the same group key (`create_group`) have the same display name
(`create_name` of their SSID) and the same mode. Hence, when `add_bss_to_network` finds
the network of the group of a BSS, and that network carries the name and the mode of a
BSS of that group, as `add_bss_to_network` recorded them at creation, then the joining
BSS would have given the same name and mode; the join makes no callback and the network
found under the group key afterwards has the same name, mode and group. -/
theorem C24_group_determines_name_mode (b1 b2 : supplicant_bss)
    (h : create_group b1 = create_group b2) :
    create_name b1.ssid b1.ssid_len = create_name b2.ssid b2.ssid_len
      ∧ b1.mode = b2.mode
      ∧ ∀ (callbacks_pointer : Option supplicant_callbacks)
          (interface : supplicant_interface) (network : supplicant_network),
          g_hash_table_lookup supplicant_network.group interface.network_table
              (create_group b2) = some network →
          network.name = create_name b1.ssid b1.ssid_len →
          network.mode = b1.mode →
          create_name b2.ssid b2.ssid_len = network.name
            ∧ b2.mode = network.mode
            ∧ (add_bss_to_network callbacks_pointer interface b2).2 = []
            ∧ ∃ joined : supplicant_network,
                g_hash_table_lookup supplicant_network.group
                    (add_bss_to_network callbacks_pointer interface b2).1.network_table
                    (create_group b2) = some joined
                  ∧ joined.name = network.name
                  ∧ joined.mode = network.mode
                  ∧ joined.group = network.group
                  ∧ g_hash_table_lookup supplicant_bss.path joined.bss_table b2.path
                      = some b2 := by
  obtain ⟨hname, hmode⟩ := create_name_of_group b1 b2 h
  refine ⟨hname, hmode, ?_⟩
  intro callbacks_pointer interface network hfound hn hm
  refine ⟨by rw [hn, hname], by rw [hm, hmode], ?_, ?_⟩
  · rw [add_bss_to_network_emitted, hfound]
  · refine ⟨_, add_bss_to_network_lookup_group callbacks_pointer interface b2, ?_⟩
    rw [hfound]
    exact ⟨rfl, rfl, rfl, lookup_replace_self supplicant_bss.path network.bss_table b2⟩

/-- C24 at two BSSs of the network `Guest` that differ in path and frequency: the same
name and mode. -/
theorem C24_group_determines_name_mode_witness :
    create_name (guest_bss supplicant_security.PSK true).ssid
        (guest_bss supplicant_security.PSK true).ssid_len
      = create_name
          { guest_bss supplicant_security.PSK true with
            path := "/bss/1", frequency := 5180 }.ssid
          { guest_bss supplicant_security.PSK true with
            path := "/bss/1", frequency := 5180 }.ssid_len
      ∧ (guest_bss supplicant_security.PSK true).mode
        = { guest_bss supplicant_security.PSK true with
            path := "/bss/1", frequency := 5180 }.mode :=
  ⟨(C24_group_determines_name_mode (guest_bss supplicant_security.PSK true)
      { guest_bss supplicant_security.PSK true with path := "/bss/1", frequency := 5180 }
      rfl).1,
    (C24_group_determines_name_mode (guest_bss supplicant_security.PSK true)
      { guest_bss supplicant_security.PSK true with path := "/bss/1", frequency := 5180 }
      rfl).2.1⟩

/-! ### C25: `extract_rsn` stays within its buffer -/

/-- C25: for a buffer of `len` bytes (so `len ≥ 0`), the run of `extract_rsn` with its
accesses recorded computes the same BSS as `extract_rsn`, and every byte it reads, the
two bytes of each count and the bytes of each AKM suite, lies at an offset `r` with
`0 ≤ r < len`, inside the buffer; every `int` it computes from a count or from the loop
index lies between 0 and 262142; every value `len` takes lies between 0 and the `len`
passed; and the body of the loop runs at most 65535 times. -/
theorem C25_extract_rsn_bounds (bss : supplicant_bss) (buf : List Byte) (len : Int)
    (hlen : (buf.length : Int) = len) :
    (extract_rsn_run bss buf len).1 = extract_rsn bss buf len
      ∧ (∀ r ∈ (extract_rsn_run bss buf len).2.reads,
          0 ≤ r ∧ r < len ∧ r.toNat < buf.length)
      ∧ (∀ v ∈ (extract_rsn_run bss buf len).2.ints, 0 ≤ v ∧ v ≤ 262142)
      ∧ (∀ l ∈ (extract_rsn_run bss buf len).2.lens, 0 ≤ l ∧ l ≤ len)
      ∧ (extract_rsn_run bss buf len).2.iterations ≤ 65535 := by
  have hin : ∀ r : Int, 0 ≤ r → r < len → 0 ≤ r ∧ r < len ∧ r.toNat < buf.length := by
    intro r h0 h1
    refine ⟨h0, h1, ?_⟩
    omega
  have hc1 := rsn_count_lt ((buf.drop 2).drop 4)
  have hs1 := shift_byte_le (((buf.drop 2).drop 4).getD 1 0)
  have hc2 := rsn_count_lt
    (((buf.drop 2).drop 4).drop (2 + rsn_count ((buf.drop 2).drop 4) * 4))
  have hs2 := shift_byte_le
    ((((buf.drop 2).drop 4).drop (2 + rsn_count ((buf.drop 2).drop 4) * 4)).getD 1 0)
  unfold extract_rsn_run extract_rsn
  by_cases h1 : len < 2
  · simp only [if_pos h1]
    simp
  simp only [if_neg h1]
  by_cases h2 : len - 2 < 4
  · simp only [if_pos h2]
    simp
    omega
  simp only [if_neg h2]
  by_cases h3 : len - 2 - 4 < 2
  · simp only [if_pos h3]
    simp
    omega
  simp only [if_neg h3]
  generalize rsn_count ((buf.drop 2).drop 4) = c1 at hc1 hc2 hs2 ⊢
  generalize (((buf.drop 2).drop 4).getD 1 0).val <<< 8 = s1 at hs1 ⊢
  by_cases h4 : 2 + (c1 : Int) * 4 > len - 2 - 4
  · simp only [if_pos h4]
    refine ⟨trivial, ?_, ?_, ?_, Nat.zero_le _⟩
    · intro r hr
      simp only [List.mem_cons, List.mem_singleton, List.not_mem_nil, or_false] at hr
      apply hin <;> omega
    · intro v hv
      simp only [List.mem_cons, List.mem_singleton, List.not_mem_nil, or_false] at hv
      omega
    · intro l hl
      simp only [List.mem_cons, List.mem_singleton, List.not_mem_nil, or_false] at hl
      omega
  simp only [if_neg h4]
  by_cases h5 : len - 2 - 4 - (2 + (c1 : Int) * 4) < 2
  · simp only [if_pos h5]
    refine ⟨trivial, ?_, ?_, ?_, Nat.zero_le _⟩
    · intro r hr
      simp only [List.mem_cons, List.mem_singleton, List.not_mem_nil, or_false] at hr
      apply hin <;> omega
    · intro v hv
      simp only [List.mem_append, List.mem_cons, List.mem_singleton, List.not_mem_nil,
        or_false] at hv
      omega
    · intro l hl
      simp only [List.mem_cons, List.mem_singleton, List.not_mem_nil, or_false] at hl
      omega
  simp only [if_neg h5]
  generalize rsn_count (((buf.drop 2).drop 4).drop (2 + c1 * 4)) = c2 at hc2 ⊢
  generalize ((((buf.drop 2).drop 4).drop (2 + c1 * 4)).getD 1 0).val <<< 8 = s2 at hs2 ⊢
  by_cases h6 : 2 + (c2 : Int) * 4 > len - 2 - 4 - (2 + (c1 : Int) * 4)
  · simp only [if_pos h6]
    refine ⟨trivial, ?_, ?_, ?_, Nat.zero_le _⟩
    · intro r hr
      simp only [List.mem_append, List.mem_cons, List.mem_singleton, List.not_mem_nil,
        or_false] at hr
      apply hin <;> omega
    · intro v hv
      simp only [List.mem_append, List.mem_cons, List.mem_singleton, List.not_mem_nil,
        or_false] at hv
      omega
    · intro l hl
      simp only [List.mem_cons, List.mem_singleton, List.not_mem_nil, or_false] at hl
      omega
  simp only [if_neg h6]
  rw [extract_rsn_loop_run]
  refine ⟨rfl, ?_, ?_, ?_, ?_⟩
  · intro r hr
    simp only [List.mem_append, List.mem_cons, List.mem_singleton, List.not_mem_nil,
      or_false, List.mem_flatMap, List.mem_range] at hr
    rcases hr with hr | ⟨i, hi, hr⟩
    · apply hin <;> omega
    · have hb := extract_rsn_suite_reads_bounds _ _ r hr
      apply hin <;> omega
  · intro v hv
    simp only [List.mem_append, List.mem_cons, List.mem_singleton, List.not_mem_nil,
      or_false, List.mem_flatMap, List.mem_range] at hv
    rcases hv with (hv | ⟨i, hi, hv⟩) | hv <;> omega
  · intro l hl
    simp only [List.mem_append, List.mem_cons, List.mem_singleton, List.not_mem_nil,
      or_false] at hl
    omega
  · simp only [List.length_range, Nat.zero_add]
    omega

/-- C25 at the twenty bytes of the WPA-PSK scenario, taken as the body of an element:
the two counts are read at the offsets 6, 7 and 12, 13, the one AKM suite at the
offsets 14 to 17, all below 20. -/
theorem C25_extract_rsn_bounds_witness :
    (extract_rsn_run (guest_bss supplicant_security.UNKNOWN false) guest_rsnie 20).2.reads
        = [6, 7, 12, 13, 14, 15, 16, 14, 15, 16, 17]
      ∧ ∀ r ∈ (extract_rsn_run (guest_bss supplicant_security.UNKNOWN false)
            guest_rsnie 20).2.reads,
          0 ≤ r ∧ r < 20 ∧ r.toNat < guest_rsnie.length :=
  ⟨by decide,
    (C25_extract_rsn_bounds (guest_bss supplicant_security.UNKNOWN false) guest_rsnie 20
      (by decide)).2.1⟩

end Supplicant
